import Mathlib

/-!
# HolomatV3: printer telemetry relay, calendar, voice service and settings

A shallow embedding of the BambuLab integration of `server.mjs`: the module
level state (telemetry cache, printer config, MQTT client handle, sequence
counter, last pushall time), the function `connectMqttClient` with the two
event handlers it registers, `loadBambuConfig`, `saveBambuConfig`, and the
HTTP handlers of the 3D printing API that read or write that state or the
stored cloud token, with the Hugging Face config endpoints. The month
navigation and the grid of a month of `CalendarApp.jsx` follow, then the
methods `updateSettings`, `startVoiceAssistant` and `stopVoiceAssistant` of
`realtimeVoiceService.js`, the dashboard expression of
`ThreeDPrintingApp.jsx` and `loadSettings` of `settingsService.js`.

JavaScript values are embedded as JSON values; `undefined` is the `none` of
`Option JVal`. Calls into the MQTT library and the console are recorded, in
order, in an effect trace carried by the state; the config file is a field
of the state. Handlers are taken to run one at a time, an asynchronous one
without another handler running at its `await`, so every function below is
a function from state to state.
-/

namespace Holomat

/-! ## JavaScript values -/

/-- A JavaScript value as `JSON.parse` produces it. Numbers carry an integer:
the embedded code only tests a number for being zero, increments the
sequence counter and subtracts timestamps, and a fractional number passes
every test below as a non-zero integer does. An object is given by its
entries in the order they were defined; a later entry of the same name
overrides an earlier one, as in `JSON.parse` and in property assignment. -/
inductive JVal where
  | null
  | bool (b : Bool)
  | num (n : Int)
  | str (s : String)
  | arr (xs : List JVal)
  | obj (kvs : List (String × JVal))

/-- The entries of an object. -/
abbrev Entries := List (String × JVal)

/-- How a statement or handler ends: normally, or by a thrown error. -/
inductive Completion where
  | normal
  | threw (error : String)
  deriving DecidableEq

/-- Truthiness (ToBoolean) of a value; `none` is `undefined`. -/
def truthy : Option JVal → Bool
  | none => false
  | some .null => false
  | some (.bool b) => b
  | some (.num n) => n != 0
  | some (.str s) => s != ""
  | some (.arr _) => true
  | some (.obj _) => true

/-- The value of the last entry named `k`, if there is one. -/
def lookupLast : Entries → String → Option JVal
  | [], _ => none
  | (k', v) :: rest, k =>
    match lookupLast rest k with
    | some w => some w
    | none => if k' = k then some v else none

/-- Member access `v.k` for a name `k` that no built-in prototype defines
(the embedded code reads `print`, `gcode_state` and the config field names
only). Reading a member of `null` or `undefined` throws a TypeError; a
primitive or an array has no such member; an object yields its entry. -/
def getMember : Option JVal → String → Except String (Option JVal)
  | none, k => .error ("TypeError: Cannot read properties of undefined (reading " ++ k ++ ")")
  | some .null, k => .error ("TypeError: Cannot read properties of null (reading " ++ k ++ ")")
  | some (.obj kvs), k => .ok (lookupLast kvs k)
  | some _, _ => .ok none

/-- Decimal text of an array index. -/
def indexKey (i : Nat) : String := toString i

/-- Entries `(i, x_i)` of a list, numbered from `i`. -/
def indexed : Nat → List JVal → Entries
  | _, [] => []
  | i, x :: xs => (indexKey i, x) :: indexed (i + 1) xs

/-- The own enumerable properties `Object.assign` copies from a source: the
entries of an object, the indexed elements of an array, the indexed
characters of a string (exact for text of the Basic Multilingual Plane),
nothing for any other value. -/
def ownProps : JVal → Entries
  | .obj kvs => kvs
  | .arr xs => indexed 0 xs
  | .str s => indexed 0 (s.toList.map (fun c => JVal.str (String.singleton c)))
  | _ => []

/-- Property assignment `target[k] = v` on an object with plain data
properties: an existing property keeps its place and takes the new value, a
new one is added at the end. Assigning `__proto__` reaches the prototype
setter and defines no own property; prototypes are not part of the model. -/
def setProp (target : Entries) (k : String) (v : JVal) : Entries :=
  if k = "__proto__" then target
  else if target.any (fun e => e.1 == k) then
    target.map (fun e => if e.1 = k then (k, v) else e)
  else target ++ [(k, v)]

/-- The call `Object.assign(target, source)`: every own property of the
source is assigned to the target, in order. -/
def objectAssign (target : Entries) (source : JVal) : Entries :=
  (ownProps source).foldl (fun t e => setProp t e.1 e.2) target

mutual
/-- String conversion (ToString) as a template literal applies it. -/
def toJsString : JVal → String
  | .null => "null"
  | .bool b => if b then "true" else "false"
  | .num n => toString n
  | .str s => s
  | .arr xs => joinElems xs
  | .obj _ => "[object Object]"
termination_by structural v => v
/-- The text of an array joined with commas, as ToString of an array gives
it: a `null` element contributes the empty text. -/
def joinElems : List JVal → String
  | [] => ""
  | x :: rest =>
    (match x with
      | .null => ""
      | v => toJsString v) ++
    (match rest with
      | [] => ""
      | _ :: _ => "," ++ joinElems rest)
termination_by structural xs => xs
end

/-- A substitution in a template literal; `undefined` reads "undefined". -/
def template : Option JVal → String
  | none => "undefined"
  | some v => toJsString v

/-- Strict equality `v === lit` with a string literal. -/
def strictEqStr : Option JVal → String → Bool
  | some (.str s), lit => s == lit
  | _, _ => false

/-- The platform functions on JSON text, taken as given. `parse` is
`JSON.parse` (`none` when it throws a SyntaxError), `stringify` is
`JSON.stringify(v)` and `stringifyIndented` is `JSON.stringify(v, null, 2)`. -/
structure JsonLib where
  parse : String → Option JVal
  stringify : JVal → String
  stringifyIndented : JVal → String

/-! ## Module state and effects -/

/-- What a call of `connectMqttClient` fixes for the handlers it registers:
the constants `printerType`, `topicReport` and `topicRequest` of its scope. -/
structure Session where
  printerType : Option JVal
  topicReport : String
  topicRequest : String

/-- A call that leaves the process: into the MQTT library or the console.
A client is named by its handle, the number of clients created before it.
Of the options of `mqtt.connect` the effect keeps `clientId`, `password` and
`reconnectPeriod`; `listen` is the call `mqttClient.on(event, handler)`;
`subscribe` is called with a callback, the function `onSubscribed` of the
session; `callback` tells whether `publish` is given one. -/
inductive Effect where
  | mqttConnect (client : Nat) (url : String) (clientId : String) (password : Option JVal)
      (reconnectPeriod : Nat)
  | listen (client : Nat) (event : String)
  | mqttEnd (client : Nat)
  | subscribe (client : Nat) (topic : String)
  | publish (client : Nat) (topic : String) (payload : String) (callback : Bool)
  | consoleLog (text : String)
  | consoleWarn (text : String)
  | consoleError (text : String)

/-- The module level variables of the BambuLab integration, the handlers of
every client created so far, the content of `bambu-config.json` (`none`
when the file cannot be read) and the trace of effects. -/
structure Relay where
  telemetryCache : JVal
  bambuConfig : Entries
  mqttClient : Option Nat
  sequenceID : Int
  lastPushallTime : Int
  sessions : List Session
  configFile : Option String
  trace : List Effect

/-- The constant `PUSHALL_INTERVAL`, in milliseconds. -/
def PUSHALL_INTERVAL : Int := 5 * 60 * 1000

/-- The value of `process.env.NAME || fallback`. -/
def envOr (env : String → Option String) (name : String) (fallback : JVal) : JVal :=
  match env name with
  | some s => if s != "" then .str s else fallback
  | none => fallback

/-- The initial value of `bambuConfig`. -/
def defaultBambuConfig (env : String → Option String) : Entries :=
  [("printerURL", envOr env "BAMBUBOARD_PRINTER_URL" (.str "")),
   ("printerPort", envOr env "BAMBUBOARD_PRINTER_PORT" (.num 8883)),
   ("printerSN", envOr env "BAMBUBOARD_PRINTER_SN" (.str "")),
   ("printerAccessCode", envOr env "BAMBUBOARD_PRINTER_ACCESS_CODE" (.str "")),
   ("printerType", envOr env "BAMBUBOARD_PRINTER_TYPE" (.str "X1")),
   ("displayFanPercentages", .bool false),
   ("displayFanIcons", .bool true)]

/-- The state when the module has been evaluated and nothing has run yet. -/
def processStart (env : String → Option String) (file : Option String) : Relay :=
  { telemetryCache := .null
    bambuConfig := defaultBambuConfig env
    mqttClient := none
    sequenceID := 20000
    lastPushallTime := 0
    sessions := []
    configFile := file
    trace := [] }

/-- Append one effect to the trace. -/
def Relay.emit (st : Relay) (e : Effect) : Relay :=
  { st with trace := st.trace ++ [e] }

/-- The request object `{ pushing: { sequence_id, command: pushall }, user_id: 0 }`. -/
def pushallMsg (sequenceID : Int) : JVal :=
  .obj [("pushing", .obj [("sequence_id", .num sequenceID), ("command", .str "pushall")]),
        ("user_id", .str "0")]

/-! ## Config store -/

/-- The function `saveBambuConfig`: merge into the in-memory config, then
write the whole config. `writeOk` tells whether `fsp.writeFile` succeeds; a
failed write rejects, and the file is taken to keep its content. -/
def saveBambuConfig (E : JsonLib) (writeOk : Bool) (newConfig : JVal) (st : Relay) :
    Relay × Completion :=
  let st1 := { st with bambuConfig := objectAssign st.bambuConfig newConfig }
  if writeOk then
    ({ st1 with configFile := some (E.stringifyIndented (.obj st1.bambuConfig)) }, .normal)
  else (st1, .threw "writeFile failed")

/-- The function `loadBambuConfig`: merge the parsed file into the config;
when reading or parsing throws, write the current config instead. -/
def loadBambuConfig (E : JsonLib) (writeOk : Bool) (st : Relay) : Relay × Completion :=
  match st.configFile.bind E.parse with
  | some v => ({ st with bambuConfig := objectAssign st.bambuConfig v }, .normal)
  | none =>
    if writeOk then
      ({ st with configFile := some (E.stringifyIndented (.obj st.bambuConfig)) }, .normal)
    else (st, .threw "writeFile failed")

/-! ## Device link -/

/-- The function `connectMqttClient`. `rnd` is the text
`Math.random().toString(16).slice(2)`. The library calls `end`, `connect`
and `on` are taken not to throw. -/
def connectMqttClient (rnd : String) (st : Relay) : Relay × Completion :=
  let st1 := match st.mqttClient with
    | some h => st.emit (.mqttEnd h)
    | none => st
  let printerURL := lookupLast st1.bambuConfig "printerURL"
  let printerPort := lookupLast st1.bambuConfig "printerPort"
  let printerSN := lookupLast st1.bambuConfig "printerSN"
  let printerAccessCode := lookupLast st1.bambuConfig "printerAccessCode"
  let printerType := lookupLast st1.bambuConfig "printerType"
  if !truthy printerURL || !truthy printerSN || !truthy printerAccessCode then
    (st1.emit (.consoleWarn "Incomplete Bambu settings, MQTT disabled"), .normal)
  else
    let clientId := "mqtt_" ++ rnd
    let url := "mqtts://" ++ template printerURL ++ ":" ++ template printerPort
    let h := st1.sessions.length
    let sess : Session :=
      { printerType := printerType
        topicReport := "device/" ++ template printerSN ++ "/report"
        topicRequest := "device/" ++ template printerSN ++ "/request" }
    ({ st1 with
        mqttClient := some h
        sessions := st1.sessions ++ [sess]
        trace := st1.trace ++
          [.mqttConnect h url clientId printerAccessCode 0, .listen h "connect",
            .listen h "message"] }, .normal)

/-- The connect handler of a session: count the sequence up and subscribe
on the current client. -/
def onConnect (sess : Session) (st : Relay) : Relay × Completion :=
  let st1 := { st.emit (.consoleLog "Bambu MQTT connected") with sequenceID := st.sequenceID + 1 }
  match st1.mqttClient with
  | none => (st1, .threw "TypeError: Cannot read properties of null (reading subscribe)")
  | some h => (st1.emit (.subscribe h sess.topicReport), .normal)

/-- The callback given to `subscribe`: publish the initial pushall request.
It takes no argument, so it runs the same whether or not the subscription
was granted. -/
def onSubscribed (E : JsonLib) (sess : Session) (st : Relay) : Relay × Completion :=
  match st.mqttClient with
  | none => (st, .threw "TypeError: Cannot read properties of null (reading publish)")
  | some h =>
    (st.emit (.publish h sess.topicRequest (E.stringify (pushallMsg st.sequenceID)) false),
      .normal)

/-- The condition of the refresh in the message handler. -/
def pushallDue (printerType : Option JVal) (now lastPushallTime : Int) : Bool :=
  strictEqStr printerType "X1" ||
    ((["P1P", "P1", "A1"].any (fun t => strictEqStr printerType t)) &&
      decide (now - lastPushallTime ≥ PUSHALL_INTERVAL))

/-- The first statement pair of the try block: decode the message and
overwrite the cache when `json.print` is truthy and carries `gcode_state`. -/
def cacheUpdate (E : JsonLib) (message : String) (st : Relay) : Relay × Completion :=
  match E.parse message with
  | none => (st, .threw "SyntaxError")
  | some json =>
    match getMember (some json) "print" with
    | .error e => (st, .threw e)
    | .ok none => (st, .normal)
    | .ok (some print) =>
      if truthy (some print) then
        match getMember (some print) "gcode_state" with
        | .error e => (st, .threw e)
        | .ok none => (st, .normal)
        | .ok (some _) => ({ st with telemetryCache := print }, .normal)
      else (st, .normal)

/-- The rest of the try block: at time `now`, publish a pushall request
when one is due. -/
def refresh (E : JsonLib) (sess : Session) (now : Int) (st : Relay) : Relay × Completion :=
  if pushallDue sess.printerType now st.lastPushallTime then
    let st1 := { st with sequenceID := st.sequenceID + 1 }
    match st1.mqttClient with
    | none => (st1, .threw "TypeError: Cannot read properties of null (reading publish)")
    | some h =>
      ({ st1.emit (.publish h sess.topicRequest (E.stringify (pushallMsg st1.sequenceID)) false) with
          lastPushallTime := now }, .normal)
  else (st, .normal)

/-- The try block of the message handler; `now` is the value of `Date.now()`. -/
def messageTry (E : JsonLib) (sess : Session) (now : Int) (message : String) (st : Relay) :
    Relay × Completion :=
  match cacheUpdate E message st with
  | (st1, .threw e) => (st1, .threw e)
  | (st1, .normal) => refresh E sess now st1

/-- The message handler of a session: the try block, with any error caught
and logged. -/
def onMessage (E : JsonLib) (sess : Session) (now : Int) (message : String) (st : Relay) :
    Relay × Completion :=
  match messageTry E sess now message st with
  | (st1, .threw e) => (st1.emit (.consoleError ("MQTT message error " ++ e)), .normal)
  | (st1, .normal) => (st1, .normal)

/-! ## HTTP handlers -/

/-- An HTTP answer: status code and JSON body, if any. -/
structure Response where
  status : Nat
  body : Option JVal

/-- The handler of `GET /api/3dprint/status`. -/
def getStatus (st : Relay) : Response :=
  if truthy (some st.telemetryCache) then { status := 200, body := some st.telemetryCache }
  else { status := 204, body := none }

/-- The handler of `GET /api/3dprint/config`. -/
def getConfig (st : Relay) : Response :=
  { status := 200, body := some (.obj st.bambuConfig) }

/-- The handler of `POST /api/3dprint/config` with request body `body`. -/
def postConfig (E : JsonLib) (rnd : String) (writeOk : Bool) (body : JVal) (st : Relay) :
    Relay × Response :=
  let failure : Response :=
    { status := 500, body := some (.obj [("error", .str "Failed to save config")]) }
  match saveBambuConfig E writeOk body st with
  | (st1, .threw e) => (st1.emit (.consoleError ("Failed to save Bambu config: " ++ e)), failure)
  | (st1, .normal) =>
    match connectMqttClient rnd st1 with
    | (st2, .threw e) => (st2.emit (.consoleError ("Failed to save Bambu config: " ++ e)), failure)
    | (st2, .normal) => (st2, { status := 200, body := some (.obj [("success", .bool true)]) })

/-! ## Runs -/

/-- One incoming report message: the session whose handler receives it, the
clock reading when it is handled, and its text. -/
structure Delivery where
  session : Session
  now : Int
  message : String

/-- The state after the message handler has handled one delivery. -/
def deliver (E : JsonLib) (st : Relay) (d : Delivery) : Relay :=
  (onMessage E d.session d.now d.message st).1

/-- The state after a sequence of deliveries, handled in arrival order. -/
def processAll (E : JsonLib) (st : Relay) (ds : List Delivery) : Relay :=
  ds.foldl (deliver E) st

/-- Something that happens to the relay after the module was evaluated. -/
inductive Event where
  | loadConfig (writeOk : Bool)
  | connectCall (rnd : String)
  | connected (sess : Session)
  | subscribed (sess : Session)
  | message (d : Delivery)
  | postConfig (rnd : String) (writeOk : Bool) (body : JVal)

/-- The state after one event. -/
def step (E : JsonLib) (st : Relay) : Event → Relay
  | .loadConfig writeOk => (loadBambuConfig E writeOk st).1
  | .connectCall rnd => (connectMqttClient rnd st).1
  | .connected sess => (onConnect sess st).1
  | .subscribed sess => (onSubscribed E sess st).1
  | .message d => deliver E st d
  | .postConfig rnd writeOk body => (postConfig E rnd writeOk body st).1

/-- The state after a sequence of events. -/
def run (E : JsonLib) (st : Relay) (evs : List Event) : Relay :=
  evs.foldl (step E) st

/-- Whether an effect is a publish. -/
def Effect.isPublish : Effect → Bool
  | .publish _ _ _ _ => true
  | _ => false

/-- Whether an effect is a call of `mqtt.connect`. -/
def Effect.isMqttConnect : Effect → Bool
  | .mqttConnect _ _ _ _ _ => true
  | _ => false

/-- Whether an effect is the one that marks a run of `connectMqttClient`:
the warning of the disabled link, or the call of `mqtt.connect`. -/
def Effect.closesConnect : Effect → Bool
  | .mqttConnect _ _ _ _ _ => true
  | .consoleWarn _ => true
  | _ => false

/-- The publishes recorded so far. -/
def Relay.published (st : Relay) : List Effect := st.trace.filter Effect.isPublish

/-- The calls of `mqtt.connect` recorded so far. -/
def Relay.connects (st : Relay) : List Effect := st.trace.filter Effect.isMqttConnect

/-- How many runs of `connectMqttClient` are recorded. -/
def Relay.connectRuns (st : Relay) : Nat := (st.trace.filter Effect.closesConnect).length

/-- The clock readings of those deliveries of a run, all to one session,
at which the handler published a request. -/
def refreshTimes (E : JsonLib) (sess : Session) : Relay → List (Int × String) → List Int
  | _, [] => []
  | st, (now, message) :: rest =>
    let st1 := (onMessage E sess now message st).1
    (if st.published.length < st1.published.length then [now] else []) ++
      refreshTimes E sess st1 rest

/-! ## The words of the specification -/

/-- A field of an object value; any other value has no field. -/
def field : JVal → String → Option JVal
  | .obj kvs, k => lookupLast kvs k
  | _, _ => none

/-- The status payload of a decoded message: its `print` object, when that
object has a `gcode_state` field. -/
def statusPayload (json : JVal) : Option JVal :=
  match field json "print" with
  | some p => if (field p "gcode_state").isSome then some p else none
  | none => none

/-- The status payload of a message text, when the text decodes as JSON
and is a valid telemetry update. -/
def validPayload (E : JsonLib) (message : String) : Option JVal :=
  (E.parse message).bind statusPayload

/-- The status payload an event brings, when it is a valid message. -/
def Event.payload (E : JsonLib) : Event → Option JVal
  | .message d => validPayload E d.message
  | _ => none

/-! ## Sample data for the instances below -/

/-- A status payload with the given state. -/
def statusOf (state : String) : JVal := .obj [("gcode_state", .str state)]

/-- The text of a report whose state is RUNNING. -/
def runningText : String := "\x7b\"print\":\x7b\"gcode_state\":\"RUNNING\"\x7d\x7d"

/-- The text of a report whose state is FINISH. -/
def finishText : String := "\x7b\"print\":\x7b\"gcode_state\":\"FINISH\"\x7d\x7d"

/-- A JSON library for the instances: `parse` decodes the texts used below
as `JSON.parse` does and rejects every other text; the two serialisers
return a fixed text, which no instance looks into. -/
def sampleJson : JsonLib where
  parse := fun s =>
    if s = "null" then some .null
    else if s = "42" then some (.num 42)
    else if s = runningText then some (.obj [("print", statusOf "RUNNING")])
    else if s = finishText then some (.obj [("print", statusOf "FINISH")])
    else none
  stringify := fun _ => "<json>"
  stringifyIndented := fun _ => "<json, indented>"

/-- A complete printer config of the given family and port. -/
def sampleConfig (family : String) (port : JVal) : Entries :=
  [("printerURL", .str "10.0.0.5"), ("printerPort", port), ("printerSN", .str "ABC123"),
   ("printerAccessCode", .str "secret"), ("printerType", .str family)]

/-- The session `connectMqttClient` sets up from `sampleConfig family port`. -/
def sampleSession (family : String) : Session :=
  { printerType := some (.str family)
    topicReport := "device/ABC123/report"
    topicRequest := "device/ABC123/request" }

/-- The state at process start with `sampleConfig family port` in memory. -/
def sampleStart (family : String) (port : JVal) : Relay :=
  { processStart (fun _ => none) none with bambuConfig := sampleConfig family port }

/-- The state once `connectMqttClient` has run on `sampleStart family 8883`,
the client has connected and the initial pushall request has been published. -/
def sampleLinked (family : String) : Relay :=
  run sampleJson (sampleStart family (.num 8883))
    [.connectCall "a1b2", .connected (sampleSession family), .subscribed (sampleSession family)]

/-! ## Device link: the callback as the library calls it -/

/-- The callback given to `subscribe`, as the library calls it: with the
error of the subscription, if there is one. The function in the source
declares no parameter, so the argument is dropped. -/
def subscribeCallback (E : JsonLib) (sess : Session) (_err : Option String) (st : Relay) :
    Relay × Completion :=
  onSubscribed E sess st

/-- Whether a call into the library leaves the errors of the link alone:
`mqtt.connect` with `reconnectPeriod` 0, so the library retries nothing; `on`
for the `connect` or the `message` event, so not for `error`; `publish`
without a callback. Any other call qualifies. -/
def Effect.leavesErrors : Effect → Bool
  | .mqttConnect _ _ _ _ reconnectPeriod => reconnectPeriod == 0
  | .listen _ event => event == "connect" || event == "message"
  | .publish _ _ _ callback => !callback
  | _ => true

/-- The events for which a listener is registered on a client, in the order
of registration. -/
def Relay.listeners (st : Relay) (client : Nat) : List String :=
  st.trace.filterMap (fun e =>
    match e with
    | .listen c event => if c = client then some event else none
    | _ => none)

/-- Whether an effect is a subscribe. -/
def Effect.isSubscribe : Effect → Bool
  | .subscribe _ _ => true
  | _ => false

/-- Whether an effect is a console call. -/
def Effect.isConsole : Effect → Bool
  | .consoleLog _ => true
  | .consoleWarn _ => true
  | .consoleError _ => true
  | _ => false

/-- The payload text of a publish. -/
def Effect.payloadText : Effect → Option String
  | .publish _ _ payload _ => some payload
  | _ => none

/-- The subscribes recorded so far. -/
def Relay.subscribes (st : Relay) : List Effect := st.trace.filter Effect.isSubscribe

/-- The console calls recorded so far. -/
def Relay.logged (st : Relay) : List Effect := st.trace.filter Effect.isConsole

/-- The payload texts of the requests published so far, in order. -/
def Relay.requestTexts (st : Relay) : List String := st.trace.filterMap Effect.payloadText

/-! ## Orderly runs -/

/-- A turn of a run in which every connect event is directly followed by
the subscribe callback of the same session. -/
inductive Turn where
  | loadConfig (writeOk : Bool)
  | connectCall (rnd : String)
  | handshake (sess : Session)
  | message (d : Delivery)
  | postConfig (rnd : String) (writeOk : Bool) (body : JVal)

/-- The events of a turn. -/
def Turn.events : Turn → List Event
  | .loadConfig writeOk => [.loadConfig writeOk]
  | .connectCall rnd => [.connectCall rnd]
  | .handshake sess => [.connected sess, .subscribed sess]
  | .message d => [.message d]
  | .postConfig rnd writeOk body => [.postConfig rnd writeOk body]

/-- Whether a turn runs a handler of a client. -/
def Turn.needsClient : Turn → Bool
  | .handshake _ => true
  | .message _ => true
  | _ => false

/-- The state after a sequence of turns. -/
def runTurns (E : JsonLib) (st : Relay) (ts : List Turn) : Relay :=
  ts.foldl (fun s t => run E s t.events) st

/-- Whether, along a sequence of turns, a handler of a client runs only
when the client variable is set. -/
def orderly (E : JsonLib) : Relay → List Turn → Bool
  | _, [] => true
  | st, t :: rest =>
    (!t.needsClient || st.mqttClient.isSome) && orderly E (run E st t.events) rest

/-- The payload texts of `k` requests that carry the sequence numbers
20001, 20002, and so on, in order. -/
def expectedTexts (E : JsonLib) (k : Nat) : List String :=
  (List.range k).map (fun (i : Nat) => E.stringify (pushallMsg (20001 + (i : Int))))

/-! ## Cloud account: the print job summary -/

/-- The number a value converts to (ToNumber), `none` for NaN. The
conversion of text, `strToNum`, is taken as given. -/
def toNumber (strToNum : String → Option Int) : Option JVal → Option Int
  | none => none
  | some .null => some 0
  | some (.bool b) => some (if b then 1 else 0)
  | some (.num n) => some n
  | some (.str s) => strToNum s
  | some (.arr xs) => strToNum (toJsString (.arr xs))
  | some (.obj _) => none

/-- The comparison `v < now` of a value with a number. -/
def lessThan (strToNum : String → Option Int) (v : Option JVal) (now : Int) : Bool :=
  match toNumber strToNum v with
  | some n => decide (n < now)
  | none => false

/-- Element access `v[0]` on a value that is neither `null` nor `undefined`
(text: exact within the Basic Multilingual Plane). -/
def firstElem : JVal → Option JVal
  | .arr xs => xs.head?
  | .str s => s.toList.head?.map (fun c => JVal.str (String.singleton c))
  | .obj kvs => lookupLast kvs "0"
  | _ => none

/-- The value of `v || fallback`. -/
def orElse (v : Option JVal) (fallback : JVal) : JVal :=
  if truthy v then v.getD fallback else fallback

/-- What the exchange with the cloud API comes to: `fetch` or the decoding
of the body throws, the reply is not ok, or the reply decodes to `data`. -/
inductive CloudReply where
  | failed (error : String)
  | notOk (status : Nat) (text : String)
  | ok (data : JVal)

/-- The object `modelInfo` built from the decoded reply. -/
def modelInfo (data : JVal) : Except String JVal := do
  let hits ← getMember (some data) "hits"
  let first := if truthy hits then hits.bind firstElem else hits
  let hit : JVal := if truthy first then first.getD (.obj []) else .obj []
  let cover ← getMember (some hit) "cover"
  let title ← getMember (some hit) "title"
  let weight ← getMember (some hit) "weight"
  let costTime ← getMember (some hit) "costTime"
  let total ← getMember (some data) "total"
  pure (.obj [("imageUrl", orElse cover (.str "")), ("modelTitle", orElse title (.str "")),
    ("modelWeight", orElse weight (.num 0)), ("modelCostTime", orElse costTime (.num 0)),
    ("totalPrints", orElse total (.num 0))])

/-- What the handler of `GET /api/3dprint/model` does: its answer (`none`
when it throws before answering) and the Authorization header of the cloud
call, `none` when the cloud API is not called. -/
structure ModelAnswer where
  response : Option Response
  authorization : Option String

/-- The handler of `GET /api/3dprint/model`, for the stored token
`bambuToken` (`null` when none is stored), at clock reading `now`. -/
def getModel (strToNum : String → Option Int) (now : Int) (cloud : CloudReply)
    (bambuToken : JVal) : ModelAnswer :=
  let unauthenticated : ModelAnswer :=
    { response := some { status := 401, body := some (.obj [("error", .str "Not authenticated")]) }
      authorization := none }
  if !truthy (some bambuToken) then unauthenticated
  else
    match getMember (some bambuToken) "accessToken" with
    | .error _ => { response := none, authorization := none }
    | .ok accessToken =>
      if !truthy accessToken then unauthenticated
      else
        match getMember (some bambuToken) "tokenExpiration" with
        | .error _ => { response := none, authorization := none }
        | .ok tokenExpiration =>
          if lessThan strToNum tokenExpiration now then unauthenticated
          else
            let failure : Response :=
              { status := 500, body := some (.obj [("error", .str "Failed to fetch model info")]) }
            { authorization := some ("Bearer " ++ template accessToken)
              response := some
                (match cloud with
                | .failed _ => failure
                | .notOk status text => { status := status, body := some (.obj [("error", .str text)]) }
                | .ok data =>
                  match modelInfo data with
                  | .error _ => failure
                  | .ok info => { status := 200, body := some info }) }

/-! ## Calendar app: month navigation -/

/-- The local calendar fields of the displayed date: `getFullYear()`,
`getMonth()` (0 is January) and `getDate()`. The time of day, which
`setMonth` keeps, is left out. -/
structure CalDate where
  year : Int
  month : Nat
  day : Nat
  deriving DecidableEq

/-- Whether a year of the Gregorian calendar is a leap year. -/
def isLeapYear (y : Int) : Bool :=
  (y % 4 == 0 && y % 100 != 0) || y % 400 == 0

/-- The number of days of month `m` (0 is January) of year `y`. -/
def monthLength (y : Int) (m : Nat) : Nat :=
  match m with
  | 1 => if isLeapYear y then 29 else 28
  | 3 => 30
  | 5 => 30
  | 8 => 30
  | 10 => 30
  | _ => 31

/-- The call `date.setMonth(m)` on a date whose day is between 1 and 31: the
month index is brought into 0..11 by moving whole years, and a day past the
end of that month runs over into the month after it. -/
def setMonth (d : CalDate) (m : Int) : CalDate :=
  let y := d.year + Int.fdiv m 12
  let mn := (Int.fmod m 12).toNat
  let len := monthLength y mn
  if d.day ≤ len then { year := y, month := mn, day := d.day }
  else if mn = 11 then { year := y + 1, month := 0, day := d.day - len }
  else { year := y, month := mn + 1, day := d.day - len }

/-- The state update of `nextMonth`. -/
def nextMonth (prev : CalDate) : CalDate := setMonth prev ((prev.month : Int) + 1)

/-- The state update of `prevMonth`. -/
def prevMonth (prev : CalDate) : CalDate := setMonth prev ((prev.month : Int) - 1)

/-- The calendar month right after month `m` of year `y`. -/
def monthAfter (y : Int) (m : Nat) : Int × Nat :=
  if m = 11 then (y + 1, 0) else (y, m + 1)

/-- The calendar month right before month `m` of year `y`. -/
def monthBefore (y : Int) (m : Nat) : Int × Nat :=
  if m = 0 then (y - 1, 11) else (y, m - 1)

/-! ## More sample data -/

mutual
/-- The text `JSON.stringify(v)` of a value whose texts need no escaping
and whose objects have no name twice. -/
def renderJson : JVal → String
  | .null => "null"
  | .bool b => if b then "true" else "false"
  | .num n => toString n
  | .str s => "\"" ++ s ++ "\""
  | .arr xs => "[" ++ renderElems xs ++ "]"
  | .obj kvs => "\x7b" ++ renderEntries kvs ++ "\x7d"
termination_by structural v => v
/-- The elements of an array, separated by commas. -/
def renderElems : List JVal → String
  | [] => ""
  | x :: rest =>
    renderJson x ++
    (match rest with
      | [] => ""
      | _ :: _ => "," ++ renderElems rest)
termination_by structural xs => xs
/-- The entries of an object, separated by commas. -/
def renderEntries : List (String × JVal) → String
  | [] => ""
  | e :: rest =>
    renderEntry e ++
    (match rest with
      | [] => ""
      | _ :: _ => "," ++ renderEntries rest)
termination_by structural kvs => kvs
/-- One entry of an object. -/
def renderEntry : String × JVal → String
  | (k, v) => "\"" ++ k ++ "\":" ++ renderJson v
termination_by structural e => e
end

/-- The sample JSON library with a serialiser that shows the value. -/
def wireJson : JsonLib :=
  { sampleJson with stringify := renderJson }

/-- The state once `connectMqttClient` has run on `sampleStart family 8883`
and the client has connected: the subscribe call is made, its callback has
not run yet. -/
def sampleConnected (E : JsonLib) (family : String) : Relay :=
  run E (sampleStart family (.num 8883))
    [.connectCall "a1b2", .connected (sampleSession family)]

/-- The state of `sampleLinked family` after a config update that changes
the serial number, and with it the session. -/
def sampleRelinked (family : String) : Relay :=
  run sampleJson (sampleLinked family)
    [.postConfig "c3d4" true (.obj [("printerSN", .str "XYZ789")])]

/-- The session `connectMqttClient` registers for a config whose serial
number is the text `s` and whose family is `printerType`. -/
def serialSession (printerType : Option JVal) (s : String) : Session :=
  { printerType := printerType
    topicReport := "device/" ++ s ++ "/report"
    topicRequest := "device/" ++ s ++ "/request" }

/-- An orderly run from process start: the config is loaded, the link
stays disabled on the default config, a complete config is posted, the
client connects, two reports arrive, the config is posted again and the
new client connects and receives a report. -/
def sampleTurns : List Turn :=
  [.loadConfig true, .connectCall "0f0f",
    .postConfig "a1b2" true (.obj (sampleConfig "X1" (.num 8883))),
    .handshake (sampleSession "X1"), .message ⟨sampleSession "X1", 5, runningText⟩,
    .message ⟨sampleSession "X1", 9, "not json"⟩,
    .message ⟨sampleSession "X1", 12, finishText⟩,
    .postConfig "c3d4" true (.obj [("printerType", .str "P1")]),
    .handshake (sampleSession "P1"), .message ⟨sampleSession "P1", 400000, runningText⟩]

/-! ## Calendar app: the grid of a month -/

/-- The day number of 1 January of year `y`, counted from 1 January 1970
(DayFromYear of the language standard; the divisions round down). -/
def dayFromYear (y : Int) : Int :=
  365 * (y - 1970) + (y - 1969) / 4 - (y - 1901) / 100 + (y - 1601) / 400

/-- The number of days of a year before its month `m` (0 is January). -/
def daysBeforeMonth (leap : Bool) (m : Nat) : Int :=
  match m with
  | 0 => 0
  | 1 => 31
  | 2 => 59 + (if leap then 1 else 0)
  | 3 => 90 + (if leap then 1 else 0)
  | 4 => 120 + (if leap then 1 else 0)
  | 5 => 151 + (if leap then 1 else 0)
  | 6 => 181 + (if leap then 1 else 0)
  | 7 => 212 + (if leap then 1 else 0)
  | 8 => 243 + (if leap then 1 else 0)
  | 9 => 273 + (if leap then 1 else 0)
  | 10 => 304 + (if leap then 1 else 0)
  | _ => 334 + (if leap then 1 else 0)

/-- The day number of day `d` of month `m` of year `y`, counted from
1 January 1970. -/
def dayNumber (y : Int) (m : Nat) (d : Int) : Int :=
  dayFromYear y + daysBeforeMonth (isLeapYear y) m + d - 1

/-- The weekday of a date (0 is Sunday): 1 January 1970 was a Thursday. -/
def weekdayOf (y : Int) (m : Nat) (d : Int) : Nat :=
  ((dayNumber y m d + 4) % 7).toNat

/-- The year the `Date` constructor reads from its first argument: a year
from 0 to 99 stands for 1900 plus that year. -/
def fullYear (year : Int) : Int :=
  if 0 ≤ year ∧ year ≤ 99 then 1900 + year else year

/-- Whether a day number lies within the range of `Date`, 100 000 000 days
either side of 1 January 1970. The two days at the very ends, whose
validity at local midnight depends on the time zone, are counted out. -/
def dayInRange (t : Int) : Bool :=
  decide (-100000000 < t ∧ t < 100000000)

/-- The local calendar fields of `new Date(year, month, day)` for a day from
0 to 31, `none` for an Invalid Date: the month index is brought into 0..11
by moving whole years, day 0 is the last day of the month before, and a
day past the end of the month runs over into the month after it. -/
def newDate (year : Int) (month : Int) (day : Nat) : Option CalDate :=
  let y := fullYear year + Int.fdiv month 12
  let mn := (Int.fmod month 12).toNat
  let len := monthLength y mn
  let fields : CalDate :=
    if day = 0 then
      (if mn = 0 then { year := y - 1, month := 11, day := monthLength (y - 1) 11 }
       else { year := y, month := mn - 1, day := monthLength y (mn - 1) })
    else if day ≤ len then { year := y, month := mn, day := day }
    else if mn = 11 then { year := y + 1, month := 0, day := day - len }
    else { year := y, month := mn + 1, day := day - len }
  if dayInRange (dayNumber fields.year fields.month fields.day) then some fields else none

/-- The value of `getDay()`. -/
def getDay (d : CalDate) : Nat := weekdayOf d.year d.month d.day

/-- The value of `getDate()`. -/
def getDate (d : CalDate) : Nat := d.day

/-- The loop `for (let i = 0; i < w; i++) days.push(null)`, with `k` rounds
to go. -/
def pushEmpty : Nat → List (Option Nat) → List (Option Nat)
  | 0, days => days
  | k + 1, days => pushEmpty k (days ++ [none])

/-- The loop `for (let i = 1; i <= n; i++) days.push(i)`, at index `i` and
with `k` rounds to go. -/
def pushDays : Nat → Nat → List (Option Nat) → List (Option Nat)
  | _, 0, days => days
  | i, k + 1, days => pushDays (i + 1) k (days ++ [some i])

/-- The function `getDaysInMonth` of the calendar app; `none` is an empty
cell. A loop whose bound is NaN, the value an Invalid Date gives, does not
run. -/
def getDaysInMonth (year : Int) (month : Int) : List (Option Nat) :=
  let date := newDate year month 1
  let firstDayOfMonth := date.map getDay
  let days := pushEmpty (firstDayOfMonth.getD 0) []
  let daysInMonth := (newDate year (month + 1) 0).map getDate
  pushDays 1 (daysInMonth.getD 0) days

/-! ## Object literals and strict equality -/

/-- Strict equality `a === b` of two values that are not one and the same
object: primitives are equal when they have the same type and value, an
array or an object is equal to no value built or decoded apart from it. -/
def strictEq : JVal → JVal → Bool
  | .null, .null => true
  | .bool a, .bool b => a == b
  | .num a, .num b => a == b
  | .str a, .str b => a == b
  | _, _ => false

/-- The definition of the property `k` in an object literal: an existing
property keeps its place and takes the new value, a new one is added at the
end. No name is special here. -/
def defineProp (target : Entries) (k : String) (v : JVal) : Entries :=
  if target.any (fun e => e.1 == k) then
    target.map (fun e => if e.1 = k then (k, v) else e)
  else target ++ [(k, v)]

/-- The spread `...source` in an object literal built so far as `target`:
every own property of the source is defined, in order. -/
def spreadInto (target : Entries) (source : JVal) : Entries :=
  (ownProps source).foldl (fun t e => defineProp t e.1 e.2) target

/-- Whether a field is text or absent. -/
def isTextOrAbsent : Option JVal → Bool
  | none => true
  | some (.str _) => true
  | _ => false

/-- Whether a field is missing or the empty text. -/
def missingOrEmpty : Option JVal → Bool
  | none => true
  | some (.str s) => s == ""
  | _ => false

/-! ## Voice service -/

/-- The fields of `RealtimeVoiceService` that the embedded methods read or
write. A field that holds a browser object is modelled by whether it is set
(`dataChannel`: with whether its `readyState` is open); `liveTracks` counts
the microphone tracks acquired and not stopped, `sent` lists the messages
sent on the data channel. -/
structure Voice where
  isActive : Bool
  peerConnection : Bool
  dataChannel : Option Bool
  audioElement : Bool
  mediaStream : Bool
  liveTracks : Nat
  currentVoice : JVal
  currentModel : JVal
  currentSystemPrompt : JVal
  apiKey : JVal
  sent : List JVal

/-- The service as its constructor leaves it, with the stored API key. -/
def voiceStart (apiKey : String) : Voice :=
  { isActive := false
    peerConnection := false
    dataChannel := none
    audioElement := false
    mediaStream := false
    liveTracks := 0
    currentVoice := .str "echo"
    currentModel := .str "gpt-4o-mini-realtime-preview"
    currentSystemPrompt :=
      .str "You are JARVIS, an AI assistant integrated with the HoloMat interface."
    apiKey := .str apiKey
    sent := [] }

/-- The method `sendSessionUpdate`: send the voice over an open data
channel, do nothing otherwise. -/
def sendSessionUpdate (v : Voice) : Voice :=
  match v.dataChannel with
  | some true =>
    { v with sent := v.sent ++ [.obj [("type", .str "voice.update"), ("voice", v.currentVoice)]] }
  | _ => v

/-- The test `settings.f && settings.f !== current` of `updateSettings`. -/
def fieldChanged (given : Option JVal) (current : JVal) : Bool :=
  match given with
  | some x => truthy (some x) && !strictEq x current
  | none => false

/-- The first block of `updateSettings`: take a changed voice, and send it
when the assistant is active. -/
def applyVoiceType (settings : Entries) (v : Voice) : Voice :=
  let voiceType := lookupLast settings "voiceType"
  if fieldChanged voiceType v.currentVoice then
    let v' := { v with currentVoice := voiceType.getD v.currentVoice }
    if v'.isActive then sendSessionUpdate v' else v'
  else v

/-- That a call changes a setting, in the words of the specification: the
given value is a non-empty text and differs from the current one. -/
def changed (given : Option JVal) (current : JVal) : Prop :=
  ∃ s, given = some (.str s) ∧ s ≠ "" ∧ current ≠ .str s

/-- The method `updateSettings`: the service after the call and the object
handed to `notifySettingsUpdated`. -/
def updateSettings (settings : Entries) (v : Voice) : Voice × Entries :=
  let v1 := applyVoiceType settings v
  let systemPrompt := lookupLast settings "systemPrompt"
  let promptChanged := fieldChanged systemPrompt v1.currentSystemPrompt
  let v2 :=
    if promptChanged then
      { v1 with currentSystemPrompt := systemPrompt.getD v1.currentSystemPrompt }
    else v1
  let voiceModel := lookupLast settings "voiceModel"
  let modelChanged := fieldChanged voiceModel v2.currentModel
  let v3 :=
    if modelChanged then { v2 with currentModel := voiceModel.getD v2.currentModel } else v2
  let requiresRestart := promptChanged || modelChanged
  if requiresRestart then
    (v3, defineProp (spreadInto [] (.obj settings)) "requiresRestart" (.bool true))
  else (v3, settings)

/-- The method `stopVoiceAssistant`: the service after the call and the
value returned. The browser calls it makes are taken not to throw. -/
def stopVoiceAssistant (v : Voice) : Voice × Bool :=
  if !v.isActive then (v, true)
  else
    ({ v with
        dataChannel := none
        mediaStream := false
        liveTracks := if v.mediaStream || v.peerConnection then 0 else v.liveTracks
        peerConnection := false
        audioElement := false
        isActive := false }, true)

/-- The steps of `startVoiceAssistant` at which the browser or the network
can make it throw. -/
inductive StartStage where
  | peerConnection
  | microphone
  | dataChannel
  | offer
  | sdpExchange
  | remoteDescription
  deriving DecidableEq

/-- The method `startVoiceAssistant` with `options`, when `failure` is the
first step that throws (`none`: no step throws): the service after the call
and the value returned. The error callback is taken not to throw. -/
def startVoiceAssistant (options : Entries) (failure : Option StartStage) (v : Voice) :
    Voice × Bool :=
  if v.isActive then (v, false)
  else
    let v0 :=
      { v with
          currentVoice := orElse (lookupLast options "voice") (.str "echo")
          currentModel := orElse (lookupLast options "model") (.str "gpt-4o-mini-realtime-preview")
          currentSystemPrompt := orElse (lookupLast options "initial_prompt")
            (.str "You are JARVIS, an AI assistant integrated with the HoloMat interface.") }
    let caught (s : Voice) : Voice × Bool := ((stopVoiceAssistant s).1, false)
    if !truthy (some v0.apiKey) then caught v0
    else if failure = some .peerConnection then caught v0
    else
      let v1 := { v0 with peerConnection := true, audioElement := true }
      if failure = some .microphone then caught v1
      else
        let v2 := { v1 with mediaStream := true, liveTracks := v1.liveTracks + 1 }
        if failure = some .dataChannel then caught v2
        else
          let v3 := { v2 with dataChannel := some false }
          if failure = some .offer ∨ failure = some .sdpExchange ∨
              failure = some .remoteDescription then caught v3
          else ({ v3 with isActive := true }, true)

/-- Whether the service is idle: not active, and no connection, channel,
stream, audio element or live track held. -/
def Voice.idle (v : Voice) : Bool :=
  !v.isActive && !v.peerConnection && v.dataChannel.isNone && !v.mediaStream &&
    !v.audioElement && v.liveTracks == 0

/-! ## Printing app: the dashboard -/

/-- One tray of the material system as the dashboard shows it. -/
structure TrayView where
  color : String
  brand : JVal
  remain : String

/-- One temperature as the dashboard shows it. -/
structure Gauge where
  label : String
  cur : Option JVal
  tgt : Option JVal

/-- The values the dashboard panel shows. The widths of the temperature
bars, quotients of the values below, are left out. -/
structure Panel where
  barWidth : String
  gcodeState : Option JVal
  percent : Option JVal
  remaining : Option JVal
  image : Option (Option JVal × Option JVal)
  temperatures : List Gauge
  ams : Option (List TrayView)

/-- What the dashboard view renders. -/
inductive DashboardView where
  | loading
  | panel (p : Panel)

/-- The rendering of one tray. -/
def renderTray (t : JVal) : Except String TrayView := do
  let color ← getMember (some t) "tray_color"
  let brand ← getMember (some t) "tray_sub_brands"
  let remain ← getMember (some t) "remain"
  pure
    { color := "#" ++ template color
      brand := orElse brand (.str "Unknown")
      remain :=
        match remain with
        | none => "Unknown"
        | some .null => "Unknown"
        | some r => toJsString r ++ "%" }

/-- The rendering of the material system: nothing unless `telemetry.ams`
and `telemetry.ams.ams` are truthy, else the trays of its first unit. -/
def renderAms (telemetry : JVal) : Except String (Option (List TrayView)) := do
  let ams ← getMember (some telemetry) "ams"
  if !truthy ams then pure none
  else
    let inner ← getMember ams "ams"
    if !truthy inner then pure none
    else
      let tray ← getMember (inner.bind firstElem) "tray"
      match tray with
      | some (.arr ts) => (ts.mapM renderTray).map some
      | _ => .error "TypeError: tray.map is not a function"

/-- The image of the model: shown when `modelInfo` and its `imageUrl` are
truthy. -/
def renderImage (modelInfo : JVal) : Except String (Option (Option JVal × Option JVal)) := do
  if !truthy (some modelInfo) then pure none
  else
    let imageUrl ← getMember (some modelInfo) "imageUrl"
    if !truthy imageUrl then pure none
    else
      let modelTitle ← getMember (some modelInfo) "modelTitle"
      pure (some (imageUrl, modelTitle))

/-- The dashboard view for the states `telemetry` and `modelInfo` (`null`
when not set): the loading line when both are falsy, the panel otherwise;
an error is a TypeError thrown while rendering. -/
def renderDashboard (telemetry modelInfo : JVal) : Except String DashboardView :=
  if !truthy (some telemetry) && !truthy (some modelInfo) then pure .loading
  else do
    let width ← getMember (some telemetry) "mc_percent"
    let gcodeState ← getMember (some telemetry) "gcode_state"
    let percent ← getMember (some telemetry) "mc_percent"
    let remaining ← getMember (some telemetry) "mc_remaining_time"
    let image ← renderImage modelInfo
    let bed ← getMember (some telemetry) "bed_temper"
    let bedTarget ← getMember (some telemetry) "bed_target_temper"
    let nozzle ← getMember (some telemetry) "nozzle_temper"
    let nozzleTarget ← getMember (some telemetry) "nozzle_target_temper"
    let chamber ← getMember (some telemetry) "chamber_temper"
    let chamberTarget ← getMember (some telemetry) "chamber_target_temper"
    let ams ← renderAms telemetry
    pure (.panel
      { barWidth := template width ++ "%"
        gcodeState := gcodeState
        percent := percent
        remaining := remaining
        image := image
        temperatures :=
          [{ label := "Bed", cur := bed, tgt := bedTarget },
           { label := "Nozzle", cur := nozzle, tgt := nozzleTarget },
           { label := "Chamber", cur := chamber, tgt := chamberTarget }]
        ams := ams })

/-- The object the model endpoint answers when the account has no task. -/
def emptyModelInfo : JVal :=
  .obj [("imageUrl", .str ""), ("modelTitle", .str ""), ("modelWeight", .num 0),
    ("modelCostTime", .num 0), ("totalPrints", .num 0)]

/-! ## Cloud account: the login status -/

/-- The comparison `v > now` of a value with a number. -/
def greaterThan (strToNum : String → Option Int) (v : Option JVal) (now : Int) : Bool :=
  match toNumber strToNum v with
  | some n => decide (n > now)
  | none => false

/-- The handler of `GET /api/3dprint/token-status`, for the stored token
`bambuToken` (`null` when none is stored), at clock reading `now`: whether
it reports `loggedIn: true`. The members are read only of a truthy token,
so no read throws. -/
def tokenLoggedIn (strToNum : String → Option Int) (now : Int) (bambuToken : JVal) : Bool :=
  truthy (some bambuToken) &&
    (match getMember (some bambuToken) "accessToken" with
      | .error _ => false
      | .ok accessToken =>
        truthy accessToken &&
          (match getMember (some bambuToken) "tokenExpiration" with
            | .error _ => false
            | .ok tokenExpiration => greaterThan strToNum tokenExpiration now))

/-- The answer of `GET /api/3dprint/token-status`. -/
def getTokenStatus (strToNum : String → Option Int) (now : Int) (bambuToken : JVal) : Response :=
  { status := 200
    body := some (.obj [("loggedIn", .bool (tokenLoggedIn strToNum now bambuToken))]) }

/-- Whether the model endpoint answers 401 Not authenticated. -/
def modelAnswers401 (strToNum : String → Option Int) (now : Int) (cloud : CloudReply)
    (bambuToken : JVal) : Bool :=
  match (getModel strToNum now cloud bambuToken).response with
  | some r => r.status == 401
  | none => false

/-! ## Settings service -/

/-- What `localStorage.getItem` comes to: it throws, or it returns the
stored text, `none` for `null`. -/
inductive StorageRead where
  | threw (error : String)
  | value (text : Option String)

/-- The function `loadSettings` for the constant `defaultSettings`, taken
as given (one of its values, 0.8, is no integer). Any error of the try
block is caught, and the defaults are returned. -/
def loadSettings (E : JsonLib) (defaultSettings : Entries) (read : StorageRead) :
    Except String Entries :=
  let tryBlock : Except String Entries :=
    match read with
    | .threw e => .error e
    | .value storedSettings =>
      if truthy (storedSettings.map JVal.str) then
        match E.parse (storedSettings.getD "") with
        | none => .error "SyntaxError"
        | some parsedSettings =>
          .ok (spreadInto (spreadInto [] (.obj defaultSettings)) parsedSettings)
      else .ok defaultSettings
  match tryBlock with
  | .ok settings => .ok settings
  | .error _ => .ok defaultSettings

/-! ## Hugging Face config -/

/-- The module level variable `hfConfig` and the content of
`hf-config.json` (`none` when the file cannot be read). -/
structure HfStore where
  hfConfig : Entries
  hfConfigFile : Option String

/-- The initial value of `hfConfig`. -/
def defaultHfConfig (env : String → Option String) : Entries :=
  [("huggingFaceToken", envOr env "HF_TOKEN" (envOr env "HUGGINGFACE_TOKEN" (.str ""))),
   ("modelID", .str "Tencent/Hunyuan3D-2")]

/-- The function `saveHFConfig`: merge into the in-memory config, then write
the whole config; a failed write rejects, and the file is taken to keep its
content. -/
def saveHFConfig (E : JsonLib) (writeOk : Bool) (newConfig : JVal) (st : HfStore) :
    HfStore × Completion :=
  let st1 := { st with hfConfig := objectAssign st.hfConfig newConfig }
  if writeOk then
    ({ st1 with hfConfigFile := some (E.stringifyIndented (.obj st1.hfConfig)) }, .normal)
  else (st1, .threw "writeFile failed")

/-- An object literal with the given fields, as it is serialised: a field
whose value is `undefined` is left out. -/
def definedFields (fields : List (String × Option JVal)) : Entries :=
  fields.filterMap (fun f => f.2.map (fun v => (f.1, v)))

/-- The handler of `GET /api/hf-config`. -/
def getHfConfig (st : HfStore) : Response :=
  { status := 200
    body := some (.obj (definedFields
      [("huggingFaceToken", lookupLast st.hfConfig "huggingFaceToken"),
       ("modelID", lookupLast st.hfConfig "modelID")])) }

/-- The handler of `POST /api/hf-config` with request body `body`: the
store after the call and the answer, `none` when the handler throws before
it answers. -/
def postHfConfig (E : JsonLib) (writeOk : Bool) (body : JVal) (st : HfStore) :
    HfStore × Option Response :=
  match getMember (some body) "huggingFaceToken", getMember (some body) "modelID" with
  | .ok huggingFaceToken, .ok modelID =>
    if !truthy huggingFaceToken || !truthy modelID then
      (st, some { status := 400, body := some (.obj [("error", .str "Token and Model ID are required")]) })
    else
      match saveHFConfig E writeOk
          (.obj (definedFields [("huggingFaceToken", huggingFaceToken), ("modelID", modelID)]))
          st with
      | (st1, .normal) => (st1, some { status := 200, body := some (.obj [("success", .bool true)]) })
      | (st1, .threw _) =>
        (st1, some { status := 500, body := some (.obj [("error", .str "Failed to save configuration")]) })
  | _, _ => (st, none)

/-- Sample default settings for the instances. -/
def sampleDefaults : Entries :=
  [("voiceModel", .str "gpt-4o-mini-realtime-preview"), ("voiceType", .str "echo"),
    ("animationSpeed", .num 1), ("notifications", .bool true), ("mlServerIP", .str "")]

/-- A JSON library for the instances on settings: it decodes one stored
object and rejects every other text. -/
def settingsJson : JsonLib :=
  { sampleJson with
      parse := fun s =>
        if s = "\x7b\"voiceType\":\"alloy\",\"extra\":7\x7d" then
          some (.obj [("voiceType", .str "alloy"), ("extra", .num 7)])
        else none }

/-- The stored text `settingsJson` decodes. -/
def storedText : String := "\x7b\"voiceType\":\"alloy\",\"extra\":7\x7d"

/-! ## Lemmas on the message handler -/

/-- The first part of the try block changes the cache only, and sets it to
the status payload of a valid message. -/
theorem cacheUpdate_fst (E : JsonLib) (message : String) (st : Relay) :
    (cacheUpdate E message st).1 =
      { st with telemetryCache := (validPayload E message).getD st.telemetryCache } := by
  unfold cacheUpdate validPayload statusPayload
  cases hp : E.parse message with
  | none => simp
  | some json =>
    cases json with
    | obj kvs =>
      simp only [getMember, field, Option.bind]
      cases hk : lookupLast kvs "print" with
      | none => simp
      | some print =>
        cases print with
        | obj pkvs =>
          cases hg : lookupLast pkvs "gcode_state" <;> simp [getMember, field, truthy, hg]
        | null => simp [getMember, field, truthy]
        | bool b => cases b <;> simp [getMember, field, truthy]
        | num n => by_cases hn : n = 0 <;> simp [getMember, field, truthy, hn]
        | str s => by_cases hs : s = "" <;> simp [getMember, field, truthy, hs]
        | arr xs => simp [getMember, field, truthy]
    | null => simp [getMember, field]
    | bool b => simp [getMember, field]
    | num n => simp [getMember, field]
    | str s => simp [getMember, field]
    | arr xs => simp [getMember, field]

/-- The first part of the try block completes normally on every message
that decodes to a value other than `null`. -/
theorem cacheUpdate_snd_of_value (E : JsonLib) (message : String) (st : Relay) (v : JVal)
    (hp : E.parse message = some v) (hv : v ≠ .null) :
    (cacheUpdate E message st).2 = .normal := by
  unfold cacheUpdate
  rw [hp]
  cases v with
  | null => exact absurd rfl hv
  | obj kvs =>
    simp only [getMember]
    cases hk : lookupLast kvs "print" with
    | none => simp
    | some print =>
      cases print with
      | obj pkvs => cases hg : lookupLast pkvs "gcode_state" <;> simp [getMember, truthy, hg]
      | null => simp [getMember, truthy]
      | bool b => cases b <;> simp [getMember, truthy]
      | num n => by_cases hn : n = 0 <;> simp [getMember, truthy, hn]
      | str s => by_cases hs : s = "" <;> simp [getMember, truthy, hs]
      | arr xs => simp [getMember, truthy]
  | bool b => simp [getMember]
  | num n => simp [getMember]
  | str s => simp [getMember]
  | arr xs => simp [getMember]

/-- The first part of the try block throws on a text that does not decode
and on the text of `null`. -/
theorem cacheUpdate_snd_of_reject (E : JsonLib) (message : String) (st : Relay)
    (hp : E.parse message = none ∨ E.parse message = some .null) :
    ∃ e, (cacheUpdate E message st).2 = .threw e := by
  unfold cacheUpdate
  rcases hp with hp | hp <;> rw [hp] <;> simp [getMember]

/-- The refresh leaves the cache alone. -/
theorem refresh_cache (E : JsonLib) (sess : Session) (now : Int) (st : Relay) :
    (refresh E sess now st).1.telemetryCache = st.telemetryCache := by
  unfold refresh
  split
  · cases hc : st.mqttClient <;> simp [hc, Relay.emit]
  · rfl

/-- One handled message sets the cache to the status payload of the message
when it is valid, and keeps it otherwise. -/
theorem onMessage_cache (E : JsonLib) (sess : Session) (now : Int) (message : String)
    (st : Relay) :
    (onMessage E sess now message st).1.telemetryCache =
      (validPayload E message).getD st.telemetryCache := by
  have h1 := cacheUpdate_fst E message st
  unfold onMessage messageTry
  rcases hcu : cacheUpdate E message st with ⟨st1, c⟩
  rw [hcu] at h1
  simp only at h1
  cases c with
  | threw e => simp [Relay.emit, h1]
  | normal =>
    simp only
    have h2 := refresh_cache E sess now st1
    rcases hr : refresh E sess now st1 with ⟨st2, c2⟩
    rw [hr] at h2
    simp only at h2
    cases c2 <;> simp [Relay.emit, h2, h1]

/-- The message handler always completes normally. -/
theorem onMessage_snd (E : JsonLib) (sess : Session) (now : Int) (message : String)
    (st : Relay) : (onMessage E sess now message st).2 = .normal := by
  unfold onMessage
  rcases messageTry E sess now message st with ⟨st1, c⟩
  cases c <;> rfl

/-- The last of the payloads picked from a list, over a default. -/
theorem getLast_filterMap_cons {α β : Type} (f : α → Option β) (a : α) (l : List α) (c : β) :
    (((a :: l).filterMap f).getLast?).getD c = ((l.filterMap f).getLast?).getD ((f a).getD c) := by
  cases h : f a with
  | none => simp [List.filterMap_cons, h]
  | some b =>
    simp only [List.filterMap_cons, h, List.getLast?_cons, Option.getD_some]

/-- A valid status payload is an object, hence truthy. -/
theorem validPayload_truthy (E : JsonLib) (message : String) (p : JVal)
    (h : validPayload E message = some p) : truthy (some p) = true := by
  unfold validPayload at h
  cases hp : E.parse message with
  | none => simp [hp] at h
  | some json =>
    simp only [hp, Option.bind, statusPayload] at h
    cases hf : field json "print" with
    | none => simp [hf] at h
    | some q =>
      simp only [hf] at h
      cases q with
      | obj kvs =>
        split at h
        · cases h; rfl
        · cases h
      | null => simp [field] at h
      | bool b => simp [field] at h
      | num n => simp [field] at h
      | str s => simp [field] at h
      | arr xs => simp [field] at h

/-- A run of deliveries leaves in the cache the last valid payload. -/
theorem processAll_cache (E : JsonLib) (ds : List Delivery) (st : Relay) :
    (processAll E st ds).telemetryCache =
      ((ds.filterMap (fun d => validPayload E d.message)).getLast?).getD st.telemetryCache := by
  induction ds generalizing st with
  | nil => simp [processAll]
  | cons d rest ih =>
    have hstep : processAll E st (d :: rest) = processAll E (deliver E st d) rest := by
      simp [processAll]
    rw [hstep, ih, getLast_filterMap_cons]
    simp [deliver, onMessage_cache]

/-- The function `connectMqttClient` completes normally. -/
theorem connectMqttClient_snd (rnd : String) (st : Relay) :
    (connectMqttClient rnd st).2 = .normal := by
  unfold connectMqttClient
  simp only
  split <;> rfl

/-- The function `connectMqttClient` leaves the cache alone. -/
theorem connectMqttClient_cache (rnd : String) (st : Relay) :
    (connectMqttClient rnd st).1.telemetryCache = st.telemetryCache := by
  unfold connectMqttClient
  simp only
  split <;> cases st.mqttClient <;> rfl

/-- The function `saveBambuConfig` leaves the cache alone. -/
theorem saveBambuConfig_cache (E : JsonLib) (writeOk : Bool) (newConfig : JVal) (st : Relay) :
    (saveBambuConfig E writeOk newConfig st).1.telemetryCache = st.telemetryCache := by
  unfold saveBambuConfig
  cases writeOk <;> rfl

/-- The config write endpoint leaves the cache alone. -/
theorem postConfig_cache (E : JsonLib) (rnd : String) (writeOk : Bool) (body : JVal)
    (st : Relay) :
    (postConfig E rnd writeOk body st).1.telemetryCache = st.telemetryCache := by
  have h1 := saveBambuConfig_cache E writeOk body st
  unfold postConfig
  rcases hs : saveBambuConfig E writeOk body st with ⟨st1, c⟩
  rw [hs] at h1
  simp only at h1
  cases c with
  | threw e => simp [Relay.emit, h1]
  | normal =>
    simp only
    have h2 := connectMqttClient_cache rnd st1
    rcases hcn : connectMqttClient rnd st1 with ⟨st2, c2⟩
    rw [hcn] at h2
    simp only at h2
    cases c2 <;> simp [Relay.emit, h2, h1]

/-- No event but a message changes the cache, and a message sets it to its
status payload when it is valid. -/
theorem step_cache (E : JsonLib) (st : Relay) (ev : Event) :
    (step E st ev).telemetryCache = (ev.payload E).getD st.telemetryCache := by
  cases ev with
  | loadConfig writeOk =>
    simp only [step, Event.payload, Option.getD_none, loadBambuConfig]
    cases st.configFile.bind E.parse with
    | some v => rfl
    | none => cases writeOk <;> rfl
  | connectCall rnd =>
    simp only [step, Event.payload, Option.getD_none, connectMqttClient_cache]
  | connected sess =>
    simp only [step, Event.payload, Option.getD_none, onConnect, Relay.emit]
    cases st.mqttClient <;> rfl
  | subscribed sess =>
    simp only [step, Event.payload, Option.getD_none, onSubscribed, Relay.emit]
    cases st.mqttClient <;> rfl
  | message d => simp [step, Event.payload, deliver, onMessage_cache]
  | postConfig rnd writeOk body =>
    simp only [step, Event.payload, Option.getD_none, postConfig_cache]

/-- A run of events leaves in the cache the last valid payload. -/
theorem run_cache (E : JsonLib) (evs : List Event) (st : Relay) :
    (run E st evs).telemetryCache =
      ((evs.filterMap (Event.payload E)).getLast?).getD st.telemetryCache := by
  induction evs generalizing st with
  | nil => simp [run]
  | cons ev rest ih =>
    have hstep : run E st (ev :: rest) = run E (step E st ev) rest := by simp [run]
    rw [hstep, ih, getLast_filterMap_cons, step_cache]

/-! ## Lemmas on the refresh -/

/-- What the refresh does when a request is due and a client is set. -/
theorem refresh_of_due (E : JsonLib) (sess : Session) (now : Int) (st : Relay) (h : Nat)
    (hd : pushallDue sess.printerType now st.lastPushallTime = true)
    (hc : st.mqttClient = some h) :
    refresh E sess now st =
      ({ st with
          sequenceID := st.sequenceID + 1
          lastPushallTime := now
          trace := st.trace ++
            [.publish h sess.topicRequest (E.stringify (pushallMsg (st.sequenceID + 1))) false] },
        .normal) := by
  unfold refresh
  simp [hd, hc, Relay.emit]

/-- The refresh does nothing when no request is due. -/
theorem refresh_of_not_due (E : JsonLib) (sess : Session) (now : Int) (st : Relay)
    (hd : pushallDue sess.printerType now st.lastPushallTime = false) :
    refresh E sess now st = (st, .normal) := by
  unfold refresh
  simp [hd]

/-- The handler on a message that decodes to a value other than `null`,
when a request is due and a client is set: the cache update, then one
publish. -/
theorem onMessage_of_value_due (E : JsonLib) (sess : Session) (now : Int) (message : String)
    (st : Relay) (v : JVal) (h : Nat) (hp : E.parse message = some v) (hv : v ≠ .null)
    (hd : pushallDue sess.printerType now st.lastPushallTime = true)
    (hc : st.mqttClient = some h) :
    (onMessage E sess now message st).1 =
      { st with
          telemetryCache := (validPayload E message).getD st.telemetryCache
          sequenceID := st.sequenceID + 1
          lastPushallTime := now
          trace := st.trace ++
            [.publish h sess.topicRequest (E.stringify (pushallMsg (st.sequenceID + 1))) false] } := by
  have h1 := cacheUpdate_fst E message st
  have h2 := cacheUpdate_snd_of_value E message st v hp hv
  have hr := refresh_of_due E sess now
    { st with telemetryCache := (validPayload E message).getD st.telemetryCache } h hd hc
  unfold onMessage messageTry
  rcases hcu : cacheUpdate E message st with ⟨st1, c⟩
  rw [hcu] at h1 h2
  simp only at h1 h2
  subst h2
  simp only
  rw [h1, hr]

/-- The handler on a message that decodes to a value other than `null`,
when no request is due: the cache update only. -/
theorem onMessage_of_value_not_due (E : JsonLib) (sess : Session) (now : Int)
    (message : String) (st : Relay) (v : JVal) (hp : E.parse message = some v)
    (hv : v ≠ .null) (hd : pushallDue sess.printerType now st.lastPushallTime = false) :
    (onMessage E sess now message st).1 =
      { st with telemetryCache := (validPayload E message).getD st.telemetryCache } := by
  have h1 := cacheUpdate_fst E message st
  have h2 := cacheUpdate_snd_of_value E message st v hp hv
  have hr := refresh_of_not_due E sess now
    { st with telemetryCache := (validPayload E message).getD st.telemetryCache } hd
  unfold onMessage messageTry
  rcases hcu : cacheUpdate E message st with ⟨st1, c⟩
  rw [hcu] at h1 h2
  simp only at h1 h2
  subst h2
  simp only
  rw [h1, hr]

/-- The handler on a message that does not decode, or decodes to `null`:
the state is as before but for one logged error. -/
theorem onMessage_of_reject (E : JsonLib) (sess : Session) (now : Int) (message : String)
    (st : Relay) (hp : E.parse message = none ∨ E.parse message = some .null) :
    ∃ e, (onMessage E sess now message st).1 = st.emit (.consoleError e) := by
  obtain ⟨e, he⟩ := cacheUpdate_snd_of_reject E message st hp
  have h1 := cacheUpdate_fst E message st
  have hv : validPayload E message = none := by
    unfold validPayload
    rcases hp with hp | hp <;> simp [hp, Option.bind, statusPayload, field]
  unfold onMessage messageTry
  rcases hcu : cacheUpdate E message st with ⟨st1, c⟩
  rw [hcu] at h1 he
  simp only at h1 he
  subst he
  refine ⟨"MQTT message error " ++ e, ?_⟩
  simp only
  rw [h1, hv]
  rfl

/-- The publishes after one more effect. -/
theorem published_emit (st : Relay) (e : Effect) :
    (st.emit e).published = st.published ++ (if e.isPublish then [e] else []) := by
  unfold Relay.published Relay.emit
  simp only [List.filter_append]
  cases h : e.isPublish <;> simp [List.filter, h]

/-- One handled message either publishes nothing and keeps the counter and
the timestamp, or a request was due and it publishes one request, counts
the sequence up and sets the timestamp to the clock reading. -/
theorem onMessage_refresh_cases (E : JsonLib) (sess : Session) (now : Int) (message : String)
    (st : Relay) :
    ((onMessage E sess now message st).1.published = st.published ∧
        (onMessage E sess now message st).1.lastPushallTime = st.lastPushallTime) ∨
      (pushallDue sess.printerType now st.lastPushallTime = true ∧
        (onMessage E sess now message st).1.published.length = st.published.length + 1 ∧
        (onMessage E sess now message st).1.lastPushallTime = now) := by
  have h1 := cacheUpdate_fst E message st
  unfold onMessage messageTry
  rcases hcu : cacheUpdate E message st with ⟨st1, c⟩
  rw [hcu] at h1
  simp only at h1
  cases c with
  | threw e =>
    left
    subst h1
    simp [Relay.published, Relay.emit, Effect.isPublish, List.filter_append]
  | normal =>
    simp only
    unfold refresh
    by_cases hd : pushallDue sess.printerType now st1.lastPushallTime = true
    · have hd0 : pushallDue sess.printerType now st.lastPushallTime = true := by
        rw [h1] at hd; exact hd
      simp only [hd, if_true]
      cases hc : st1.mqttClient with
      | none =>
        left
        simp [Relay.published, Relay.emit, Effect.isPublish, h1]
      | some h =>
        right
        refine ⟨hd0, ?_, ?_⟩
        · simp [Relay.published, Relay.emit, Effect.isPublish, h1, List.filter_append]
        · simp [Relay.emit]
    · left
      simp only [hd]
      simp [Relay.published, h1]

/-- A request is due for a budget family only when the interval elapsed. -/
theorem pushallDue_budget (printerType : Option JVal) (now last : Int)
    (hf : printerType = some (.str "P1") ∨ printerType = some (.str "P1P") ∨
      printerType = some (.str "A1")) :
    pushallDue printerType now last = decide (now - last ≥ 300000) := by
  rcases hf with hf | hf | hf <;> subst hf <;>
    simp [pushallDue, strictEqStr, PUSHALL_INTERVAL]

/-- A request is never due for an unrecognised family. -/
theorem pushallDue_unrecognised (printerType : Option JVal) (now last : Int)
    (hf : ∀ t ∈ ["X1", "P1", "P1P", "A1"], printerType ≠ some (.str t)) :
    pushallDue printerType now last = false := by
  have hx : ∀ t ∈ ["X1", "P1", "P1P", "A1"], strictEqStr printerType t = false := by
    intro t ht
    cases hpt : printerType with
    | none => rfl
    | some v =>
      cases v with
      | str s =>
        have hne : s ≠ t := fun hst => hf t ht (by rw [hpt, hst])
        simp [strictEqStr, hne]
      | null => rfl
      | bool b => rfl
      | num n => rfl
      | arr xs => rfl
      | obj kvs => rfl
  simp [pushallDue, hx "X1" (by simp), hx "P1" (by simp), hx "P1P" (by simp), hx "A1" (by simp)]

/-- In a run of one budget family session, the clock readings of the
refreshes are pairwise at least the interval apart, and each is at least
the interval after the timestamp the run started with. -/
theorem refreshTimes_spaced (E : JsonLib) (sess : Session)
    (hf : sess.printerType = some (.str "P1") ∨ sess.printerType = some (.str "P1P") ∨
      sess.printerType = some (.str "A1"))
    (ms : List (Int × String)) (st : Relay) :
    (refreshTimes E sess st ms).Pairwise (fun a b => b - a ≥ 300000) ∧
      ∀ t ∈ refreshTimes E sess st ms, t - st.lastPushallTime ≥ 300000 := by
  induction ms generalizing st with
  | nil => simp [refreshTimes]
  | cons m rest ih =>
    obtain ⟨now, message⟩ := m
    obtain ⟨ihp, iht⟩ := ih (onMessage E sess now message st).1
    simp only [refreshTimes]
    rcases onMessage_refresh_cases E sess now message st with ⟨hpub, hlast⟩ | ⟨hd, hlen, hlast⟩
    · rw [hlast] at iht
      simp only [hpub, lt_self_iff_false, if_false, List.nil_append]
      exact ⟨ihp, iht⟩
    · rw [hlast] at iht
      rw [pushallDue_budget _ _ _ hf] at hd
      have hge : now - st.lastPushallTime ≥ 300000 := by simpa using hd
      have hlt : st.published.length < (onMessage E sess now message st).1.published.length := by
        omega
      simp only [hlt, if_true, List.singleton_append, List.pairwise_cons, List.mem_cons]
      refine ⟨⟨fun t ht => iht t ht, ihp⟩, ?_⟩
      rintro t (rfl | ht)
      · exact hge
      · have := iht t ht
        omega

/-- One handled message of a session of unrecognised family publishes
nothing and keeps the counter and the timestamp. -/
theorem onMessage_unrecognised (E : JsonLib) (sess : Session) (now : Int) (message : String)
    (st : Relay) (hf : ∀ t ∈ ["X1", "P1", "P1P", "A1"], sess.printerType ≠ some (.str t)) :
    (onMessage E sess now message st).1.published = st.published ∧
      (onMessage E sess now message st).1.sequenceID = st.sequenceID ∧
      (onMessage E sess now message st).1.lastPushallTime = st.lastPushallTime := by
  have h1 := cacheUpdate_fst E message st
  unfold onMessage messageTry
  rcases hcu : cacheUpdate E message st with ⟨st1, c⟩
  rw [hcu] at h1
  simp only at h1
  subst h1
  cases c with
  | threw e => simp [Relay.published, Relay.emit, Effect.isPublish, List.filter_append]
  | normal =>
    simp only
    rw [refresh_of_not_due E sess now _ (pushallDue_unrecognised _ _ _ hf)]
    simp [Relay.published]

/-- A run of deliveries to sessions of unrecognised family publishes
nothing and keeps the counter and the timestamp. -/
theorem processAll_unrecognised (E : JsonLib) (ds : List Delivery) (st : Relay)
    (hf : ∀ d ∈ ds, ∀ t ∈ ["X1", "P1", "P1P", "A1"], d.session.printerType ≠ some (.str t)) :
    (processAll E st ds).published = st.published ∧
      (processAll E st ds).sequenceID = st.sequenceID ∧
      (processAll E st ds).lastPushallTime = st.lastPushallTime := by
  induction ds generalizing st with
  | nil => simp [processAll]
  | cons d rest ih =>
    have hstep : processAll E st (d :: rest) = processAll E (deliver E st d) rest := by
      simp [processAll]
    obtain ⟨h1, h2, h3⟩ := onMessage_unrecognised E d.session d.now d.message st
      (hf d (List.mem_cons_self d rest))
    obtain ⟨i1, i2, i3⟩ := ih (deliver E st d) (fun d' hd' => hf d' (List.mem_cons_of_mem d hd'))
    rw [hstep, i1, i2, i3]
    exact ⟨h1, h2, h3⟩

/-! ## Lemmas on the config store -/

/-- Lookup in a list with a first entry. -/
theorem lookupLast_cons (a : String) (b : JVal) (rest : Entries) (k : String) :
    lookupLast ((a, b) :: rest) k =
      match lookupLast rest k with
      | some w => some w
      | none => if a = k then some b else none := rfl

/-- Lookup after an entry was added at the end. -/
theorem lookupLast_append_one (t : Entries) (k : String) (v : JVal) (k' : String) :
    lookupLast (t ++ [(k, v)]) k' = if k = k' then some v else lookupLast t k' := by
  induction t with
  | nil => simp [lookupLast]
  | cons e rest ih =>
    obtain ⟨a, b⟩ := e
    rw [List.cons_append, lookupLast_cons, ih, lookupLast_cons]
    by_cases hk : k = k' <;> simp [hk]

/-- Lookup of the replaced name after a replacement in place. -/
theorem lookupLast_replace_same (t : Entries) (k : String) (v : JVal) :
    lookupLast (t.map (fun e => if e.1 = k then (k, v) else e)) k =
      if t.any (fun e => e.1 == k) then some v else none := by
  induction t with
  | nil => simp [lookupLast]
  | cons e rest ih =>
    obtain ⟨a, b⟩ := e
    rw [List.map_cons, List.any_cons]
    by_cases ha : a = k
    · simp only [ha, if_true]
      rw [lookupLast_cons, ih]
      by_cases hr : rest.any (fun e => e.1 == k) = true <;> simp [hr]
    · simp only [ha, if_false]
      rw [lookupLast_cons, ih]
      by_cases hr : rest.any (fun e => e.1 == k) = true <;> simp [hr, ha]

/-- Lookup of another name after a replacement in place. -/
theorem lookupLast_replace_other (t : Entries) (k : String) (v : JVal) (k' : String)
    (hne : k ≠ k') :
    lookupLast (t.map (fun e => if e.1 = k then (k, v) else e)) k' = lookupLast t k' := by
  induction t with
  | nil => simp [lookupLast]
  | cons e rest ih =>
    obtain ⟨a, b⟩ := e
    rw [List.map_cons]
    by_cases ha : a = k
    · have hak : ¬ a = k' := fun h => hne (ha ▸ h)
      simp only [ha, if_true]
      rw [lookupLast_cons, ih, lookupLast_cons]
      simp [hne]
    · simp only [ha, if_false]
      rw [lookupLast_cons, ih, lookupLast_cons]

/-- Lookup after a property assignment. -/
theorem lookupLast_setProp (t : Entries) (k : String) (v : JVal) (k' : String)
    (hk' : k' ≠ "__proto__") :
    lookupLast (setProp t k v) k' = if k = k' then some v else lookupLast t k' := by
  unfold setProp
  by_cases hp : k = "__proto__"
  · have hne : ¬ k = k' := fun h => hk' (h ▸ hp)
    rw [if_pos hp, if_neg hne]
  · rw [if_neg hp]
    by_cases hany : t.any (fun e => e.1 == k) = true
    · rw [if_pos hany]
      by_cases hkk : k = k'
      · subst hkk
        rw [lookupLast_replace_same, if_pos hany, if_pos rfl]
      · rw [if_neg hkk]
        exact lookupLast_replace_other t k v k' hkk
    · rw [if_neg hany]
      exact lookupLast_append_one t k v k'

/-- Lookup after `Object.assign`: the source wins where it has the name. -/
theorem lookupLast_assign (es : Entries) (t : Entries) (k' : String)
    (hk' : k' ≠ "__proto__") :
    lookupLast (es.foldl (fun t e => setProp t e.1 e.2) t) k' =
      match lookupLast es k' with
      | some v => some v
      | none => lookupLast t k' := by
  induction es generalizing t with
  | nil => simp [lookupLast]
  | cons e rest ih =>
    obtain ⟨a, b⟩ := e
    simp only [List.foldl_cons, ih, lookupLast, lookupLast_setProp _ _ _ _ hk']
    cases lookupLast rest k' with
    | some w => simp
    | none => by_cases ha : a = k' <;> simp [ha]

/-- Every run of `connectMqttClient` is recorded as one run. -/
theorem connectMqttClient_connectRuns (rnd : String) (st : Relay) :
    (connectMqttClient rnd st).1.connectRuns = st.connectRuns + 1 := by
  unfold connectMqttClient
  simp only
  split <;> cases st.mqttClient <;>
    simp [Relay.connectRuns, Relay.emit, Effect.closesConnect, List.filter_append]

/-! ## The claims -/

/-- Claim C1. Whatever the cache holds at first and whatever messages are
handled, in arrival order and by whichever sessions, the telemetry cache
afterwards is exactly the status payload (the print object) of the last
valid message of the sequence, and the initial value when none is valid. -/
theorem cache_last_write_wins (E : JsonLib) (st : Relay) (ds : List Delivery) :
    (processAll E st ds).telemetryCache =
      ((ds.filterMap (fun d => validPayload E d.message)).getLast?).getD st.telemetryCache :=
  processAll_cache E ds st

/-- Claim C2. A message that does not decode as JSON, or decodes to a value
without a print object carrying gcode_state, makes the message handler
return normally and leaves the telemetry cache as it was. -/
theorem invalid_message_contained (E : JsonLib) (sess : Session) (now : Int)
    (message : String) (st : Relay)
    (h : E.parse message = none ∨ ∃ v, E.parse message = some v ∧ statusPayload v = none) :
    (onMessage E sess now message st).2 = .normal ∧
      (onMessage E sess now message st).1.telemetryCache = st.telemetryCache := by
  refine ⟨onMessage_snd E sess now message st, ?_⟩
  rw [onMessage_cache]
  have hv : validPayload E message = none := by
    unfold validPayload
    rcases h with h | ⟨v, h, hs⟩ <;> simp [h, Option.bind]
    exact hs
  rw [hv]
  rfl

/-- An instance of claim C2: the text of JSON null, handled by a linked X1
session whose cache holds a RUNNING status. -/
theorem invalid_message_contained_witness :
    (onMessage sampleJson (sampleSession "X1") 1000 "null"
        (deliver sampleJson (sampleLinked "X1") ⟨sampleSession "X1", 500, runningText⟩)).2
      = .normal ∧
    (onMessage sampleJson (sampleSession "X1") 1000 "null"
        (deliver sampleJson (sampleLinked "X1")
          ⟨sampleSession "X1", 500, runningText⟩)).1.telemetryCache
      = (deliver sampleJson (sampleLinked "X1")
          ⟨sampleSession "X1", 500, runningText⟩).telemetryCache :=
  invalid_message_contained sampleJson (sampleSession "X1") 1000 "null" _
    (Or.inr ⟨.null, rfl, rfl⟩)

/-- Claim C8. From process start on, whatever events occur, the telemetry
endpoint answers 204 without a body as long as no valid message has been
handled, and 200 with the status payload of the last valid message once one
has; it never answers an error. -/
theorem status_endpoint_answer (E : JsonLib) (env : String → Option String)
    (file : Option String) (evs : List Event) :
    getStatus (run E (processStart env file) evs) =
      match (evs.filterMap (Event.payload E)).getLast? with
      | none => { status := 204, body := none }
      | some p => { status := 200, body := some p } := by
  have hc := run_cache E evs (processStart env file)
  cases hl : (evs.filterMap (Event.payload E)).getLast? with
  | none =>
    rw [hl] at hc
    have hnull : (run E (processStart env file) evs).telemetryCache = .null := by
      rw [hc]; rfl
    simp [getStatus, hnull, truthy]
  | some p =>
    rw [hl] at hc
    have hmem : p ∈ evs.filterMap (Event.payload E) := List.mem_of_getLast?_eq_some hl
    obtain ⟨ev, _, hev⟩ := List.mem_filterMap.1 hmem
    have ht : truthy (some p) = true := by
      cases ev with
      | message d => exact validPayload_truthy E d.message p hev
      | loadConfig w => simp [Event.payload] at hev
      | connectCall r => simp [Event.payload] at hev
      | connected s => simp [Event.payload] at hev
      | subscribed s => simp [Event.payload] at hev
      | postConfig r w b => simp [Event.payload] at hev
    have hcache : (run E (processStart env file) evs).telemetryCache = p := by
      rw [hc]; rfl
    simp [getStatus, hcache, ht]

/-- Claim C3, as the code has it. When the host (printerURL), the serial
number (printerSN) or the access code (printerAccessCode) of the config is
missing or empty, connectMqttClient returns normally, calls mqtt.connect
not at all and registers no session; the client variable keeps its value.
The port is not among the fields the guard tests. -/
theorem incomplete_config_disables_link (rnd : String) (st : Relay)
    (h : truthy (lookupLast st.bambuConfig "printerURL") = false ∨
      truthy (lookupLast st.bambuConfig "printerSN") = false ∨
      truthy (lookupLast st.bambuConfig "printerAccessCode") = false) :
    (connectMqttClient rnd st).2 = .normal ∧
      (connectMqttClient rnd st).1.connects = st.connects ∧
      (connectMqttClient rnd st).1.sessions = st.sessions ∧
      (connectMqttClient rnd st).1.mqttClient = st.mqttClient := by
  have hg : ∀ c : Entries, c = st.bambuConfig →
      (!truthy (lookupLast c "printerURL") || !truthy (lookupLast c "printerSN") ||
        !truthy (lookupLast c "printerAccessCode")) = true := by
    intro c hc
    subst hc
    rcases h with h | h | h <;> simp [h]
  refine ⟨connectMqttClient_snd rnd st, ?_⟩
  unfold connectMqttClient
  cases hm : st.mqttClient with
  | none =>
    simp only [hg st.bambuConfig rfl, if_true]
    simp [Relay.connects, Relay.emit, Effect.isMqttConnect, List.filter_append, hm]
  | some c =>
    simp only [Relay.emit, hg st.bambuConfig rfl, if_true]
    simp [Relay.connects, Effect.isMqttConnect, List.filter_append, hm]

/-- An instance of claim C3: the config of a process started without any
environment override has an empty host, serial number and access code. -/
theorem incomplete_config_disables_link_witness :
    (connectMqttClient "a1b2" (processStart (fun _ => none) none)).2 = .normal ∧
      (connectMqttClient "a1b2" (processStart (fun _ => none) none)).1.connects =
        (processStart (fun _ => none) none).connects ∧
      (connectMqttClient "a1b2" (processStart (fun _ => none) none)).1.sessions =
        (processStart (fun _ => none) none).sessions ∧
      (connectMqttClient "a1b2" (processStart (fun _ => none) none)).1.mqttClient =
        (processStart (fun _ => none) none).mqttClient :=
  incomplete_config_disables_link "a1b2" (processStart (fun _ => none) none) (Or.inl rfl)

/-- Claim C3 fails as stated: with host, serial number and access code set
and the port empty, connectMqttClient does call mqtt.connect. -/
theorem empty_port_still_connects :
    truthy (lookupLast (sampleStart "X1" (.str "")).bambuConfig "printerPort") = false ∧
      (connectMqttClient "a1b2" (sampleStart "X1" (.str ""))).1.connects =
        [.mqttConnect 0 "mqtts://10.0.0.5:" "mqtt_a1b2" (some (.str "secret")) 0] ∧
      (connectMqttClient "a1b2" (sampleStart "X1" (.str ""))).1.mqttClient = some 0 :=
  ⟨rfl, rfl, rfl⟩

/-- Claim C4, as the code has it. On a link connected with family X1, the
handling of a message that decodes as JSON to a value other than null
publishes exactly one pushall request, on the request topic and with the
next sequence number, at whatever time it arrives. -/
theorem x1_refresh_on_decoded_message (E : JsonLib) (sess : Session) (now : Int)
    (message : String) (st : Relay) (h : Nat) (v : JVal)
    (hx : sess.printerType = some (.str "X1")) (hc : st.mqttClient = some h)
    (hp : E.parse message = some v) (hv : v ≠ .null) :
    (onMessage E sess now message st).1.trace =
        st.trace ++
          [.publish h sess.topicRequest (E.stringify (pushallMsg (st.sequenceID + 1))) false] ∧
      (onMessage E sess now message st).1.sequenceID = st.sequenceID + 1 ∧
      (onMessage E sess now message st).1.lastPushallTime = now := by
  have hd : pushallDue sess.printerType now st.lastPushallTime = true := by
    simp [pushallDue, hx, strictEqStr]
  rw [onMessage_of_value_due E sess now message st v h hp hv hd hc]
  exact ⟨rfl, rfl, rfl⟩

/-- An instance of claim C4: a RUNNING report handled one millisecond after
the initial request. -/
theorem x1_refresh_on_decoded_message_witness :
    (onMessage sampleJson (sampleSession "X1") 1 runningText (sampleLinked "X1")).1.trace =
        (sampleLinked "X1").trace ++
          [.publish 0 (sampleSession "X1").topicRequest
            (sampleJson.stringify (pushallMsg ((sampleLinked "X1").sequenceID + 1))) false] ∧
      (onMessage sampleJson (sampleSession "X1") 1 runningText (sampleLinked "X1")).1.sequenceID =
        (sampleLinked "X1").sequenceID + 1 ∧
      (onMessage sampleJson (sampleSession "X1") 1 runningText
        (sampleLinked "X1")).1.lastPushallTime = 1 :=
  x1_refresh_on_decoded_message sampleJson (sampleSession "X1") 1 runningText
    (sampleLinked "X1") 0 (.obj [("print", statusOf "RUNNING")]) rfl rfl rfl
    (fun hne => JVal.noConfusion hne)

/-- Claim C4 fails as stated: on a link connected with family X1, a message
that is not JSON publishes no request. -/
theorem x1_undecodable_message_no_refresh :
    (sampleSession "X1").printerType = some (.str "X1") ∧
      (sampleLinked "X1").mqttClient = some 0 ∧
      sampleJson.parse "not json" = none ∧
      (onMessage sampleJson (sampleSession "X1") 1000 "not json"
        (sampleLinked "X1")).1.published = (sampleLinked "X1").published :=
  ⟨rfl, rfl, rfl, rfl⟩

/-- Claim C5, as the code has it. On a link connected with family P1, P1P or
A1, the handling at clock reading now of a message that decodes as JSON to
a value other than null publishes one pushall request, and sets the
timestamp to now, if and only if now - lastPushallTime is at least 300000;
and in every run of messages handled by the session, whatever their
content, any two refreshes are at least 300000 ms apart. -/
theorem budget_refresh_throttled (E : JsonLib) (sess : Session) (now : Int)
    (message : String) (st : Relay) (h : Nat) (v : JVal)
    (hf : sess.printerType = some (.str "P1") ∨ sess.printerType = some (.str "P1P") ∨
      sess.printerType = some (.str "A1"))
    (hc : st.mqttClient = some h) (hp : E.parse message = some v) (hv : v ≠ .null) :
    ((onMessage E sess now message st).1.trace =
        if now - st.lastPushallTime ≥ 300000 then
          st.trace ++
            [.publish h sess.topicRequest (E.stringify (pushallMsg (st.sequenceID + 1))) false]
        else st.trace) ∧
      ((onMessage E sess now message st).1.lastPushallTime =
        if now - st.lastPushallTime ≥ 300000 then now else st.lastPushallTime) ∧
      ∀ (st0 : Relay) (ms : List (Int × String)),
        (refreshTimes E sess st0 ms).Pairwise (fun a b => b - a ≥ 300000) := by
  refine ⟨?_, ?_, fun st0 ms => (refreshTimes_spaced E sess hf ms st0).1⟩
  · by_cases hge : now - st.lastPushallTime ≥ 300000
    · have hd : pushallDue sess.printerType now st.lastPushallTime = true := by
        rw [pushallDue_budget _ _ _ hf]; simpa using hge
      rw [onMessage_of_value_due E sess now message st v h hp hv hd hc, if_pos hge]
    · have hd : pushallDue sess.printerType now st.lastPushallTime = false := by
        rw [pushallDue_budget _ _ _ hf]; simpa using hge
      rw [onMessage_of_value_not_due E sess now message st v hp hv hd, if_neg hge]
  · by_cases hge : now - st.lastPushallTime ≥ 300000
    · have hd : pushallDue sess.printerType now st.lastPushallTime = true := by
        rw [pushallDue_budget _ _ _ hf]; simpa using hge
      rw [onMessage_of_value_due E sess now message st v h hp hv hd hc, if_pos hge]
    · have hd : pushallDue sess.printerType now st.lastPushallTime = false := by
        rw [pushallDue_budget _ _ _ hf]; simpa using hge
      rw [onMessage_of_value_not_due E sess now message st v hp hv hd, if_neg hge]

/-- An instance of claim C5: on a linked P1P session whose timestamp is 0, a
RUNNING report handled at 300000 is answered by a request; and in the run
of reports at 60000, 300000, 301000 and 900000 the refreshes are spaced. -/
theorem budget_refresh_throttled_witness :
    ((onMessage sampleJson (sampleSession "P1P") 300000 runningText
          (sampleLinked "P1P")).1.trace =
        if (300000 : Int) - (sampleLinked "P1P").lastPushallTime ≥ 300000 then
          (sampleLinked "P1P").trace ++
            [.publish 0 (sampleSession "P1P").topicRequest
              (sampleJson.stringify (pushallMsg ((sampleLinked "P1P").sequenceID + 1))) false]
        else (sampleLinked "P1P").trace) ∧
      ((onMessage sampleJson (sampleSession "P1P") 300000 runningText
          (sampleLinked "P1P")).1.lastPushallTime =
        if (300000 : Int) - (sampleLinked "P1P").lastPushallTime ≥ 300000 then 300000
        else (sampleLinked "P1P").lastPushallTime) ∧
      (refreshTimes sampleJson (sampleSession "P1P") (sampleLinked "P1P")
        [(60000, runningText), (300000, finishText), (301000, "not json"),
          (900000, runningText)]).Pairwise (fun a b => b - a ≥ 300000) :=
  ⟨(budget_refresh_throttled sampleJson (sampleSession "P1P") 300000 runningText
      (sampleLinked "P1P") 0 (.obj [("print", statusOf "RUNNING")]) (Or.inr (Or.inl rfl)) rfl rfl
      (fun hne => JVal.noConfusion hne)).1,
   (budget_refresh_throttled sampleJson (sampleSession "P1P") 300000 runningText
      (sampleLinked "P1P") 0 (.obj [("print", statusOf "RUNNING")]) (Or.inr (Or.inl rfl)) rfl rfl
      (fun hne => JVal.noConfusion hne)).2.1,
   (budget_refresh_throttled sampleJson (sampleSession "P1P") 300000 runningText
      (sampleLinked "P1P") 0 (.obj [("print", statusOf "RUNNING")]) (Or.inr (Or.inl rfl)) rfl rfl
      (fun hne => JVal.noConfusion hne)).2.2 _ _⟩

/-- Claim C5 fails as stated: on a link connected with family P1, a message
that is not JSON, handled 300000 ms after the timestamp, publishes no
request. -/
theorem budget_undecodable_message_no_refresh :
    (sampleSession "P1").printerType = some (.str "P1") ∧
      (sampleLinked "P1").mqttClient = some 0 ∧
      (300000 : Int) - (sampleLinked "P1").lastPushallTime ≥ 300000 ∧
      sampleJson.parse "not json" = none ∧
      (onMessage sampleJson (sampleSession "P1") 300000 "not json"
        (sampleLinked "P1")).1.published = (sampleLinked "P1").published :=
  ⟨rfl, rfl, by decide, rfl, rfl⟩

/-- Claim C6, where the code departs from it. The connect handler and the
subscribe callback read no clock and assign no timestamp: on a P1P link the
initial request leaves lastPushallTime at 0, so with the initial request
sent at clock reading 1000000 a RUNNING report handled at 1060000, 60 s
later, is answered by a second request, which sets the timestamp. -/
theorem initial_pushall_keeps_timestamp :
    (sampleLinked "P1P").published =
        [.publish 0 "device/ABC123/request" (sampleJson.stringify (pushallMsg 20001)) false] ∧
      (sampleLinked "P1P").lastPushallTime = 0 ∧
      (onMessage sampleJson (sampleSession "P1P") 1060000 runningText
          (sampleLinked "P1P")).1.published =
        [.publish 0 "device/ABC123/request" (sampleJson.stringify (pushallMsg 20001)) false,
         .publish 0 "device/ABC123/request" (sampleJson.stringify (pushallMsg 20002)) false] ∧
      (onMessage sampleJson (sampleSession "P1P") 1060000 runningText
          (sampleLinked "P1P")).1.lastPushallTime = 1060000 :=
  ⟨rfl, rfl, rfl, rfl⟩

/-- Claim C7. When the printer family of every receiving session is none of
X1, P1, P1P and A1, whatever messages are handled, nothing is published and
the sequence counter and the last request timestamp stay as they were. -/
theorem unrecognised_family_never_refreshes (E : JsonLib) (st : Relay) (ds : List Delivery)
    (hf : ∀ d ∈ ds, ∀ t ∈ ["X1", "P1", "P1P", "A1"], d.session.printerType ≠ some (.str t)) :
    (processAll E st ds).published = st.published ∧
      (processAll E st ds).sequenceID = st.sequenceID ∧
      (processAll E st ds).lastPushallTime = st.lastPushallTime :=
  processAll_unrecognised E ds st hf

/-- An instance of claim C7: sessions of family X1C, of family x1 and of an
empty family, receiving reports long after the last request. -/
theorem unrecognised_family_never_refreshes_witness :
    (processAll sampleJson (sampleLinked "X1C")
        [⟨sampleSession "X1C", 900000, runningText⟩, ⟨sampleSession "x1", 1800000, finishText⟩,
          ⟨sampleSession "", 2700000, "not json"⟩]).published = (sampleLinked "X1C").published ∧
      (processAll sampleJson (sampleLinked "X1C")
        [⟨sampleSession "X1C", 900000, runningText⟩, ⟨sampleSession "x1", 1800000, finishText⟩,
          ⟨sampleSession "", 2700000, "not json"⟩]).sequenceID =
        (sampleLinked "X1C").sequenceID ∧
      (processAll sampleJson (sampleLinked "X1C")
        [⟨sampleSession "X1C", 900000, runningText⟩, ⟨sampleSession "x1", 1800000, finishText⟩,
          ⟨sampleSession "", 2700000, "not json"⟩]).lastPushallTime =
        (sampleLinked "X1C").lastPushallTime :=
  unrecognised_family_never_refreshes sampleJson (sampleLinked "X1C")
    [⟨sampleSession "X1C", 900000, runningText⟩, ⟨sampleSession "x1", 1800000, finishText⟩,
      ⟨sampleSession "", 2700000, "not json"⟩]
    (by simp [sampleSession])

/-- Claim C9. A successful saveBambuConfig leaves an in-memory config in
which every field of the given partial config has the given value and
every other field has the value it had, writes the serialisation of that
whole merged config to storage, and a following read of the config
endpoint answers the merged config as it is stored. The field name
__proto__, which JavaScript does not store as a field, is left aside. -/
theorem save_merges_and_persists (E : JsonLib) (st : Relay) (p : JVal) (k : String)
    (hk : k ≠ "__proto__") :
    (saveBambuConfig E true p st).2 = .normal ∧
      (lookupLast (saveBambuConfig E true p st).1.bambuConfig k =
        match lookupLast (ownProps p) k with
        | some v => some v
        | none => lookupLast st.bambuConfig k) ∧
      (saveBambuConfig E true p st).1.configFile =
        some (E.stringifyIndented (.obj (saveBambuConfig E true p st).1.bambuConfig)) ∧
      getConfig (saveBambuConfig E true p st).1 =
        { status := 200, body := some (.obj (saveBambuConfig E true p st).1.bambuConfig) } := by
  refine ⟨rfl, ?_, rfl, rfl⟩
  simp only [saveBambuConfig, if_true, objectAssign]
  exact lookupLast_assign (ownProps p) st.bambuConfig k hk

/-- An instance of claim C9: a new access code and a new field saved over
the sample config, read at the access code. -/
theorem save_merges_and_persists_witness :
    (saveBambuConfig sampleJson true
        (.obj [("printerAccessCode", .str "12345678"), ("displayFanIcons", .bool false)])
        (sampleStart "X1" (.num 8883))).2 = .normal ∧
      (lookupLast (saveBambuConfig sampleJson true
          (.obj [("printerAccessCode", .str "12345678"), ("displayFanIcons", .bool false)])
          (sampleStart "X1" (.num 8883))).1.bambuConfig "printerAccessCode" =
        match lookupLast
          (ownProps (.obj [("printerAccessCode", .str "12345678"), ("displayFanIcons", .bool false)]))
          "printerAccessCode" with
        | some v => some v
        | none => lookupLast (sampleStart "X1" (.num 8883)).bambuConfig "printerAccessCode") ∧
      (saveBambuConfig sampleJson true
        (.obj [("printerAccessCode", .str "12345678"), ("displayFanIcons", .bool false)])
        (sampleStart "X1" (.num 8883))).1.configFile =
        some (sampleJson.stringifyIndented (.obj (saveBambuConfig sampleJson true
          (.obj [("printerAccessCode", .str "12345678"), ("displayFanIcons", .bool false)])
          (sampleStart "X1" (.num 8883))).1.bambuConfig)) ∧
      getConfig (saveBambuConfig sampleJson true
        (.obj [("printerAccessCode", .str "12345678"), ("displayFanIcons", .bool false)])
        (sampleStart "X1" (.num 8883))).1 =
        { status := 200, body := some (.obj (saveBambuConfig sampleJson true
          (.obj [("printerAccessCode", .str "12345678"), ("displayFanIcons", .bool false)])
          (sampleStart "X1" (.num 8883))).1.bambuConfig) } :=
  save_merges_and_persists sampleJson (sampleStart "X1" (.num 8883))
    (.obj [("printerAccessCode", .str "12345678"), ("displayFanIcons", .bool false)])
    "printerAccessCode" (by decide)

/-- Claim C10. For every request body and every state, the config write
endpoint, when the save succeeds, runs connectMqttClient exactly once on
the saved state and answers success, whether or not a client was set and
whether or not the config changed; when the save fails it answers 500 and
does not run connectMqttClient. -/
theorem post_config_reconnects (E : JsonLib) (rnd : String) (body : JVal) (st : Relay) :
    ((saveBambuConfig E true body st).2 = .normal ∧
        postConfig E rnd true body st =
          ((connectMqttClient rnd (saveBambuConfig E true body st).1).1,
            { status := 200, body := some (.obj [("success", .bool true)]) }) ∧
        (postConfig E rnd true body st).1.connectRuns = st.connectRuns + 1) ∧
      ((saveBambuConfig E false body st).2 ≠ .normal ∧
        (postConfig E rnd false body st).2 =
          { status := 500, body := some (.obj [("error", .str "Failed to save config")]) } ∧
        (postConfig E rnd false body st).1.connectRuns = st.connectRuns ∧
        (postConfig E rnd false body st).1.mqttClient = st.mqttClient ∧
        (postConfig E rnd false body st).1.sessions = st.sessions) := by
  have hpost : postConfig E rnd true body st =
      ((connectMqttClient rnd (saveBambuConfig E true body st).1).1,
        { status := 200, body := some (.obj [("success", .bool true)]) }) := by
    have hn := connectMqttClient_snd rnd (saveBambuConfig E true body st).1
    unfold postConfig
    simp only [saveBambuConfig, if_true] at hn ⊢
    rcases hcn : connectMqttClient rnd _ with ⟨st2, c2⟩
    rw [hcn] at hn
    simp only at hn
    subst hn
    rfl
  refine ⟨⟨rfl, hpost, ?_⟩, ?_, rfl, ?_, rfl, rfl⟩
  · rw [hpost]
    simp only [connectMqttClient_connectRuns]
    rfl
  · simp [saveBambuConfig]
  · simp [postConfig, saveBambuConfig, Relay.connectRuns, Relay.emit, Effect.closesConnect,
      List.filter_append]

/-! ## Lemmas on the trace of the handlers -/

/-- With a client set, one handled message either adds at most one logged
error and keeps the counter, or adds exactly one publish, on the request
topic of the session and with the counter just counted up. -/
theorem onMessage_trace_cases (E : JsonLib) (sess : Session) (now : Int) (message : String)
    (st : Relay) (h : Nat) (hc : st.mqttClient = some h) :
    (((onMessage E sess now message st).1.trace = st.trace ∨
          ∃ t, (onMessage E sess now message st).1.trace = st.trace ++ [.consoleError t]) ∧
        (onMessage E sess now message st).1.sequenceID = st.sequenceID ∧
        (onMessage E sess now message st).1.mqttClient = st.mqttClient) ∨
      ((onMessage E sess now message st).1.trace =
          st.trace ++
            [.publish h sess.topicRequest (E.stringify (pushallMsg (st.sequenceID + 1))) false] ∧
        (onMessage E sess now message st).1.sequenceID = st.sequenceID + 1 ∧
        (onMessage E sess now message st).1.mqttClient = st.mqttClient) := by
  have hrej : (E.parse message = none ∨ E.parse message = some .null) →
      (((onMessage E sess now message st).1.trace = st.trace ∨
          ∃ t, (onMessage E sess now message st).1.trace = st.trace ++ [.consoleError t]) ∧
        (onMessage E sess now message st).1.sequenceID = st.sequenceID ∧
        (onMessage E sess now message st).1.mqttClient = st.mqttClient) := by
    intro hp
    obtain ⟨e, he⟩ := onMessage_of_reject E sess now message st hp
    rw [he]
    exact ⟨Or.inr ⟨e, rfl⟩, rfl, rfl⟩
  cases hp : E.parse message with
  | none => exact Or.inl (hrej (Or.inl hp))
  | some v =>
    by_cases hv : v = .null
    · subst hv
      exact Or.inl (hrej (Or.inr hp))
    · by_cases hd : pushallDue sess.printerType now st.lastPushallTime = true
      · right
        rw [onMessage_of_value_due E sess now message st v h hp hv hd hc]
        exact ⟨rfl, rfl, rfl⟩
      · left
        have hd0 : pushallDue sess.printerType now st.lastPushallTime = false := by
          simpa using hd
        rw [onMessage_of_value_not_due E sess now message st v hp hv hd0]
        exact ⟨Or.inl rfl, rfl, rfl⟩

/-- With a client set, the connect handler logs, counts the sequence up and
subscribes to the report topic of the session. -/
theorem onConnect_of_client (sess : Session) (st : Relay) (h : Nat)
    (hc : st.mqttClient = some h) :
    onConnect sess st =
      ({ st with
          sequenceID := st.sequenceID + 1
          trace := st.trace ++
            [.consoleLog "Bambu MQTT connected", .subscribe h sess.topicReport] },
        .normal) := by
  unfold onConnect
  simp [hc, Relay.emit]

/-- With a client set, the subscribe callback publishes one request that
carries the current counter. -/
theorem onSubscribed_of_client (E : JsonLib) (sess : Session) (st : Relay) (h : Nat)
    (hc : st.mqttClient = some h) :
    onSubscribed E sess st =
      ({ st with
          trace := st.trace ++
            [.publish h sess.topicRequest (E.stringify (pushallMsg st.sequenceID)) false] },
        .normal) := by
  unfold onSubscribed
  simp [hc, Relay.emit]

/-- What `connectMqttClient` does on an incomplete config: close the client
that is set, warn, and nothing else. -/
theorem connectMqttClient_of_incomplete (rnd : String) (st : Relay)
    (h : truthy (lookupLast st.bambuConfig "printerURL") = false ∨
      truthy (lookupLast st.bambuConfig "printerSN") = false ∨
      truthy (lookupLast st.bambuConfig "printerAccessCode") = false) :
    (connectMqttClient rnd st).1 =
      { st with
          trace := st.trace ++
            (match st.mqttClient with
              | some c => [.mqttEnd c]
              | none => []) ++
            [.consoleWarn "Incomplete Bambu settings, MQTT disabled"] } := by
  have hg : (!truthy (lookupLast st.bambuConfig "printerURL") ||
      !truthy (lookupLast st.bambuConfig "printerSN") ||
      !truthy (lookupLast st.bambuConfig "printerAccessCode")) = true := by
    rcases h with h | h | h <;> simp [h]
  unfold connectMqttClient
  cases hm : st.mqttClient with
  | none => simp [Relay.emit, hg, hm]
  | some c => simp [Relay.emit, hg, hm]

/-- What `connectMqttClient` does on a complete config: close the client
that is set, create a client and register its session. -/
theorem connectMqttClient_of_complete (rnd : String) (st : Relay)
    (hu : truthy (lookupLast st.bambuConfig "printerURL") = true)
    (hs : truthy (lookupLast st.bambuConfig "printerSN") = true)
    (ha : truthy (lookupLast st.bambuConfig "printerAccessCode") = true) :
    (connectMqttClient rnd st).1 =
      { st with
          mqttClient := some st.sessions.length
          sessions := st.sessions ++
            [{ printerType := lookupLast st.bambuConfig "printerType"
               topicReport := "device/" ++ template (lookupLast st.bambuConfig "printerSN") ++
                 "/report"
               topicRequest := "device/" ++ template (lookupLast st.bambuConfig "printerSN") ++
                 "/request" }]
          trace := st.trace ++
            (match st.mqttClient with
              | some c => [.mqttEnd c]
              | none => []) ++
            [.mqttConnect st.sessions.length
              ("mqtts://" ++ template (lookupLast st.bambuConfig "printerURL") ++ ":" ++
                template (lookupLast st.bambuConfig "printerPort"))
              ("mqtt_" ++ rnd) (lookupLast st.bambuConfig "printerAccessCode") 0,
              .listen st.sessions.length "connect", .listen st.sessions.length "message"] } := by
  unfold connectMqttClient
  cases hm : st.mqttClient with
  | none => simp [Relay.emit, hu, hs, ha, hm]
  | some c => simp [Relay.emit, hu, hs, ha, hm]

/-- The handlers call `mqtt.connect` never. -/
theorem handlers_keep_connects (E : JsonLib) (sess : Session) (err : Option String) (now : Int)
    (message : String) (st : Relay) (h : Nat) (hc : st.mqttClient = some h) :
    (onConnect sess st).1.connects = st.connects ∧
      (subscribeCallback E sess err st).1.connects = st.connects ∧
      (onMessage E sess now message st).1.connects = st.connects := by
  refine ⟨?_, ?_, ?_⟩
  · rw [onConnect_of_client sess st h hc]
    simp [Relay.connects, Effect.isMqttConnect, List.filter_append]
  · unfold subscribeCallback
    rw [onSubscribed_of_client E sess st h hc]
    simp [Relay.connects, Effect.isMqttConnect, List.filter_append]
  · rcases onMessage_trace_cases E sess now message st h hc with
      ⟨ht | ⟨t, ht⟩, _, _⟩ | ⟨ht, _, _⟩ <;>
      simp [Relay.connects, ht, Effect.isMqttConnect, List.filter_append]

/-- A run of events none of which is a valid message keeps the cache. -/
theorem run_cache_of_no_payload (E : JsonLib) (evs : List Event) (st : Relay)
    (h : ∀ ev ∈ evs, ev.payload E = none) :
    (run E st evs).telemetryCache = st.telemetryCache := by
  have hnil : evs.filterMap (Event.payload E) = [] := by
    induction evs with
    | nil => rfl
    | cons ev rest ih =>
      rw [List.filterMap_cons, h ev (List.mem_cons_self ev rest)]
      exact ih (fun ev' hev' => h ev' (List.mem_cons_of_mem ev hev'))
  rw [run_cache, hnil]
  rfl

/-- The function `loadBambuConfig` leaves the cache alone. -/
theorem loadBambuConfig_cache (E : JsonLib) (writeOk : Bool) (st : Relay) :
    (loadBambuConfig E writeOk st).1.telemetryCache = st.telemetryCache := by
  unfold loadBambuConfig
  cases st.configFile.bind E.parse with
  | some v => rfl
  | none => cases writeOk <;> rfl

/-! ## The claims on the sessions of the link -/

/-- Claim C11, as the code has it. A reconnect closes the previous client
and sets the client variable to a new one, but keeps no session identifier
and leaves the handlers of the previous session in place: a report message
that still reaches such a handler is handled like any other. It overwrites
the telemetry cache when it is valid, and when a refresh is due for the
family of the previous session the request goes out through the new client,
on the request topic of the previous session. -/
theorem stale_message_still_handled (E : JsonLib) (rnd : String) (st : Relay) (h : Nat)
    (oldSess : Session) (now : Int) (message : String) (v : JVal)
    (hc : st.mqttClient = some h)
    (hu : truthy (lookupLast st.bambuConfig "printerURL") = true)
    (hs : truthy (lookupLast st.bambuConfig "printerSN") = true)
    (ha : truthy (lookupLast st.bambuConfig "printerAccessCode") = true)
    (hp : E.parse message = some v) (hv : v ≠ .null)
    (hd : pushallDue oldSess.printerType now st.lastPushallTime = true) :
    Effect.mqttEnd h ∈ (connectMqttClient rnd st).1.trace ∧
      (connectMqttClient rnd st).1.mqttClient = some st.sessions.length ∧
      (onMessage E oldSess now message (connectMqttClient rnd st).1).1.telemetryCache =
        (validPayload E message).getD st.telemetryCache ∧
      (onMessage E oldSess now message (connectMqttClient rnd st).1).1.trace =
        (connectMqttClient rnd st).1.trace ++
          [.publish st.sessions.length oldSess.topicRequest
            (E.stringify (pushallMsg (st.sequenceID + 1))) false] := by
  have hst := connectMqttClient_of_complete rnd st hu hs ha
  have hend : Effect.mqttEnd h ∈ (connectMqttClient rnd st).1.trace := by
    rw [hst]
    simp [hc]
  have hc1 : (connectMqttClient rnd st).1.mqttClient = some st.sessions.length := by
    rw [hst]
  have hd1 : pushallDue oldSess.printerType now (connectMqttClient rnd st).1.lastPushallTime
      = true := by
    rw [hst]; exact hd
  have hseq : (connectMqttClient rnd st).1.sequenceID = st.sequenceID := by rw [hst]
  refine ⟨hend, hc1, ?_, ?_⟩
  · rw [onMessage_cache, connectMqttClient_cache]
  · rw [onMessage_of_value_due E oldSess now message _ v _ hp hv hd1 hc1, hseq]

/-- An instance of claim C11: the sample link of family X1 is reconnected
with the same config, and a RUNNING report reaches the first session. -/
theorem stale_message_still_handled_witness :
    Effect.mqttEnd 0 ∈ (connectMqttClient "c3d4" (sampleLinked "X1")).1.trace ∧
      (connectMqttClient "c3d4" (sampleLinked "X1")).1.mqttClient =
        some (sampleLinked "X1").sessions.length ∧
      (onMessage sampleJson (sampleSession "X1") 5 runningText
          (connectMqttClient "c3d4" (sampleLinked "X1")).1).1.telemetryCache =
        (validPayload sampleJson runningText).getD (sampleLinked "X1").telemetryCache ∧
      (onMessage sampleJson (sampleSession "X1") 5 runningText
          (connectMqttClient "c3d4" (sampleLinked "X1")).1).1.trace =
        (connectMqttClient "c3d4" (sampleLinked "X1")).1.trace ++
          [.publish (sampleLinked "X1").sessions.length (sampleSession "X1").topicRequest
            (sampleJson.stringify (pushallMsg ((sampleLinked "X1").sequenceID + 1))) false] :=
  stale_message_still_handled sampleJson "c3d4" (sampleLinked "X1") 0 (sampleSession "X1") 5
    runningText (.obj [("print", statusOf "RUNNING")]) rfl rfl rfl rfl rfl
    (fun hne => JVal.noConfusion hne) rfl

/-- Claim C11 fails as stated: after the serial number was changed and the
link reconnected, a RUNNING report handled by the handler of the first
session sets the empty cache and publishes a request through the new
client, on the request topic of the first session. -/
theorem stale_message_not_discarded :
    (sampleRelinked "X1").sessions.head? = some (sampleSession "X1") ∧
      (sampleRelinked "X1").mqttClient = some 1 ∧
      (sampleRelinked "X1").telemetryCache = .null ∧
      (onMessage sampleJson (sampleSession "X1") 5 runningText
          (sampleRelinked "X1")).1.telemetryCache = statusOf "RUNNING" ∧
      (onMessage sampleJson (sampleSession "X1") 5 runningText
          (sampleRelinked "X1")).1.published =
        (sampleRelinked "X1").published ++
          [.publish 1 "device/ABC123/request" (sampleJson.stringify (pushallMsg 20002)) false] :=
  ⟨rfl, rfl, rfl, rfl, rfl⟩

/-- Claim C15, as the code has it. Called with an incomplete config,
connectMqttClient first closes the client that is set, if any, with
end(true), then logs the warning and returns: the telemetry cache, the
sequence counter, the last request timestamp, the config, the client
variable and the registered sessions are as before. -/
theorem incomplete_config_closes_then_warns (rnd : String) (st : Relay)
    (h : truthy (lookupLast st.bambuConfig "printerURL") = false ∨
      truthy (lookupLast st.bambuConfig "printerSN") = false ∨
      truthy (lookupLast st.bambuConfig "printerAccessCode") = false) :
    (connectMqttClient rnd st).1 =
      { st with
          trace := st.trace ++
            (match st.mqttClient with
              | some c => [.mqttEnd c]
              | none => []) ++
            [.consoleWarn "Incomplete Bambu settings, MQTT disabled"] } :=
  connectMqttClient_of_incomplete rnd st h

/-- An instance of claim C15: the sample link after its serial number was
saved as the empty text. -/
theorem incomplete_config_closes_then_warns_witness :
    (connectMqttClient "c3d4"
        (saveBambuConfig sampleJson true (.obj [("printerSN", .str "")]) (sampleLinked "X1")).1).1 =
      { (saveBambuConfig sampleJson true (.obj [("printerSN", .str "")]) (sampleLinked "X1")).1 with
          trace :=
            (saveBambuConfig sampleJson true (.obj [("printerSN", .str "")])
              (sampleLinked "X1")).1.trace ++
            (match (saveBambuConfig sampleJson true (.obj [("printerSN", .str "")])
                (sampleLinked "X1")).1.mqttClient with
              | some c => [.mqttEnd c]
              | none => []) ++
            [.consoleWarn "Incomplete Bambu settings, MQTT disabled"] } :=
  incomplete_config_closes_then_warns "c3d4"
    (saveBambuConfig sampleJson true (.obj [("printerSN", .str "")]) (sampleLinked "X1")).1
    (Or.inr (Or.inl rfl))

/-- Claim C15 fails as stated: with a client set and the serial number
empty, connectMqttClient closes the client before it warns. -/
theorem incomplete_config_closes_session :
    truthy (lookupLast
        (saveBambuConfig sampleJson true (.obj [("printerSN", .str "")])
          (sampleLinked "X1")).1.bambuConfig "printerSN") = false ∧
      (sampleLinked "X1").mqttClient = some 0 ∧
      (connectMqttClient "c3d4"
          (saveBambuConfig sampleJson true (.obj [("printerSN", .str "")])
            (sampleLinked "X1")).1).1.trace =
        (sampleLinked "X1").trace ++
          [.mqttEnd 0, .consoleWarn "Incomplete Bambu settings, MQTT disabled"] :=
  ⟨rfl, rfl, rfl⟩

/-- Claim C16. No event but a valid message changes the telemetry cache: a
run of connect calls, config loads, config posts (save and reconnect),
connect and subscribe callbacks and invalid messages leaves the cache, and
with it the answer of the telemetry endpoint, exactly as it was; so do
connectMqttClient, saveBambuConfig and loadBambuConfig taken alone. The
HTTP reads are functions of the state and return no state. -/
theorem cache_changed_only_by_valid_message (E : JsonLib) (st : Relay) (evs : List Event)
    (rnd : String) (writeOk : Bool) (newConfig : JVal)
    (h : ∀ ev ∈ evs, ev.payload E = none) :
    (run E st evs).telemetryCache = st.telemetryCache ∧
      getStatus (run E st evs) = getStatus st ∧
      (connectMqttClient rnd st).1.telemetryCache = st.telemetryCache ∧
      (saveBambuConfig E writeOk newConfig st).1.telemetryCache = st.telemetryCache ∧
      (loadBambuConfig E writeOk st).1.telemetryCache = st.telemetryCache := by
  have hrun := run_cache_of_no_payload E evs st h
  refine ⟨hrun, ?_, connectMqttClient_cache rnd st, saveBambuConfig_cache E writeOk newConfig st,
    loadBambuConfig_cache E writeOk st⟩
  unfold getStatus
  rw [hrun]

/-- An instance of claim C16: the sample link holds a RUNNING status, then
is reconnected with a new serial number, reconnected again with an empty
one, receives a text that is not JSON, and loads its config. -/
theorem cache_changed_only_by_valid_message_witness :
    (run sampleJson (deliver sampleJson (sampleLinked "X1") ⟨sampleSession "X1", 5, runningText⟩)
        [.postConfig "c3d4" true (.obj [("printerSN", .str "XYZ789")]),
          .postConfig "e5f6" true (.obj [("printerSN", .str "")]),
          .message ⟨sampleSession "X1", 9, "not json"⟩, .loadConfig true]).telemetryCache =
        (deliver sampleJson (sampleLinked "X1")
          ⟨sampleSession "X1", 5, runningText⟩).telemetryCache ∧
      getStatus
          (run sampleJson
            (deliver sampleJson (sampleLinked "X1") ⟨sampleSession "X1", 5, runningText⟩)
            [.postConfig "c3d4" true (.obj [("printerSN", .str "XYZ789")]),
              .postConfig "e5f6" true (.obj [("printerSN", .str "")]),
              .message ⟨sampleSession "X1", 9, "not json"⟩, .loadConfig true]) =
        getStatus
          (deliver sampleJson (sampleLinked "X1") ⟨sampleSession "X1", 5, runningText⟩) ∧
      (connectMqttClient "c3d4"
          (deliver sampleJson (sampleLinked "X1")
            ⟨sampleSession "X1", 5, runningText⟩)).1.telemetryCache =
        (deliver sampleJson (sampleLinked "X1")
          ⟨sampleSession "X1", 5, runningText⟩).telemetryCache ∧
      (saveBambuConfig sampleJson true (.obj [("printerSN", .str "")])
          (deliver sampleJson (sampleLinked "X1")
            ⟨sampleSession "X1", 5, runningText⟩)).1.telemetryCache =
        (deliver sampleJson (sampleLinked "X1")
          ⟨sampleSession "X1", 5, runningText⟩).telemetryCache ∧
      (loadBambuConfig sampleJson true
          (deliver sampleJson (sampleLinked "X1")
            ⟨sampleSession "X1", 5, runningText⟩)).1.telemetryCache =
        (deliver sampleJson (sampleLinked "X1")
          ⟨sampleSession "X1", 5, runningText⟩).telemetryCache :=
  cache_changed_only_by_valid_message sampleJson
    (deliver sampleJson (sampleLinked "X1") ⟨sampleSession "X1", 5, runningText⟩)
    [.postConfig "c3d4" true (.obj [("printerSN", .str "XYZ789")]),
      .postConfig "e5f6" true (.obj [("printerSN", .str "")]),
      .message ⟨sampleSession "X1", 9, "not json"⟩, .loadConfig true]
    "c3d4" true (.obj [("printerSN", .str "")])
    (by
      intro ev hev
      simp only [List.mem_cons, List.mem_singleton, List.not_mem_nil, or_false] at hev
      rcases hev with rfl | rfl | rfl | rfl <;> rfl)

/-- The first part of the try block keeps the trace. -/
theorem cacheUpdate_trace (E : JsonLib) (message : String) (st : Relay) :
    (cacheUpdate E message st).1.trace = st.trace := by
  rw [cacheUpdate_fst]

/-- The message handler adds to the trace only calls that leave the errors
of the link alone. -/
theorem onMessage_leavesErrors (E : JsonLib) (sess : Session) (now : Int) (message : String)
    (st : Relay) (hst : ∀ e ∈ st.trace, e.leavesErrors = true) :
    ∀ e ∈ (onMessage E sess now message st).1.trace, e.leavesErrors = true := by
  have h0 := cacheUpdate_trace E message st
  unfold onMessage messageTry
  rcases hcu : cacheUpdate E message st with ⟨st1, c⟩
  rw [hcu] at h0
  simp only at h0
  cases c with
  | threw e0 =>
    intro e he
    simp only [Relay.emit, h0, List.mem_append, List.mem_singleton] at he
    rcases he with he | he
    · exact hst e he
    · subst he
      rfl
  | normal =>
    simp only
    unfold refresh
    by_cases hd : pushallDue sess.printerType now st1.lastPushallTime = true
    · rw [if_pos hd]
      cases hm : st1.mqttClient with
      | none =>
        intro e he
        simp only [hm, Relay.emit, h0, List.mem_append, List.mem_singleton] at he
        rcases he with he | he
        · exact hst e he
        · subst he
          rfl
      | some h =>
        intro e he
        simp only [hm, Relay.emit, h0, List.mem_append, List.mem_singleton] at he
        rcases he with he | he
        · exact hst e he
        · subst he
          rfl
    · rw [if_neg hd]
      intro e he
      simp only [h0] at he
      exact hst e he

/-- The function `connectMqttClient` adds to the trace only calls that leave
the errors of the link alone. -/
theorem connectMqttClient_leavesErrors (rnd : String) (st : Relay)
    (hst : ∀ e ∈ st.trace, e.leavesErrors = true) :
    ∀ e ∈ (connectMqttClient rnd st).1.trace, e.leavesErrors = true := by
  intro e he
  unfold connectMqttClient at he
  cases hm : st.mqttClient with
  | none =>
    simp only [hm] at he
    split at he
    · simp only [Relay.emit, List.mem_append, List.mem_singleton] at he
      rcases he with he | he
      · exact hst e he
      · subst he
        rfl
    · simp only [List.mem_append, List.mem_cons, List.mem_singleton, List.not_mem_nil,
        or_false] at he
      rcases he with he | he | he | he
      · exact hst e he
      · subst he
        rfl
      · subst he
        rfl
      · subst he
        rfl
  | some c =>
    simp only [hm] at he
    split at he
    · simp only [Relay.emit, List.mem_append, List.mem_singleton] at he
      rcases he with (he | he) | he
      · exact hst e he
      · subst he
        rfl
      · subst he
        rfl
    · simp only [Relay.emit, List.mem_append, List.mem_cons, List.mem_singleton,
        List.not_mem_nil, or_false] at he
      rcases he with (he | he) | he | he | he
      · exact hst e he
      · subst he
        rfl
      · subst he
        rfl
      · subst he
        rfl
      · subst he
        rfl

/-- One event adds to the trace only calls that leave the errors of the
link alone. -/
theorem step_leavesErrors (E : JsonLib) (st : Relay) (ev : Event)
    (hst : ∀ e ∈ st.trace, e.leavesErrors = true) :
    ∀ e ∈ (step E st ev).trace, e.leavesErrors = true := by
  cases ev with
  | loadConfig writeOk =>
    simp only [step, loadBambuConfig]
    cases st.configFile.bind E.parse with
    | some v => exact hst
    | none => cases writeOk <;> exact hst
  | connectCall rnd => exact connectMqttClient_leavesErrors rnd st hst
  | connected sess =>
    intro e he
    simp only [step, onConnect, Relay.emit] at he
    cases hm : st.mqttClient with
    | none =>
      simp only [hm, List.mem_append, List.mem_singleton] at he
      rcases he with he | he
      · exact hst e he
      · subst he
        rfl
    | some c =>
      simp only [hm, List.mem_append, List.mem_singleton] at he
      rcases he with (he | he) | he
      · exact hst e he
      · subst he
        rfl
      · subst he
        rfl
  | subscribed sess =>
    intro e he
    simp only [step, onSubscribed, Relay.emit] at he
    cases hm : st.mqttClient with
    | none =>
      simp only [hm] at he
      exact hst e he
    | some c =>
      simp only [hm, List.mem_append, List.mem_singleton] at he
      rcases he with he | he
      · exact hst e he
      · subst he
        rfl
  | message d => exact onMessage_leavesErrors E d.session d.now d.message st hst
  | postConfig rnd writeOk body =>
    intro e he
    simp only [step, postConfig, saveBambuConfig] at he
    cases writeOk with
    | false =>
      simp only [Bool.false_eq_true, if_false, Relay.emit, List.mem_append,
        List.mem_singleton] at he
      rcases he with he | he
      · exact hst e he
      · subst he
        rfl
    | true =>
      simp only [if_true] at he
      have hn := connectMqttClient_snd rnd
        { st with
            bambuConfig := objectAssign st.bambuConfig body
            configFile := some (E.stringifyIndented (.obj (objectAssign st.bambuConfig body))) }
      have hl := connectMqttClient_leavesErrors rnd
        { st with
            bambuConfig := objectAssign st.bambuConfig body
            configFile := some (E.stringifyIndented (.obj (objectAssign st.bambuConfig body))) }
        hst
      rcases hcn : connectMqttClient rnd _ with ⟨st2, c2⟩
      rw [hcn] at hn hl he
      simp only at hn hl he
      subst hn
      exact hl e he

/-- A run of events adds to the trace only calls that leave the errors of
the link alone. -/
theorem run_leavesErrors (E : JsonLib) (evs : List Event) (st : Relay)
    (hst : ∀ e ∈ st.trace, e.leavesErrors = true) :
    ∀ e ∈ (run E st evs).trace, e.leavesErrors = true := by
  induction evs generalizing st with
  | nil => exact hst
  | cons ev rest ih => exact ih (step E st ev) (step_leavesErrors E st ev hst)

/-- A listener registered on a client is in the trace. -/
theorem listen_of_listeners (st : Relay) (client : Nat) (event : String)
    (h : event ∈ st.listeners client) : Effect.listen client event ∈ st.trace := by
  unfold Relay.listeners at h
  rw [List.mem_filterMap] at h
  obtain ⟨e, he, hev⟩ := h
  cases e with
  | listen c ev =>
    simp only at hev
    by_cases hcc : c = client
    · rw [if_pos hcc] at hev
      cases hev
      subst hcc
      exact he
    · rw [if_neg hcc] at hev
      cases hev
  | mqttConnect a b c d r => cases hev
  | mqttEnd a => cases hev
  | subscribe a b => cases hev
  | publish a b c d => cases hev
  | consoleLog a => cases hev
  | consoleWarn a => cases hev
  | consoleError a => cases hev

/-- Claim C17, as the code has it. The link handles and logs none of the
three error kinds. In every run from process start, every client is created
with reconnectPeriod 0, listeners are registered for the connect and the
message event only, so none for the error event, and every publish is called
without a callback. On a complete config connectMqttClient makes exactly the
calls end, connect and on for connect and message. The subscribe callback
drops the error it is given: it publishes the initial request all the same
and logs nothing. The handlers never call mqtt.connect, so the link retries
nothing. With the library calls taken not to throw, connectMqttClient and, on
a set client, the connect handler, the subscribe callback and the message
handler complete normally. -/
theorem link_errors_neither_thrown_nor_logged (E : JsonLib) (env : String → Option String)
    (file : Option String) (evs : List Event) (rnd : String) (sess : Session)
    (err : Option String) (now : Int) (message : String) (st : Relay) (h : Nat)
    (hc : st.mqttClient = some h)
    (hu : truthy (lookupLast st.bambuConfig "printerURL") = true)
    (hs : truthy (lookupLast st.bambuConfig "printerSN") = true)
    (ha : truthy (lookupLast st.bambuConfig "printerAccessCode") = true) :
    ((∀ c url clientId password reconnectPeriod,
          Effect.mqttConnect c url clientId password reconnectPeriod ∈
              (run E (processStart env file) evs).trace →
            reconnectPeriod = 0) ∧
        (∀ c event, Effect.listen c event ∈ (run E (processStart env file) evs).trace →
          event = "connect" ∨ event = "message") ∧
        (∀ c, "error" ∉ (run E (processStart env file) evs).listeners c) ∧
        (∀ c topic payload callback,
          Effect.publish c topic payload callback ∈ (run E (processStart env file) evs).trace →
            callback = false)) ∧
      (connectMqttClient rnd st).1.trace =
        st.trace ++ [.mqttEnd h] ++
          [.mqttConnect st.sessions.length
            ("mqtts://" ++ template (lookupLast st.bambuConfig "printerURL") ++ ":" ++
              template (lookupLast st.bambuConfig "printerPort"))
            ("mqtt_" ++ rnd) (lookupLast st.bambuConfig "printerAccessCode") 0,
            .listen st.sessions.length "connect", .listen st.sessions.length "message"] ∧
      ((subscribeCallback E sess err st).1.trace =
          st.trace ++
            [.publish h sess.topicRequest (E.stringify (pushallMsg st.sequenceID)) false] ∧
        (subscribeCallback E sess err st).1.logged = st.logged) ∧
      ((onConnect sess st).1.connects = st.connects ∧
        (subscribeCallback E sess err st).1.connects = st.connects ∧
        (onMessage E sess now message st).1.connects = st.connects) ∧
      ((connectMqttClient rnd st).2 = .normal ∧
        (onConnect sess st).2 = .normal ∧
        (subscribeCallback E sess err st).2 = .normal ∧
        (onMessage E sess now message st).2 = .normal) := by
  have hinv := run_leavesErrors E evs (processStart env file)
    (fun e he => by simp [processStart] at he)
  refine ⟨⟨?_, ?_, ?_, ?_⟩, ?_, ⟨?_, ?_⟩, handlers_keep_connects E sess err now message st h hc,
    ⟨connectMqttClient_snd rnd st, ?_, ?_, onMessage_snd E sess now message st⟩⟩
  · intro c url clientId password reconnectPeriod hmem
    simpa [Effect.leavesErrors] using hinv _ hmem
  · intro c event hmem
    simpa [Effect.leavesErrors] using hinv _ hmem
  · intro c hmem
    have hl := hinv _ (listen_of_listeners _ c "error" hmem)
    simp [Effect.leavesErrors] at hl
  · intro c topic payload callback hmem
    simpa [Effect.leavesErrors] using hinv _ hmem
  · rw [connectMqttClient_of_complete rnd st hu hs ha]
    simp [hc]
  · unfold subscribeCallback
    rw [onSubscribed_of_client E sess st h hc]
  · unfold subscribeCallback
    rw [onSubscribed_of_client E sess st h hc]
    simp [Relay.logged, Effect.isConsole, List.filter_append]
  · rw [onConnect_of_client sess st h hc]
  · unfold subscribeCallback
    rw [onSubscribed_of_client E sess st h hc]

/-- An instance of claim C17: a run that posts the sample config of family
P1 and connects, and the sample link of that family, its subscribe callback
called with an error. -/
theorem link_errors_neither_thrown_nor_logged_witness :
    (∀ c, "error" ∉
        (run sampleJson (processStart (fun _ => none) none)
          [.postConfig "a1b2" true (.obj (sampleConfig "P1" (.num 8883))),
            .connected (sampleSession "P1"), .subscribed (sampleSession "P1")]).listeners c) ∧
      (run sampleJson (processStart (fun _ => none) none)
          [.postConfig "a1b2" true (.obj (sampleConfig "P1" (.num 8883))),
            .connected (sampleSession "P1"), .subscribed (sampleSession "P1")]).listeners 0 =
        ["connect", "message"] ∧
      (connectMqttClient "c3d4" (sampleLinked "P1")).1.trace =
        (sampleLinked "P1").trace ++ [.mqttEnd 0] ++
          [.mqttConnect (sampleLinked "P1").sessions.length
            ("mqtts://" ++ template (lookupLast (sampleLinked "P1").bambuConfig "printerURL") ++
              ":" ++ template (lookupLast (sampleLinked "P1").bambuConfig "printerPort"))
            ("mqtt_" ++ "c3d4") (lookupLast (sampleLinked "P1").bambuConfig "printerAccessCode")
            0,
            .listen (sampleLinked "P1").sessions.length "connect",
            .listen (sampleLinked "P1").sessions.length "message"] ∧
      ((subscribeCallback sampleJson (sampleSession "P1") (some "Error: Connection closed")
          (sampleLinked "P1")).1.trace =
          (sampleLinked "P1").trace ++
            [.publish 0 (sampleSession "P1").topicRequest
              (sampleJson.stringify (pushallMsg (sampleLinked "P1").sequenceID)) false] ∧
        (subscribeCallback sampleJson (sampleSession "P1") (some "Error: Connection closed")
          (sampleLinked "P1")).1.logged = (sampleLinked "P1").logged) ∧
      ((connectMqttClient "c3d4" (sampleLinked "P1")).2 = .normal ∧
        (onConnect (sampleSession "P1") (sampleLinked "P1")).2 = .normal ∧
        (subscribeCallback sampleJson (sampleSession "P1") (some "Error: Connection closed")
          (sampleLinked "P1")).2 = .normal ∧
        (onMessage sampleJson (sampleSession "P1") 7 "not json" (sampleLinked "P1")).2 =
          .normal) :=
  have hw := link_errors_neither_thrown_nor_logged sampleJson (fun _ => none) none
    [.postConfig "a1b2" true (.obj (sampleConfig "P1" (.num 8883))),
      .connected (sampleSession "P1"), .subscribed (sampleSession "P1")]
    "c3d4" (sampleSession "P1") (some "Error: Connection closed") 7 "not json"
    (sampleLinked "P1") 0 rfl rfl rfl rfl
  ⟨hw.1.2.2.1, rfl, hw.2.1, hw.2.2.1, hw.2.2.2.2⟩

/-- Claim C17 fails as stated: a subscribe error handed to the subscribe
callback of the connected sample link is not logged; the only thing the
callback adds to the trace is a publish. -/
theorem subscribe_error_not_logged :
    (sampleConnected sampleJson "X1").logged = [.consoleLog "Bambu MQTT connected"] ∧
      (subscribeCallback sampleJson (sampleSession "X1") (some "Error: Connection closed")
        (sampleConnected sampleJson "X1")).1.logged = [.consoleLog "Bambu MQTT connected"] ∧
      (subscribeCallback sampleJson (sampleSession "X1") (some "Error: Connection closed")
        (sampleConnected sampleJson "X1")).1.trace =
        (sampleConnected sampleJson "X1").trace ++
          [.publish 0 "device/ABC123/request" (sampleJson.stringify (pushallMsg 20001)) false] :=
  ⟨rfl, rfl, rfl⟩

/-- Claim C19, as the code has it. After a connect event the initial
request is published exactly once, by the subscribe callback and not by
the connect handler; the callback takes no argument, so the request is
published whether or not the subscribe call reports an error. -/
theorem initial_request_on_callback (E : JsonLib) (sess : Session) (err : Option String)
    (st : Relay) (h : Nat) (hc : st.mqttClient = some h) :
    (onConnect sess st).1.published = st.published ∧
      (subscribeCallback E sess err (onConnect sess st).1).1.published =
        st.published ++
          [.publish h sess.topicRequest (E.stringify (pushallMsg (st.sequenceID + 1))) false] := by
  have h1 := onConnect_of_client sess st h hc
  have hc1 : (onConnect sess st).1.mqttClient = some h := by rw [h1]; exact hc
  refine ⟨?_, ?_⟩
  · rw [h1]
    simp [Relay.published, Effect.isPublish, List.filter_append]
  · unfold subscribeCallback
    rw [onSubscribed_of_client E sess _ h hc1, h1]
    simp [Relay.published, Effect.isPublish, List.filter_append]

/-- An instance of claim C19: a second connect event on the sample link,
its subscription confirmed. -/
theorem initial_request_on_callback_witness :
    (onConnect (sampleSession "A1") (sampleLinked "A1")).1.published =
        (sampleLinked "A1").published ∧
      (subscribeCallback wireJson (sampleSession "A1") none
          (onConnect (sampleSession "A1") (sampleLinked "A1")).1).1.published =
        (sampleLinked "A1").published ++
          [.publish 0 (sampleSession "A1").topicRequest
            (wireJson.stringify (pushallMsg ((sampleLinked "A1").sequenceID + 1))) false] :=
  initial_request_on_callback wireJson (sampleSession "A1") none (sampleLinked "A1") 0 rfl

/-- Claim C19 fails as stated: when the subscribe call of the connected
sample link reports an error, the callback publishes the initial request
all the same. -/
theorem subscribe_error_still_publishes :
    (sampleConnected wireJson "X1").published = [] ∧
      (subscribeCallback wireJson (sampleSession "X1") (some "Error: Connection closed")
        (sampleConnected wireJson "X1")).1.published =
        [.publish 0 "device/ABC123/request" (renderJson (pushallMsg 20001)) false] ∧
      renderJson (pushallMsg 20001) =
        "\x7b\"pushing\":\x7b\"sequence_id\":20001,\"command\":\"pushall\"\x7d,\"user_id\":\"0\"\x7d" :=
  ⟨rfl, rfl, rfl⟩

/-! ## Lemmas on the sequence counter -/

/-- The expected texts of one more request. -/
theorem expectedTexts_succ (E : JsonLib) (k : Nat) :
    expectedTexts E (k + 1) =
      expectedTexts E k ++ [E.stringify (pushallMsg (20001 + (k : Int)))] := by
  simp [expectedTexts, List.range_succ]

/-- The number of expected texts. -/
theorem expectedTexts_length (E : JsonLib) (k : Nat) : (expectedTexts E k).length = k := by
  simp [expectedTexts]

/-- The function `connectMqttClient` publishes nothing and keeps the
counter. -/
theorem connectMqttClient_requests (rnd : String) (st : Relay) :
    (connectMqttClient rnd st).1.requestTexts = st.requestTexts ∧
      (connectMqttClient rnd st).1.sequenceID = st.sequenceID := by
  unfold connectMqttClient
  simp only
  split <;> cases st.mqttClient <;>
    simp [Relay.requestTexts, Relay.emit, Effect.payloadText, List.filterMap_append]

/-- The function `loadBambuConfig` publishes nothing and keeps the counter. -/
theorem loadBambuConfig_requests (E : JsonLib) (writeOk : Bool) (st : Relay) :
    (loadBambuConfig E writeOk st).1.requestTexts = st.requestTexts ∧
      (loadBambuConfig E writeOk st).1.sequenceID = st.sequenceID := by
  unfold loadBambuConfig
  cases st.configFile.bind E.parse with
  | some v => exact ⟨rfl, rfl⟩
  | none => cases writeOk <;> exact ⟨rfl, rfl⟩

/-- The state after a config post whose save succeeds: the saved state
after one run of `connectMqttClient`. -/
theorem post_config_state (E : JsonLib) (rnd : String) (body : JVal) (st : Relay) :
    (postConfig E rnd true body st).1 =
      (connectMqttClient rnd
        { st with
            bambuConfig := objectAssign st.bambuConfig body
            configFile := some (E.stringifyIndented (.obj (objectAssign st.bambuConfig body))) }).1 := by
  have hn := connectMqttClient_snd rnd
    { st with
        bambuConfig := objectAssign st.bambuConfig body
        configFile := some (E.stringifyIndented (.obj (objectAssign st.bambuConfig body))) }
  unfold postConfig
  simp only [saveBambuConfig, if_true]
  rcases hcn : connectMqttClient rnd _ with ⟨st2, c2⟩
  rw [hcn] at hn
  simp only at hn
  subst hn
  rfl

/-- The config write endpoint publishes nothing and keeps the counter. -/
theorem postConfig_requests (E : JsonLib) (rnd : String) (writeOk : Bool) (body : JVal)
    (st : Relay) :
    (postConfig E rnd writeOk body st).1.requestTexts = st.requestTexts ∧
      (postConfig E rnd writeOk body st).1.sequenceID = st.sequenceID := by
  cases writeOk with
  | false =>
    simp [postConfig, saveBambuConfig, Relay.requestTexts, Relay.emit, Effect.payloadText,
      List.filterMap_append]
  | true =>
    rw [(post_config_state E rnd body st)]
    exact connectMqttClient_requests rnd _

/-- One turn keeps the requests and the counter in step: when the texts
published so far carry 20001 up to 20000 + k and the counter is 20000 + k,
the same holds after the turn, for k or for k + 1. -/
theorem turn_in_step (E : JsonLib) (st : Relay) (t : Turn) (k : Nat)
    (hlive : (!t.needsClient || st.mqttClient.isSome) = true)
    (htexts : st.requestTexts = expectedTexts E k)
    (hseq : st.sequenceID = 20000 + (k : Int)) :
    ∃ k', (run E st t.events).requestTexts = expectedTexts E k' ∧
      (run E st t.events).sequenceID = 20000 + (k' : Int) := by
  cases t with
  | loadConfig writeOk =>
    obtain ⟨h1, h2⟩ := loadBambuConfig_requests E writeOk st
    exact ⟨k, by simp [Turn.events, run, step, h1, htexts], by
      simp [Turn.events, run, step, h2, hseq]⟩
  | connectCall rnd =>
    obtain ⟨h1, h2⟩ := connectMqttClient_requests rnd st
    exact ⟨k, by simp [Turn.events, run, step, h1, htexts], by
      simp [Turn.events, run, step, h2, hseq]⟩
  | postConfig rnd writeOk body =>
    obtain ⟨h1, h2⟩ := postConfig_requests E rnd writeOk body st
    exact ⟨k, by simp [Turn.events, run, step, h1, htexts], by
      simp [Turn.events, run, step, h2, hseq]⟩
  | handshake sess =>
    have hsome : st.mqttClient.isSome = true := by simpa [Turn.needsClient] using hlive
    obtain ⟨h, hc⟩ := Option.isSome_iff_exists.1 hsome
    have h1 := onConnect_of_client sess st h hc
    have hc1 : (onConnect sess st).1.mqttClient = some h := by rw [h1]; exact hc
    have h2 := onSubscribed_of_client E sess (onConnect sess st).1 h hc1
    have hnum : st.sequenceID + 1 = 20001 + (k : Int) := by omega
    refine ⟨k + 1, ?_, ?_⟩
    · simp only [Turn.events, run, List.foldl_cons, List.foldl_nil, step]
      rw [h2, h1, expectedTexts_succ, ← htexts, ← hnum]
      simp [Relay.requestTexts, Effect.payloadText, List.filterMap_append]
    · simp only [Turn.events, run, List.foldl_cons, List.foldl_nil, step]
      rw [h2, h1]
      simp only [Nat.cast_add, Nat.cast_one]
      omega
  | message d =>
    have hsome : st.mqttClient.isSome = true := by simpa [Turn.needsClient] using hlive
    obtain ⟨h, hc⟩ := Option.isSome_iff_exists.1 hsome
    have hnum : st.sequenceID + 1 = 20001 + (k : Int) := by omega
    simp only [Turn.events, run, List.foldl_cons, List.foldl_nil, step, deliver]
    rcases onMessage_trace_cases E d.session d.now d.message st h hc with
      ⟨ht | ⟨t, ht⟩, hs, _⟩ | ⟨ht, hs, _⟩
    · refine ⟨k, ?_, by rw [hs, hseq]⟩
      rw [← htexts]
      simp [Relay.requestTexts, ht]
    · refine ⟨k, ?_, by rw [hs, hseq]⟩
      rw [← htexts]
      simp [Relay.requestTexts, ht, Effect.payloadText, List.filterMap_append]
    · refine ⟨k + 1, ?_, ?_⟩
      · rw [expectedTexts_succ, ← htexts, ← hnum]
        simp [Relay.requestTexts, ht, Effect.payloadText, List.filterMap_append]
      · rw [hs]
        simp only [Nat.cast_add, Nat.cast_one]
        omega

/-- An orderly sequence of turns keeps the requests and the counter in
step. -/
theorem runTurns_in_step (E : JsonLib) (ts : List Turn) (st : Relay) (k : Nat)
    (ho : orderly E st ts = true)
    (htexts : st.requestTexts = expectedTexts E k)
    (hseq : st.sequenceID = 20000 + (k : Int)) :
    ∃ k', (runTurns E st ts).requestTexts = expectedTexts E k' ∧
      (runTurns E st ts).sequenceID = 20000 + (k' : Int) := by
  induction ts generalizing st k with
  | nil => exact ⟨k, by simpa [runTurns] using htexts, by simpa [runTurns] using hseq⟩
  | cons t rest ih =>
    simp only [orderly, Bool.and_eq_true] at ho
    obtain ⟨hlive, hrest⟩ := ho
    obtain ⟨k1, h1, h2⟩ := turn_in_step E st t k hlive htexts hseq
    have hstep : runTurns E st (t :: rest) = runTurns E (run E st t.events) rest := by
      simp [runTurns]
    rw [hstep]
    exact ih (run E st t.events) k1 hrest h1 h2

/-! ## The claims on the requests of the link -/

/-- Claim C12, as the code has it. The counter starts at 20000; the connect
handler counts it up once and the subscribe callback publishes the initial
request with the value the counter has by then, and a message-driven
request counts it up once and carries the new value. So in every run from
process start in which each connect event is directly followed by its
subscribe callback, and handlers run only once a client is set, the k-th
request carries sequence_id 20000 + k, no two requests carry the same one,
and the counter is 20000 plus the number of requests. -/
theorem sequence_ids_in_orderly_runs (E : JsonLib) (env : String → Option String)
    (file : Option String) (ts : List Turn)
    (ho : orderly E (processStart env file) ts = true) :
    (processStart env file).sequenceID = 20000 ∧
      (runTurns E (processStart env file) ts).requestTexts =
        expectedTexts E (runTurns E (processStart env file) ts).requestTexts.length ∧
      (runTurns E (processStart env file) ts).sequenceID =
        20000 + ((runTurns E (processStart env file) ts).requestTexts.length : Int) := by
  obtain ⟨k, h1, h2⟩ := runTurns_in_step E ts (processStart env file) 0 ho rfl rfl
  have hlen : (runTurns E (processStart env file) ts).requestTexts.length = k := by
    rw [h1, expectedTexts_length]
  rw [hlen]
  exact ⟨rfl, h1, h2⟩

/-- An instance of claim C12: the sample run publishes five requests, which
carry 20001 to 20005. -/
theorem sequence_ids_in_orderly_runs_witness :
    (processStart (fun _ => none) none).sequenceID = 20000 ∧
      (runTurns wireJson (processStart (fun _ => none) none) sampleTurns).requestTexts =
        expectedTexts wireJson
          (runTurns wireJson (processStart (fun _ => none) none) sampleTurns).requestTexts.length ∧
      (runTurns wireJson (processStart (fun _ => none) none) sampleTurns).sequenceID =
        20000 +
          ((runTurns wireJson (processStart (fun _ => none) none)
            sampleTurns).requestTexts.length : Int) :=
  sequence_ids_in_orderly_runs wireJson (fun _ => none) none sampleTurns (by decide)

/-- Claim C12 fails as stated: when a report is handled between the connect
event and the subscribe callback, the first request since process start
carries 20002 and the initial request carries 20002 again. -/
theorem sequence_id_used_twice :
    (run wireJson (sampleStart "X1" (.num 8883))
        [.connectCall "a1b2", .connected (sampleSession "X1"),
          .message ⟨sampleSession "X1", 5, runningText⟩,
          .subscribed (sampleSession "X1")]).requestTexts =
        [renderJson (pushallMsg 20002), renderJson (pushallMsg 20002)] ∧
      renderJson (pushallMsg 20002) =
        "\x7b\"pushing\":\x7b\"sequence_id\":20002,\"command\":\"pushall\"\x7d,\"user_id\":\"0\"\x7d" ∧
      renderJson (pushallMsg 20002) ≠ renderJson (pushallMsg 20001) :=
  ⟨rfl, rfl, by decide⟩

/-- Claim C18. For a config whose serial number is the non-empty text s,
connectMqttClient registers a session whose handlers, run later with a
client set, subscribe to device/s/report and to nothing else, and publish
every request, the initial and the message-driven one, on device/s/request
with the serialisation of the pushall object that carries the current
value of the sequence counter. -/
theorem requests_on_serial_topics (E : JsonLib) (rnd : String) (st st2 : Relay) (h : Nat)
    (s : String) (now : Int) (message : String)
    (hne : s ≠ "")
    (hu : truthy (lookupLast st.bambuConfig "printerURL") = true)
    (hsn : lookupLast st.bambuConfig "printerSN" = some (.str s))
    (ha : truthy (lookupLast st.bambuConfig "printerAccessCode") = true)
    (hc : st2.mqttClient = some h) :
    ((connectMqttClient rnd st).1.sessions =
        st.sessions ++ [serialSession (lookupLast st.bambuConfig "printerType") s] ∧
      (connectMqttClient rnd st).1.subscribes = st.subscribes) ∧
    ((onConnect (serialSession (lookupLast st.bambuConfig "printerType") s) st2).1.subscribes =
        st2.subscribes ++ [.subscribe h ("device/" ++ s ++ "/report")] ∧
      (onSubscribed E (serialSession (lookupLast st.bambuConfig "printerType") s)
        st2).1.subscribes = st2.subscribes ∧
      (onMessage E (serialSession (lookupLast st.bambuConfig "printerType") s) now message
        st2).1.subscribes = st2.subscribes) ∧
    ((onSubscribed E (serialSession (lookupLast st.bambuConfig "printerType") s)
        st2).1.published =
        st2.published ++
          [.publish h ("device/" ++ s ++ "/request")
            (E.stringify (pushallMsg
              (onSubscribed E (serialSession (lookupLast st.bambuConfig "printerType") s)
                st2).1.sequenceID)) false] ∧
      ((onMessage E (serialSession (lookupLast st.bambuConfig "printerType") s) now message
          st2).1.published = st2.published ∨
        (onMessage E (serialSession (lookupLast st.bambuConfig "printerType") s) now message
          st2).1.published =
          st2.published ++
            [.publish h ("device/" ++ s ++ "/request")
              (E.stringify (pushallMsg
                (onMessage E (serialSession (lookupLast st.bambuConfig "printerType") s) now
                  message st2).1.sequenceID)) false])) := by
  have hs : truthy (lookupLast st.bambuConfig "printerSN") = true := by
    rw [hsn]
    simp [truthy, hne]
  have hst := connectMqttClient_of_complete rnd st hu hs ha
  have htpl : template (lookupLast st.bambuConfig "printerSN") = s := by
    rw [hsn]
    rfl
  refine ⟨⟨?_, ?_⟩, ⟨?_, ?_, ?_⟩, ?_, ?_⟩
  · rw [hst, htpl]
    rfl
  · rw [hst]
    cases st.mqttClient <;>
      simp [Relay.subscribes, Effect.isSubscribe, List.filter_append]
  · rw [onConnect_of_client _ st2 h hc]
    simp [Relay.subscribes, Effect.isSubscribe, List.filter_append, serialSession]
  · rw [onSubscribed_of_client E _ st2 h hc]
    simp [Relay.subscribes, Effect.isSubscribe, List.filter_append]
  · rcases onMessage_trace_cases E (serialSession (lookupLast st.bambuConfig "printerType") s)
        now message st2 h hc with ⟨ht | ⟨t, ht⟩, _, _⟩ | ⟨ht, _, _⟩ <;>
      simp [Relay.subscribes, ht, Effect.isSubscribe, List.filter_append]
  · rw [onSubscribed_of_client E _ st2 h hc]
    simp [Relay.published, Effect.isPublish, List.filter_append, serialSession]
  · rcases onMessage_trace_cases E (serialSession (lookupLast st.bambuConfig "printerType") s)
        now message st2 h hc with ⟨ht | ⟨t, ht⟩, _, _⟩ | ⟨ht, hq, _⟩
    · left
      simp [Relay.published, ht]
    · left
      simp [Relay.published, ht, Effect.isPublish, List.filter_append]
    · right
      have htop : (serialSession (lookupLast st.bambuConfig "printerType") s).topicRequest =
          "device/" ++ s ++ "/request" := rfl
      rw [htop] at ht
      rw [hq]
      simp [Relay.published, ht, Effect.isPublish, List.filter_append]

/-- An instance of claim C18: the sample config, whose serial number is
ABC123, and a RUNNING report handled by the linked session. -/
theorem requests_on_serial_topics_witness :
    ((connectMqttClient "a1b2" (sampleStart "X1" (.num 8883))).1.sessions =
        (sampleStart "X1" (.num 8883)).sessions ++
          [serialSession (lookupLast (sampleStart "X1" (.num 8883)).bambuConfig "printerType")
            "ABC123"] ∧
      (connectMqttClient "a1b2" (sampleStart "X1" (.num 8883))).1.subscribes =
        (sampleStart "X1" (.num 8883)).subscribes) ∧
    ((onConnect
          (serialSession (lookupLast (sampleStart "X1" (.num 8883)).bambuConfig "printerType")
            "ABC123") (sampleLinked "X1")).1.subscribes =
        (sampleLinked "X1").subscribes ++ [.subscribe 0 ("device/" ++ "ABC123" ++ "/report")] ∧
      (onSubscribed wireJson
        (serialSession (lookupLast (sampleStart "X1" (.num 8883)).bambuConfig "printerType")
          "ABC123") (sampleLinked "X1")).1.subscribes = (sampleLinked "X1").subscribes ∧
      (onMessage wireJson
        (serialSession (lookupLast (sampleStart "X1" (.num 8883)).bambuConfig "printerType")
          "ABC123") 5 runningText (sampleLinked "X1")).1.subscribes =
        (sampleLinked "X1").subscribes) ∧
    ((onSubscribed wireJson
        (serialSession (lookupLast (sampleStart "X1" (.num 8883)).bambuConfig "printerType")
          "ABC123") (sampleLinked "X1")).1.published =
        (sampleLinked "X1").published ++
          [.publish 0 ("device/" ++ "ABC123" ++ "/request")
            (wireJson.stringify (pushallMsg
              (onSubscribed wireJson
                (serialSession
                  (lookupLast (sampleStart "X1" (.num 8883)).bambuConfig "printerType")
                  "ABC123") (sampleLinked "X1")).1.sequenceID)) false] ∧
      ((onMessage wireJson
          (serialSession (lookupLast (sampleStart "X1" (.num 8883)).bambuConfig "printerType")
            "ABC123") 5 runningText (sampleLinked "X1")).1.published =
          (sampleLinked "X1").published ∨
        (onMessage wireJson
          (serialSession (lookupLast (sampleStart "X1" (.num 8883)).bambuConfig "printerType")
            "ABC123") 5 runningText (sampleLinked "X1")).1.published =
          (sampleLinked "X1").published ++
            [.publish 0 ("device/" ++ "ABC123" ++ "/request")
              (wireJson.stringify (pushallMsg
                (onMessage wireJson
                  (serialSession
                    (lookupLast (sampleStart "X1" (.num 8883)).bambuConfig "printerType")
                    "ABC123") 5 runningText (sampleLinked "X1")).1.sequenceID)) false])) :=
  requests_on_serial_topics wireJson "a1b2" (sampleStart "X1" (.num 8883)) (sampleLinked "X1") 0
    "ABC123" 5 runningText (by decide) rfl rfl rfl rfl

/-! ## Lemmas on the stored token and on the calendar -/

/-- Member access on a truthy value never throws and yields its field. -/
theorem getMember_of_truthy (v : JVal) (k : String) (ht : truthy (some v) = true) :
    getMember (some v) k = .ok (field v k) := by
  cases v with
  | null => simp [truthy] at ht
  | bool b => rfl
  | num n => rfl
  | str s => rfl
  | arr xs => rfl
  | obj kvs => rfl

/-- A value that has a field is an object, hence truthy. -/
theorem truthy_of_field (v : JVal) (k : String) (x : JVal) (hf : field v k = some x) :
    truthy (some v) = true := by
  cases v with
  | obj kvs => rfl
  | null => simp [field] at hf
  | bool b => simp [field] at hf
  | num n => simp [field] at hf
  | str s => simp [field] at hf
  | arr xs => simp [field] at hf

/-- Every month has at least 28 days. -/
theorem monthLength_ge (y : Int) (m : Nat) : 28 ≤ monthLength y m := by
  unfold monthLength
  split
  · split <;> omega
  all_goals omega

/-- The year and month `setMonth` computes for the month after. -/
theorem fdiv_fmod_succ (m : Fin 12) :
    Int.fdiv ((m.val : Int) + 1) 12 = (if m.val = 11 then 1 else 0) ∧
      (Int.fmod ((m.val : Int) + 1) 12).toNat = (if m.val = 11 then 0 else m.val + 1) := by
  revert m
  decide

/-- The year and month `setMonth` computes for the month before. -/
theorem fdiv_fmod_pred (m : Fin 12) :
    Int.fdiv ((m.val : Int) - 1) 12 = (if m.val = 0 then -1 else 0) ∧
      (Int.fmod ((m.val : Int) - 1) 12).toNat = (if m.val = 0 then 11 else m.val - 1) := by
  revert m
  decide

/-- On a date whose day is at most 28, `nextMonth` and `prevMonth` show the
neighbouring month and keep the day. -/
theorem month_step_of_short_day (d : CalDate) (hm : d.month < 12) (hd : d.day ≤ 28) :
    ((nextMonth d).year, (nextMonth d).month) = monthAfter d.year d.month ∧
      (nextMonth d).day = d.day ∧
      ((prevMonth d).year, (prevMonth d).month) = monthBefore d.year d.month ∧
      (prevMonth d).day = d.day := by
  obtain ⟨y, m, dd⟩ := d
  simp only at hm hd
  obtain ⟨hs1, hs2⟩ := fdiv_fmod_succ ⟨m, hm⟩
  obtain ⟨hp1, hp2⟩ := fdiv_fmod_pred ⟨m, hm⟩
  simp only at hs1 hs2 hp1 hp2
  have hle : ∀ (y' : Int) (m' : Nat), dd ≤ monthLength y' m' :=
    fun y' m' => le_trans hd (monthLength_ge y' m')
  simp only [nextMonth, prevMonth, setMonth, hs1, hs2, hp1, hp2, hle, if_true, monthAfter,
    monthBefore]
  by_cases h11 : m = 11
  · subst h11
    simp
  · by_cases h0 : m = 0
    · subst h0
      simp
      omega
    · simp [h11, h0]

/-! ## The claims on the config file, the stored token and the calendar -/

/-- Claim C13, as the code has it. At process start, when the config file
is absent or does not parse, loadBambuConfig keeps the in-memory config,
the built-in default with the environment overrides, and writes exactly
that config to storage; it completes normally when that write succeeds and
throws the write error when it fails. When the file parses, loadBambuConfig
completes normally, and each field of the file replaces the default while
each default field absent from the file is kept (the name __proto__, which
JavaScript does not store as a field, left aside). -/
theorem load_config_defaults_or_merges (E : JsonLib) (env : String → Option String)
    (file : Option String) (writeOk : Bool) (k : String) (hk : k ≠ "__proto__") :
    (file.bind E.parse = none →
      (loadBambuConfig E writeOk (processStart env file)).1.bambuConfig =
          defaultBambuConfig env ∧
        (loadBambuConfig E writeOk (processStart env file)).2 =
          (if writeOk then .normal else .threw "writeFile failed") ∧
        (writeOk = true →
          (loadBambuConfig E writeOk (processStart env file)).1.configFile =
            some (E.stringifyIndented (.obj (defaultBambuConfig env))))) ∧
      (∀ v, file.bind E.parse = some v →
        (loadBambuConfig E writeOk (processStart env file)).2 = .normal ∧
          lookupLast (loadBambuConfig E writeOk (processStart env file)).1.bambuConfig k =
            match lookupLast (ownProps v) k with
            | some x => some x
            | none => lookupLast (defaultBambuConfig env) k) := by
  have hfile : (processStart env file).configFile = file := rfl
  refine ⟨fun hnone => ?_, fun v hv => ?_⟩
  · unfold loadBambuConfig
    rw [hfile, hnone]
    cases writeOk with
    | true => exact ⟨rfl, rfl, fun _ => rfl⟩
    | false => exact ⟨rfl, rfl, fun hw => Bool.noConfusion hw⟩
  · unfold loadBambuConfig
    rw [hfile, hv]
    refine ⟨rfl, ?_⟩
    simp only [objectAssign]
    exact lookupLast_assign (ownProps v) (processStart env file).bambuConfig k hk

/-- An instance of claim C13: a file that is not JSON, with a write that
succeeds, read at the port; and a file that parses to an object with the
one field print, read at that field. -/
theorem load_config_defaults_or_merges_witness :
    ((loadBambuConfig sampleJson true
          (processStart (fun _ => none) (some "not json"))).1.bambuConfig =
        defaultBambuConfig (fun _ => none) ∧
      (loadBambuConfig sampleJson true (processStart (fun _ => none) (some "not json"))).2 =
        (if true then .normal else .threw "writeFile failed") ∧
      (true = true →
        (loadBambuConfig sampleJson true
          (processStart (fun _ => none) (some "not json"))).1.configFile =
          some (sampleJson.stringifyIndented (.obj (defaultBambuConfig (fun _ => none)))))) ∧
    ((loadBambuConfig sampleJson true (processStart (fun _ => none) (some runningText))).2 =
        .normal ∧
      lookupLast
          (loadBambuConfig sampleJson true
            (processStart (fun _ => none) (some runningText))).1.bambuConfig "print" =
        match lookupLast (ownProps (.obj [("print", statusOf "RUNNING")])) "print" with
        | some x => some x
        | none => lookupLast (defaultBambuConfig (fun _ => none)) "print") :=
  ⟨(load_config_defaults_or_merges sampleJson (fun _ => none) (some "not json") true
      "printerPort" (by decide)).1 rfl,
    (load_config_defaults_or_merges sampleJson (fun _ => none) (some runningText) true
      "print" (by decide)).2 (.obj [("print", statusOf "RUNNING")]) rfl⟩

/-- Claim C13 fails as stated: with the config file absent and a write
that fails, loadBambuConfig throws. -/
theorem load_fails_when_default_unwritable :
    (processStart (fun _ => none) none).configFile = none ∧
      (loadBambuConfig sampleJson false (processStart (fun _ => none) none)).2 =
        .threw "writeFile failed" :=
  ⟨rfl, rfl⟩

/-- Claim C14. Whenever no token is stored, the stored token has no access
token, or its expiry is a number below the clock reading, the print job
summary endpoint answers 401 Not authenticated and does not call the cloud
API, whatever the cloud would reply; it does not answer 500. -/
theorem model_unauthenticated (strToNum : String → Option Int) (now : Int)
    (cloud : CloudReply) (bambuToken : JVal)
    (h : bambuToken = .null ∨ truthy (field bambuToken "accessToken") = false ∨
      ∃ t, field bambuToken "tokenExpiration" = some (.num t) ∧ t < now) :
    getModel strToNum now cloud bambuToken =
      { response := some
          { status := 401, body := some (.obj [("error", .str "Not authenticated")]) }
        authorization := none } := by
  by_cases ht : truthy (some bambuToken) = true
  · have ha := getMember_of_truthy bambuToken "accessToken" ht
    have he := getMember_of_truthy bambuToken "tokenExpiration" ht
    by_cases hacc : truthy (field bambuToken "accessToken") = true
    · rcases h with h | h | ⟨t, hf, hlt⟩
      · subst h
        simp [truthy] at ht
      · rw [h] at hacc
        exact absurd hacc (by decide)
      · simp [getModel, ht, ha, he, hacc, hf, lessThan, toNumber, hlt]
    · simp [getModel, ht, ha, hacc]
  · simp [getModel, ht]

/-- An instance of claim C14: no token, a token without access token, and
a token that expired one millisecond ago. -/
theorem model_unauthenticated_witness :
    getModel (fun _ => none) 100 (.failed "network") .null =
        { response := some
            { status := 401, body := some (.obj [("error", .str "Not authenticated")]) }
          authorization := none } ∧
      getModel (fun _ => none) 100 (.ok (.obj [])) (.obj [("tokenExpiration", .num 500)]) =
        { response := some
            { status := 401, body := some (.obj [("error", .str "Not authenticated")]) }
          authorization := none } ∧
      getModel (fun _ => none) 100 (.notOk 503 "busy")
          (.obj [("accessToken", .str "tok"), ("tokenExpiration", .num 99)]) =
        { response := some
            { status := 401, body := some (.obj [("error", .str "Not authenticated")]) }
          authorization := none } :=
  ⟨model_unauthenticated (fun _ => none) 100 (.failed "network") .null (Or.inl rfl),
    model_unauthenticated (fun _ => none) 100 (.ok (.obj [])) (.obj [("tokenExpiration", .num 500)])
      (Or.inr (Or.inl rfl)),
    model_unauthenticated (fun _ => none) 100 (.notOk 503 "busy")
      (.obj [("accessToken", .str "tok"), ("tokenExpiration", .num 99)])
      (Or.inr (Or.inr ⟨99, rfl, by decide⟩))⟩

/-- Claim C20, where the code departs from it. On a date whose day is past
the end of the target month, setMonth runs over: from 31 January 2025
nextMonth shows March and skips February, from 31 March 2025 prevMonth
stays in March, and from 31 May 2025 nextMonth shows July; from 15 January
2025 the two show February 2025 and December 2024. -/
theorem month_navigation_overflows :
    (nextMonth ⟨2025, 0, 31⟩ = ⟨2025, 2, 3⟩ ∧ monthAfter 2025 0 = (2025, 1)) ∧
      (prevMonth ⟨2025, 2, 31⟩ = ⟨2025, 2, 3⟩ ∧ monthBefore 2025 2 = (2025, 1)) ∧
      (nextMonth ⟨2025, 4, 31⟩ = ⟨2025, 6, 1⟩ ∧ monthAfter 2025 4 = (2025, 5)) ∧
      (nextMonth ⟨2025, 0, 15⟩ = ⟨2025, 1, 15⟩ ∧ prevMonth ⟨2025, 0, 15⟩ = ⟨2024, 11, 15⟩) := by
  decide

/-! ## Lemmas on the grid of a month -/

/-- The first loop of `getDaysInMonth` adds `k` empty cells. -/
theorem pushEmpty_eq (k : Nat) (days : List (Option Nat)) :
    pushEmpty k days = days ++ List.replicate k none := by
  induction k generalizing days with
  | zero => simp [pushEmpty]
  | succ k ih => simp [pushEmpty, ih, List.replicate_succ]

/-- The second loop of `getDaysInMonth` adds the numbers from `i` on. -/
theorem pushDays_eq (i k : Nat) (days : List (Option Nat)) :
    pushDays i k days = days ++ (List.range' i k).map some := by
  induction k generalizing i days with
  | zero => simp [pushDays]
  | succ k ih => simp [pushDays, ih, List.range'_succ]

/-- A month index within 0..11 is already in range. -/
theorem fdiv_fmod_self (m : Fin 12) :
    Int.fdiv (m.val : Int) 12 = 0 ∧ (Int.fmod (m.val : Int) 12).toNat = m.val := by
  revert m
  decide

/-- The days before a month are between 0 and 335. -/
theorem daysBeforeMonth_bounds (leap : Bool) (m : Nat) :
    0 ≤ daysBeforeMonth leap m ∧ daysBeforeMonth leap m ≤ 335 := by
  unfold daysBeforeMonth
  cases leap <;> split <;> simp

/-- A month has at most 31 days. -/
theorem monthLength_le (y : Int) (m : Nat) : monthLength y m ≤ 31 := by
  unfold monthLength
  split
  · split <;> omega
  all_goals omega

/-- Every date of the years from -271000 to 275001 is in the range of
`Date`. -/
theorem dayInRange_of_year (y : Int) (m : Nat) (d : Nat) (hlo : -271000 ≤ y)
    (hhi : y ≤ 275001) (hd : d ≤ 31) : dayInRange (dayNumber y m d) = true := by
  obtain ⟨h1, h2⟩ := daysBeforeMonth_bounds (isLeapYear y) m
  simp only [dayInRange, dayNumber, dayFromYear, decide_eq_true_eq]
  omega

/-- The first day of a month, as the `Date` constructor gives it for a year
outside 0..99. -/
theorem newDate_first (year : Int) (m : Nat) (hm : m < 12) (hy : year < 0 ∨ 99 < year)
    (hlo : -271000 ≤ year) (hhi : year ≤ 275000) :
    newDate year (m : Int) 1 = some { year := year, month := m, day := 1 } := by
  obtain ⟨h1, h2⟩ := fdiv_fmod_self ⟨m, hm⟩
  simp only at h1 h2
  have hfull : fullYear year = year := by
    unfold fullYear
    split
    · omega
    · rfl
  have hlen : 1 ≤ monthLength year m := le_trans (by omega) (monthLength_ge year m)
  have hr := dayInRange_of_year year m 1 hlo (by omega) (by omega)
  simp only [newDate, hfull, h1, h2, add_zero, hlen, if_true]
  simpa using hr

/-- Day 0 of the month after, as the `Date` constructor gives it for a year
outside 0..99: the last day of the month. -/
theorem newDate_last (year : Int) (m : Nat) (hm : m < 12) (hy : year < 0 ∨ 99 < year)
    (hlo : -271000 ≤ year) (hhi : year ≤ 275000) :
    newDate year ((m : Int) + 1) 0 =
      some { year := year, month := m, day := monthLength year m } := by
  obtain ⟨h1, h2⟩ := fdiv_fmod_succ ⟨m, hm⟩
  simp only at h1 h2
  have hfull : fullYear year = year := by
    unfold fullYear
    split
    · omega
    · rfl
  have hr := dayInRange_of_year year m (monthLength year m) hlo (by omega)
    (monthLength_le year m)
  by_cases h11 : m = 11
  · subst h11
    simp only [if_true] at h1 h2
    have hyear : year + 1 - 1 = year := by omega
    simp only [newDate, hfull, h1, h2, if_true, hyear, hr]
  · simp only [h11, if_false] at h1 h2
    have hne : ¬ (m + 1 = 0) := by omega
    simp only [newDate, hfull, h1, h2, add_zero, if_true, hne, if_false, Nat.add_sub_cancel, hr]

/-- The grid of a month of a year outside 0..99 and within the range of
`Date`: the weekday of its first day in empty cells, then its days. -/
theorem getDaysInMonth_eq (year : Int) (m : Nat) (hm : m < 12) (hy : year < 0 ∨ 99 < year)
    (hlo : -271000 ≤ year) (hhi : year ≤ 275000) :
    getDaysInMonth year (m : Int) =
      List.replicate (weekdayOf year m 1) none ++ (List.range' 1 (monthLength year m)).map some := by
  unfold getDaysInMonth
  rw [newDate_first year m hm hy hlo hhi, newDate_last year m hm hy hlo hhi]
  simp [pushEmpty_eq, pushDays_eq, getDay, getDate]

/-- The cell of day `d` in a grid that starts with `w` empty cells. -/
theorem grid_cell (w n d : Nat) (h1 : 1 ≤ d) (hn : d ≤ n) :
    (List.replicate w (none : Option Nat) ++ (List.range' 1 n).map some)[w + d - 1]? =
      some (some d) := by
  have hle : (List.replicate w (none : Option Nat)).length ≤ w + d - 1 := by
    simp only [List.length_replicate]
    omega
  rw [List.getElem?_append_right hle, List.length_replicate, List.getElem?_map,
    List.getElem?_range' 1 1 (by omega : w + d - 1 - w < n)]
  simp only [Option.map_some', Option.some.injEq]
  omega

/-- The weekday moves on by one from a day to the next. -/
theorem weekdayOf_day (y : Int) (m : Nat) (d : Nat) (h1 : 1 ≤ d) :
    (weekdayOf y m 1 + d - 1) % 7 = weekdayOf y m (d : Int) := by
  simp only [weekdayOf, dayNumber]
  omega

/-- The table of the days before a month agrees with the lengths of the
months: from the first of a month to the first of the next it is the
length of the month. -/
theorem dayNumber_next_month (y : Int) (m : Nat) (hm : m < 11) :
    dayNumber y (m + 1) 1 - dayNumber y m 1 = (monthLength y m : Int) := by
  have hcases : m = 0 ∨ m = 1 ∨ m = 2 ∨ m = 3 ∨ m = 4 ∨ m = 5 ∨ m = 6 ∨ m = 7 ∨ m = 8 ∨
      m = 9 ∨ m = 10 := by omega
  rcases hcases with h | h | h | h | h | h | h | h | h | h | h <;> subst h <;>
    cases hl : isLeapYear y <;> simp [dayNumber, daysBeforeMonth, monthLength, hl]

/-! ## The claim on the grid of a month -/

/-- Claim C21, as the code has it. For every year from -271000 to 275000
other than 0..99 and every month index 0..11, getDaysInMonth returns as
many empty cells as the weekday (0 is Sunday) of the first day of the month,
followed by the days 1..n of the month, n its number of days; hence day d
sits at index w + d - 1, and its column, the index modulo 7, is the weekday
of that date. -/
theorem days_grid_layout (year : Int) (m d : Nat) (hm : m < 12)
    (hy : year < 0 ∨ 99 < year) (hlo : -271000 ≤ year) (hhi : year ≤ 275000)
    (h1 : 1 ≤ d) (hd : d ≤ monthLength year m) :
    getDaysInMonth year (m : Int) =
        List.replicate (weekdayOf year m 1) none ++
          (List.range' 1 (monthLength year m)).map some ∧
      (getDaysInMonth year (m : Int))[weekdayOf year m 1 + d - 1]? = some (some d) ∧
      (weekdayOf year m 1 + d - 1) % 7 = weekdayOf year m (d : Int) := by
  refine ⟨getDaysInMonth_eq year m hm hy hlo hhi, ?_, weekdayOf_day year m d h1⟩
  rw [getDaysInMonth_eq year m hm hy hlo hhi]
  exact grid_cell (weekdayOf year m 1) (monthLength year m) d h1 hd

/-- An instance of claim C21: 29 February 2024, a Thursday, in the grid of
February 2024. -/
theorem days_grid_layout_witness :
    getDaysInMonth 2024 ((1 : Nat) : Int) =
        List.replicate (weekdayOf 2024 1 1) none ++
          (List.range' 1 (monthLength 2024 1)).map some ∧
      (getDaysInMonth 2024 ((1 : Nat) : Int))[weekdayOf 2024 1 1 + 29 - 1]? = some (some 29) ∧
      (weekdayOf 2024 1 1 + 29 - 1) % 7 = weekdayOf 2024 1 ((29 : Nat) : Int) :=
  days_grid_layout 2024 1 29 (by decide) (Or.inr (by decide)) (by decide) (by decide)
    (by decide) (by decide)

/-- Claim C21 fails as stated: for the year 50 the grid of February is the
one of February 1950, with three empty cells where 1 February of the year
50 is a Tuesday; for the year 0 the grid of February has 28 days where
February of the year 0 has 29; and for the year 300000, out of the range of
Date, the grid is empty. -/
theorem two_digit_year_grid :
    (getDaysInMonth 50 1 = List.replicate 3 none ++ (List.range' 1 28).map some ∧
        weekdayOf 50 1 1 = 2 ∧ weekdayOf 1950 1 1 = 3) ∧
      (getDaysInMonth 0 1 = List.replicate 4 none ++ (List.range' 1 28).map some ∧
        monthLength 0 1 = 29) ∧
      getDaysInMonth 300000 0 = [] := by
  decide

/-! ## Lemmas on object literals and on the voice service -/

/-- Lookup after the definition of a property. -/
theorem lookupLast_defineProp (t : Entries) (k : String) (v : JVal) (k' : String) :
    lookupLast (defineProp t k v) k' = if k = k' then some v else lookupLast t k' := by
  unfold defineProp
  by_cases hany : t.any (fun e => e.1 == k) = true
  · rw [if_pos hany]
    by_cases hkk : k = k'
    · subst hkk
      rw [lookupLast_replace_same, if_pos hany, if_pos rfl]
    · rw [if_neg hkk]
      exact lookupLast_replace_other t k v k' hkk
  · rw [if_neg hany]
    exact lookupLast_append_one t k v k'

/-- Lookup after a spread: the source wins where it has the name. -/
theorem lookupLast_spread (es : Entries) (t : Entries) (k' : String) :
    lookupLast (es.foldl (fun t e => defineProp t e.1 e.2) t) k' =
      match lookupLast es k' with
      | some v => some v
      | none => lookupLast t k' := by
  induction es generalizing t with
  | nil => simp [lookupLast]
  | cons e rest ih =>
    obtain ⟨a, b⟩ := e
    simp only [List.foldl_cons, ih, lookupLast, lookupLast_defineProp]
    cases lookupLast rest k' with
    | some w => simp
    | none => by_cases ha : a = k' <;> simp [ha]

/-- The first block of `updateSettings` keeps the prompt and the model. -/
theorem applyVoiceType_keeps (settings : Entries) (v : Voice) :
    (applyVoiceType settings v).currentSystemPrompt = v.currentSystemPrompt ∧
      (applyVoiceType settings v).currentModel = v.currentModel := by
  unfold applyVoiceType
  simp only
  split
  · split
    · unfold sendSessionUpdate
      split <;> exact ⟨rfl, rfl⟩
    · exact ⟨rfl, rfl⟩
  · exact ⟨rfl, rfl⟩

/-- The object `updateSettings` hands to the listeners. -/
theorem updateSettings_snd (settings : Entries) (v : Voice) :
    (updateSettings settings v).2 =
      if (fieldChanged (lookupLast settings "systemPrompt") v.currentSystemPrompt ||
          fieldChanged (lookupLast settings "voiceModel") v.currentModel) = true then
        defineProp (spreadInto [] (.obj settings)) "requiresRestart" (.bool true)
      else settings := by
  obtain ⟨h1, h2⟩ := applyVoiceType_keeps settings v
  unfold updateSettings
  simp only [h1, h2]
  by_cases hp : fieldChanged (lookupLast settings "systemPrompt") v.currentSystemPrompt = true
  · simp [hp]
  · by_cases hm : fieldChanged (lookupLast settings "voiceModel") v.currentModel = true
    · simp [hp, hm, h2]
    · simp [hp, hm, h2]

/-- The prompt and the model after `updateSettings`. -/
theorem updateSettings_fst (settings : Entries) (v : Voice) :
    (updateSettings settings v).1.currentSystemPrompt =
        (if fieldChanged (lookupLast settings "systemPrompt") v.currentSystemPrompt = true then
          (lookupLast settings "systemPrompt").getD v.currentSystemPrompt
        else v.currentSystemPrompt) ∧
      (updateSettings settings v).1.currentModel =
        (if fieldChanged (lookupLast settings "voiceModel") v.currentModel = true then
          (lookupLast settings "voiceModel").getD v.currentModel
        else v.currentModel) := by
  obtain ⟨h1, h2⟩ := applyVoiceType_keeps settings v
  unfold updateSettings
  simp only [h1, h2]
  by_cases hp : fieldChanged (lookupLast settings "systemPrompt") v.currentSystemPrompt = true <;>
    by_cases hm : fieldChanged (lookupLast settings "voiceModel") v.currentModel = true <;>
    simp [hp, hm, h1, h2]

/-- For a field that is text or absent, the test of `updateSettings` is the
change of the setting. -/
theorem fieldChanged_iff (given : Option JVal) (current : JVal)
    (ht : isTextOrAbsent given = true) :
    fieldChanged given current = true ↔ changed given current := by
  cases given with
  | none => simp [fieldChanged, changed]
  | some x =>
    cases x with
    | str s =>
      cases current with
      | str c =>
        simp [fieldChanged, changed, truthy, strictEq]
        intro _
        exact not_congr eq_comm
      | _ => simp [fieldChanged, changed, truthy, strictEq]
    | null => simp [isTextOrAbsent] at ht
    | bool b => simp [isTextOrAbsent] at ht
    | num n => simp [isTextOrAbsent] at ht
    | arr xs => simp [isTextOrAbsent] at ht
    | obj kvs => simp [isTextOrAbsent] at ht

/-- A field that is text or absent is not changed by a second call. -/
theorem fieldChanged_again (given : Option JVal) (current : JVal)
    (ht : isTextOrAbsent given = true) :
    fieldChanged given
      (if fieldChanged given current = true then given.getD current else current) = false := by
  by_cases hc : fieldChanged given current = true
  · rw [if_pos hc]
    cases given with
    | none => simp [fieldChanged] at hc
    | some x =>
      cases x with
      | str s => simp [fieldChanged, strictEq]
      | null => simp [isTextOrAbsent] at ht
      | bool b => simp [isTextOrAbsent] at ht
      | num n => simp [isTextOrAbsent] at ht
      | arr xs => simp [isTextOrAbsent] at ht
      | obj kvs => simp [isTextOrAbsent] at ht
  · rw [if_neg hc]
    simpa using hc

/-- The call of `stopVoiceAssistant` on a service that is not active
returns at its first line. -/
theorem stopVoiceAssistant_of_inactive (v : Voice) (h : v.isActive = false) :
    stopVoiceAssistant v = (v, true) := by
  simp [stopVoiceAssistant, h]

/-- With a truthy `modelInfo` and no telemetry the dashboard throws. -/
theorem renderDashboard_of_null (modelInfo : JVal) (h : truthy (some modelInfo) = true) :
    renderDashboard .null modelInfo =
      .error "TypeError: Cannot read properties of null (reading mc_percent)" := by
  unfold renderDashboard
  rw [h]
  rfl

/-! ## Voice service: the restart flag -/

/-- Claim C22. For settings whose prompt and model are text or absent and
that carry no `requiresRestart` of their own, `updateSettings` hands the
listeners an object with `requiresRestart: true` exactly when the call changes
the system prompt or the voice model (the given value is non-empty and differs
from the current one); that object agrees with the settings on every other
name; a call that changes neither, whatever the voice type, hands over the
settings as given, and so does a second call with the same settings. -/
theorem restart_flag_iff_prompt_or_model_changed (settings : Entries) (v : Voice)
    (hp : isTextOrAbsent (lookupLast settings "systemPrompt") = true)
    (hm : isTextOrAbsent (lookupLast settings "voiceModel") = true)
    (hr : lookupLast settings "requiresRestart" = none) :
    (lookupLast (updateSettings settings v).2 "requiresRestart" = some (.bool true) ↔
        changed (lookupLast settings "systemPrompt") v.currentSystemPrompt ∨
          changed (lookupLast settings "voiceModel") v.currentModel) ∧
      (∀ k, k ≠ "requiresRestart" →
        lookupLast (updateSettings settings v).2 k = lookupLast settings k) ∧
      (¬ (changed (lookupLast settings "systemPrompt") v.currentSystemPrompt ∨
          changed (lookupLast settings "voiceModel") v.currentModel) →
        (updateSettings settings v).2 = settings) ∧
      (updateSettings settings (updateSettings settings v).1).2 = settings := by
  have hcp := fieldChanged_iff (lookupLast settings "systemPrompt") v.currentSystemPrompt hp
  have hcm := fieldChanged_iff (lookupLast settings "voiceModel") v.currentModel hm
  have hor : (fieldChanged (lookupLast settings "systemPrompt") v.currentSystemPrompt ||
      fieldChanged (lookupLast settings "voiceModel") v.currentModel) = true ↔
      (changed (lookupLast settings "systemPrompt") v.currentSystemPrompt ∨
        changed (lookupLast settings "voiceModel") v.currentModel) := by
    rw [Bool.or_eq_true, hcp, hcm]
  refine ⟨?_, ?_, ?_, ?_⟩
  · rw [updateSettings_snd, ← hor]
    by_cases hc : (fieldChanged (lookupLast settings "systemPrompt") v.currentSystemPrompt ||
        fieldChanged (lookupLast settings "voiceModel") v.currentModel) = true
    · rw [if_pos hc, lookupLast_defineProp, if_pos rfl]
      exact ⟨fun _ => hc, fun _ => rfl⟩
    · rw [if_neg hc, hr]
      exact ⟨fun h => Option.noConfusion h, fun h => absurd h hc⟩
  · intro k hk
    rw [updateSettings_snd]
    by_cases hc : (fieldChanged (lookupLast settings "systemPrompt") v.currentSystemPrompt ||
        fieldChanged (lookupLast settings "voiceModel") v.currentModel) = true
    · rw [if_pos hc, lookupLast_defineProp, if_neg (Ne.symm hk)]
      unfold spreadInto
      rw [lookupLast_spread]
      cases hl : lookupLast settings k with
      | some w => simp [ownProps, hl]
      | none => simp [ownProps, hl, lookupLast]
    · rw [if_neg hc]
  · intro hn
    rw [updateSettings_snd, if_neg (fun hc => hn (hor.mp hc))]
  · obtain ⟨h1, h2⟩ := updateSettings_fst settings v
    rw [updateSettings_snd, h1, h2, fieldChanged_again _ _ hp, fieldChanged_again _ _ hm]
    rfl

/-- Claim C22, at a concrete call: a new prompt on the service as constructed
sets the flag, and the same settings a second time are handed over as given. -/
theorem restart_flag_iff_prompt_or_model_changed_witness :
    (lookupLast (updateSettings [("voiceType", .str "alloy"), ("systemPrompt", .str "Hi")]
        (voiceStart "k")).2 "requiresRestart" = some (.bool true) ↔
        changed (lookupLast [("voiceType", .str "alloy"), ("systemPrompt", .str "Hi")] "systemPrompt")
            (voiceStart "k").currentSystemPrompt ∨
          changed (lookupLast [("voiceType", .str "alloy"), ("systemPrompt", .str "Hi")] "voiceModel")
            (voiceStart "k").currentModel) ∧
      (updateSettings [("voiceType", .str "alloy"), ("systemPrompt", .str "Hi")]
        (updateSettings [("voiceType", .str "alloy"), ("systemPrompt", .str "Hi")]
          (voiceStart "k")).1).2 = [("voiceType", .str "alloy"), ("systemPrompt", .str "Hi")] :=
  have h := restart_flag_iff_prompt_or_model_changed
    [("voiceType", .str "alloy"), ("systemPrompt", .str "Hi")] (voiceStart "k") rfl rfl rfl
  ⟨h.1, h.2.2.2⟩

/-! ## Voice service: a start that fails -/

/-- Claim C23. A start that fails leaves what it acquired: with an API key
set, when the microphone is refused the call returns false with the peer
connection and the audio element still held, and when the SDP exchange fails
it returns false with the media stream, its live track and the data channel
still held as well; the cleanup it calls returns at its first line because the
service was never active. -/
theorem failed_start_leaves_resources :
    (voiceStart "sk-test").idle = true ∧
      (startVoiceAssistant [] (some .microphone) (voiceStart "sk-test")).2 = false ∧
      (startVoiceAssistant [] (some .microphone) (voiceStart "sk-test")).1.isActive = false ∧
      (startVoiceAssistant [] (some .microphone) (voiceStart "sk-test")).1.peerConnection = true ∧
      (startVoiceAssistant [] (some .microphone) (voiceStart "sk-test")).1.audioElement = true ∧
      (startVoiceAssistant [] (some .microphone) (voiceStart "sk-test")).1.idle = false ∧
      (startVoiceAssistant [] (some .sdpExchange) (voiceStart "sk-test")).2 = false ∧
      (startVoiceAssistant [] (some .sdpExchange) (voiceStart "sk-test")).1.mediaStream = true ∧
      (startVoiceAssistant [] (some .sdpExchange) (voiceStart "sk-test")).1.liveTracks = 1 ∧
      (startVoiceAssistant [] (some .sdpExchange) (voiceStart "sk-test")).1.dataChannel =
        some false ∧
      (startVoiceAssistant [] (some .sdpExchange) (voiceStart "sk-test")).1.idle = false := by
  decide

/-! ## Printing app: the dashboard without telemetry -/

/-- Claim C24. With no telemetry and a model object, as the model endpoint
answers for an account without task, the dashboard does not show the loading
line: it renders the panel and reads `mc_percent` of the null telemetry, which
throws; only with both absent is the loading line shown. -/
theorem dashboard_reads_null_telemetry :
    truthy (some emptyModelInfo) = true ∧
      renderDashboard .null emptyModelInfo =
        .error "TypeError: Cannot read properties of null (reading mc_percent)" ∧
      renderDashboard .null .null = .ok .loading :=
  ⟨rfl, rfl, rfl⟩

/-! ## Cloud account: the two token checks -/

/-- Claim C25. The two token checks differ when the token expires at the
very clock reading: for the stored token with access token `tok` and expiry
1000, at clock reading 1000, the status endpoint reports `loggedIn: false`
while the model endpoint does not answer 401: it calls the cloud API with the
token, whatever that replies, and answers 200 when the reply is an empty
task list. -/
theorem token_checks_differ_at_expiry :
    tokenLoggedIn (fun _ => none) 1000
        (.obj [("accessToken", .str "tok"), ("tokenExpiration", .num 1000)]) = false ∧
      getTokenStatus (fun _ => none) 1000
          (.obj [("accessToken", .str "tok"), ("tokenExpiration", .num 1000)]) =
        { status := 200, body := some (.obj [("loggedIn", .bool false)]) } ∧
      modelAnswers401 (fun _ => none) 1000 (.ok (.obj []))
        (.obj [("accessToken", .str "tok"), ("tokenExpiration", .num 1000)]) = false ∧
      (getModel (fun _ => none) 1000 (.ok (.obj []))
          (.obj [("accessToken", .str "tok"), ("tokenExpiration", .num 1000)])).response =
        some { status := 200, body := some emptyModelInfo } ∧
      ∀ cloud : CloudReply,
        (getModel (fun _ => none) 1000 cloud
          (.obj [("accessToken", .str "tok"), ("tokenExpiration", .num 1000)])).authorization =
          some "Bearer tok" :=
  ⟨rfl, rfl, rfl, rfl, fun _ => rfl⟩

/-! ## Config store: a save whose write fails -/

/-- Claim C26, amended. When the write to storage fails, `saveBambuConfig`
rejects with the merge already made and not undone: the in-memory config is
the one before the call with the submitted properties assigned, the file keeps
its content, the config write endpoint answers 500, and a following read of
the config returns the merged object, values that were not persisted
included. -/
theorem failed_save_keeps_merge (E : JsonLib) (rnd : String) (body : JVal) (st : Relay) :
    (saveBambuConfig E false body st).2 = .threw "writeFile failed" ∧
      (saveBambuConfig E false body st).1.bambuConfig = objectAssign st.bambuConfig body ∧
      (saveBambuConfig E false body st).1.configFile = st.configFile ∧
      (postConfig E rnd false body st).2.status = 500 ∧
      (postConfig E rnd false body st).1.configFile = st.configFile ∧
      getConfig (postConfig E rnd false body st).1 =
        { status := 200, body := some (.obj (objectAssign st.bambuConfig body)) } ∧
      ∀ k, k ≠ "__proto__" →
        lookupLast (objectAssign st.bambuConfig body) k =
          match lookupLast (ownProps body) k with
          | some v => some v
          | none => lookupLast st.bambuConfig k :=
  ⟨rfl, rfl, rfl, rfl, rfl, rfl, fun k hk => lookupLast_assign (ownProps body) st.bambuConfig k hk⟩

/-- Claim C26, the claim as stated fails: on the sample config, whose serial
number is `ABC123` and which was never written, a post of the serial number
`NEWSN` whose write fails answers 500 and writes nothing, yet a following read
of the config returns `NEWSN`. -/
theorem failed_post_serves_unpersisted :
    lookupLast (sampleStart "X1" (.num 8883)).bambuConfig "printerSN" = some (.str "ABC123") ∧
      (sampleStart "X1" (.num 8883)).configFile = none ∧
      (postConfig sampleJson "a1b2" false (.obj [("printerSN", .str "NEWSN")])
        (sampleStart "X1" (.num 8883))).2.status = 500 ∧
      (postConfig sampleJson "a1b2" false (.obj [("printerSN", .str "NEWSN")])
        (sampleStart "X1" (.num 8883))).1.configFile = none ∧
      (postConfig sampleJson "a1b2" false (.obj [("printerSN", .str "NEWSN")])
        (sampleStart "X1" (.num 8883))).1.bambuConfig ≠ (sampleStart "X1" (.num 8883)).bambuConfig ∧
      getConfig (postConfig sampleJson "a1b2" false (.obj [("printerSN", .str "NEWSN")])
          (sampleStart "X1" (.num 8883))).1 =
        { status := 200
          body := some (.obj [("printerURL", .str "10.0.0.5"), ("printerPort", .num 8883),
            ("printerSN", .str "NEWSN"), ("printerAccessCode", .str "secret"),
            ("printerType", .str "X1")]) } := by
  refine ⟨rfl, rfl, rfl, rfl, ?_, rfl⟩
  intro h
  have h2 := congrArg (fun c => lookupLast c "printerSN") h
  simp [postConfig, saveBambuConfig, Relay.emit, objectAssign, ownProps, setProp, sampleStart,
    sampleConfig, lookupLast] at h2

/-! ## Settings service: loading -/

/-- Lookup in the object literal that spreads the defaults and then the
stored value: the stored value where the stored object has the name, the
default otherwise. -/
theorem lookupLast_overlay (defaults : Entries) (parsed : JVal) (k : String) :
    lookupLast (spreadInto (spreadInto [] (.obj defaults)) parsed) k =
      match lookupLast (ownProps parsed) k with
      | some w => some w
      | none => lookupLast defaults k := by
  unfold spreadInto
  rw [lookupLast_spread, lookupLast_spread]
  cases lookupLast (ownProps parsed) k with
  | some w => rfl
  | none =>
    cases hl : lookupLast defaults k with
    | some w => simp [ownProps, hl]
    | none => simp [ownProps, hl, lookupLast]

/-- What `loadSettings` returns, case by case. -/
theorem loadSettings_eq (E : JsonLib) (defaults : Entries) (read : StorageRead) :
    loadSettings E defaults read =
      .ok (match read with
        | .threw _ => defaults
        | .value none => defaults
        | .value (some s) =>
          if s = "" then defaults
          else
            match E.parse s with
            | none => defaults
            | some parsed => spreadInto (spreadInto [] (.obj defaults)) parsed) := by
  unfold loadSettings
  cases read with
  | threw e => rfl
  | value text =>
    cases text with
    | none => rfl
    | some s =>
      by_cases hs : s = ""
      · subst hs
        rfl
      · have ht : truthy ((some s).map JVal.str) = true := by simp [truthy, hs]
        simp only [ht, if_true, Option.getD_some, if_neg hs]
        cases E.parse s <;> rfl

/-- Claim C27. The function `loadSettings` always returns, never throws, and
its result holds every key of the default settings: it is the defaults when
storage access throws, when nothing or the empty text is stored and when the
stored text does not decode; otherwise it is the defaults overlaid by the
stored value, a stored property taking precedence over the default of the same
name. -/
theorem load_settings_defaults_or_overlay (E : JsonLib) (defaults : Entries) :
    (∀ read, ∃ settings, loadSettings E defaults read = .ok settings ∧
        ∀ k, (lookupLast defaults k).isSome = true → (lookupLast settings k).isSome = true) ∧
      (∀ e, loadSettings E defaults (.threw e) = .ok defaults) ∧
      loadSettings E defaults (.value none) = .ok defaults ∧
      loadSettings E defaults (.value (some "")) = .ok defaults ∧
      (∀ s, E.parse s = none → loadSettings E defaults (.value (some s)) = .ok defaults) ∧
      (∀ s parsed, s ≠ "" → E.parse s = some parsed →
        ∃ settings, loadSettings E defaults (.value (some s)) = .ok settings ∧
          ∀ k, lookupLast settings k =
            match lookupLast (ownProps parsed) k with
            | some w => some w
            | none => lookupLast defaults k) := by
  refine ⟨?_, fun _ => rfl, rfl, rfl, ?_, ?_⟩
  · intro read
    refine ⟨_, loadSettings_eq E defaults read, ?_⟩
    intro k hk
    cases read with
    | threw e => exact hk
    | value text =>
      cases text with
      | none => exact hk
      | some s =>
        simp only
        by_cases hs : s = ""
        · rw [if_pos hs]
          exact hk
        · rw [if_neg hs]
          cases E.parse s with
          | none => exact hk
          | some parsed =>
            simp only
            rw [lookupLast_overlay]
            cases lookupLast (ownProps parsed) k with
            | some w => rfl
            | none => exact hk
  · intro s hp
    rw [loadSettings_eq]
    simp only [hp]
    by_cases hs : s = "" <;> simp [hs]
  · intro s parsed hs hp
    refine ⟨_, loadSettings_eq E defaults _, ?_⟩
    intro k
    simp only [if_neg hs, hp]
    exact lookupLast_overlay defaults parsed k

/-! ## Hugging Face config: the write endpoint -/

/-- Assignment of a name other than `__proto__` is the definition of the
property. -/
theorem setProp_eq_defineProp (t : Entries) (k : String) (v : JVal) (hk : k ≠ "__proto__") :
    setProp t k v = defineProp t k v := by
  simp [setProp, defineProp, hk]

/-- For a field that is text or absent, falsy means missing or empty. -/
theorem not_truthy_text (g : Option JVal) (ht : isTextOrAbsent g = true) :
    (!truthy g) = missingOrEmpty g := by
  cases g with
  | none => rfl
  | some x =>
    cases x with
    | str s =>
      show (!(!(s == ""))) = (s == "")
      cases (s == "") <;> rfl
    | null => simp [isTextOrAbsent] at ht
    | bool b => simp [isTextOrAbsent] at ht
    | num n => simp [isTextOrAbsent] at ht
    | arr xs => simp [isTextOrAbsent] at ht
    | obj kvs => simp [isTextOrAbsent] at ht

/-- Member access on a value other than `null` does not throw. -/
theorem getMember_of_ne_null (body : JVal) (k : String) (hb : body ≠ .null) :
    getMember (some body) k = .ok (field body k) := by
  cases body with
  | null => exact absurd rfl hb
  | bool b => rfl
  | num n => rfl
  | str t => rfl
  | arr xs => rfl
  | obj kvs => rfl

/-- The write endpoint on a body one of whose two fields is falsy: 400, and
the store as it was. -/
theorem postHfConfig_rejected (E : JsonLib) (writeOk : Bool) (body : JVal) (st : HfStore)
    (hb : body ≠ .null)
    (h : (!truthy (field body "huggingFaceToken") || !truthy (field body "modelID")) = true) :
    postHfConfig E writeOk body st =
      (st, some { status := 400
                  body := some (.obj [("error", .str "Token and Model ID are required")]) }) := by
  unfold postHfConfig
  rw [getMember_of_ne_null body _ hb, getMember_of_ne_null body _ hb]
  simp only
  rw [if_pos h]

/-- The write endpoint on a body with both fields truthy: the two values
are assigned, then written. -/
theorem postHfConfig_accepted (E : JsonLib) (writeOk : Bool) (body : JVal) (st : HfStore)
    (a b : JVal) (hb : body ≠ .null) (ha : field body "huggingFaceToken" = some a)
    (hm : field body "modelID" = some b)
    (h : (!truthy (some a) || !truthy (some b)) = false) :
    postHfConfig E writeOk body st =
      if writeOk = true then
        ({ hfConfig := defineProp (defineProp st.hfConfig "huggingFaceToken" a) "modelID" b
           hfConfigFile := some (E.stringifyIndented (.obj
             (defineProp (defineProp st.hfConfig "huggingFaceToken" a) "modelID" b))) },
          some { status := 200, body := some (.obj [("success", .bool true)]) })
      else
        ({ hfConfig := defineProp (defineProp st.hfConfig "huggingFaceToken" a) "modelID" b
           hfConfigFile := st.hfConfigFile },
          some { status := 500
                 body := some (.obj [("error", .str "Failed to save configuration")]) }) := by
  have h1 : objectAssign st.hfConfig
      (.obj (definedFields [("huggingFaceToken", some a), ("modelID", some b)])) =
      defineProp (defineProp st.hfConfig "huggingFaceToken" a) "modelID" b := by
    simp only [objectAssign, ownProps, definedFields, List.filterMap, Option.map, List.foldl]
    rw [setProp_eq_defineProp _ _ _ (by decide), setProp_eq_defineProp _ _ _ (by decide)]
  unfold postHfConfig
  rw [getMember_of_ne_null body _ hb, getMember_of_ne_null body _ hb]
  simp only [ha, hm]
  rw [if_neg (by simp [h])]
  unfold saveHFConfig
  simp only [h1]
  cases writeOk <;> rfl

/-- Claim C28, as the code has it. For every request body, the write
endpoint answers 400 exactly when `huggingFaceToken` or `modelID` is falsy in
it (missing, null, false, 0 or the empty text; for a field that is text or
absent: missing or empty), and then leaves the in-memory config and the file
as they were. Otherwise the in-memory config holds the two submitted values,
every other name as before, and a following read returns the two values; the
file is written with the whole config when the write succeeds (answer 200)
and keeps its content when the write fails (answer 500). -/
theorem hf_config_post_rejects_falsy (E : JsonLib) (writeOk : Bool) (body : JVal)
    (st : HfStore) (hb : body ≠ .null) :
    ((∃ r, (postHfConfig E writeOk body st).2 = some r ∧ r.status = 400) ↔
        (truthy (field body "huggingFaceToken") = false ∨
          truthy (field body "modelID") = false)) ∧
      ((truthy (field body "huggingFaceToken") = false ∨
          truthy (field body "modelID") = false) →
        postHfConfig E writeOk body st =
          (st, some { status := 400
                      body := some (.obj [("error", .str "Token and Model ID are required")]) })) ∧
      (truthy (field body "huggingFaceToken") = true ∧ truthy (field body "modelID") = true →
        lookupLast (postHfConfig E writeOk body st).1.hfConfig "huggingFaceToken" =
            field body "huggingFaceToken" ∧
          lookupLast (postHfConfig E writeOk body st).1.hfConfig "modelID" =
            field body "modelID" ∧
          (∀ k, k ≠ "huggingFaceToken" → k ≠ "modelID" →
            lookupLast (postHfConfig E writeOk body st).1.hfConfig k =
              lookupLast st.hfConfig k) ∧
          getHfConfig (postHfConfig E writeOk body st).1 =
            { status := 200
              body := some (.obj (definedFields
                [("huggingFaceToken", field body "huggingFaceToken"),
                 ("modelID", field body "modelID")])) } ∧
          (writeOk = true →
            (postHfConfig E writeOk body st).2 =
                some { status := 200, body := some (.obj [("success", .bool true)]) } ∧
              (postHfConfig E writeOk body st).1.hfConfigFile =
                some (E.stringifyIndented
                  (.obj (postHfConfig E writeOk body st).1.hfConfig))) ∧
          (writeOk = false →
            (postHfConfig E writeOk body st).2 =
                some { status := 500
                       body := some (.obj [("error", .str "Failed to save configuration")]) } ∧
              (postHfConfig E writeOk body st).1.hfConfigFile = st.hfConfigFile)) ∧
      (∀ g, isTextOrAbsent g = true → (truthy g = false ↔ missingOrEmpty g = true)) := by
  refine ⟨?_, ?_, ?_, ?_⟩
  · by_cases hf : truthy (field body "huggingFaceToken") = false ∨
        truthy (field body "modelID") = false
    · have hpost := postHfConfig_rejected E writeOk body st hb (by
        rcases hf with hf | hf <;> simp [hf])
      rw [hpost]
      exact ⟨fun _ => hf, fun _ => ⟨_, rfl, rfl⟩⟩
    · have hT : truthy (field body "huggingFaceToken") = true := by
        cases ht : truthy (field body "huggingFaceToken")
        · exact absurd (Or.inl ht) hf
        · rfl
      have hM : truthy (field body "modelID") = true := by
        cases ht : truthy (field body "modelID")
        · exact absurd (Or.inr ht) hf
        · rfl
      cases hTa : field body "huggingFaceToken" with
      | none =>
        rw [hTa] at hT
        cases hT
      | some a =>
        cases hMb : field body "modelID" with
        | none =>
          rw [hMb] at hM
          cases hM
        | some b =>
          rw [hTa] at hT
          rw [hMb] at hM
          have hpost := postHfConfig_accepted E writeOk body st a b hb hTa hMb (by simp [hT, hM])
          rw [hpost]
          cases writeOk <;> simp [hT, hM]
  · intro hf
    exact postHfConfig_rejected E writeOk body st hb (by rcases hf with hf | hf <;> simp [hf])
  · rintro ⟨hT, hM⟩
    cases hTa : field body "huggingFaceToken" with
    | none =>
      rw [hTa] at hT
      cases hT
    | some a =>
      cases hMb : field body "modelID" with
      | none =>
        rw [hMb] at hM
        cases hM
      | some b =>
        rw [hTa] at hT
        rw [hMb] at hM
        have hpost := postHfConfig_accepted E writeOk body st a b hb hTa hMb (by simp [hT, hM])
        rw [hpost]
        cases writeOk
        · simp [lookupLast_defineProp, getHfConfig, definedFields]
          intro k h1 h2
          rw [if_neg (Ne.symm h2), if_neg (Ne.symm h1)]
        · simp [lookupLast_defineProp, getHfConfig, definedFields]
          intro k h1 h2
          rw [if_neg (Ne.symm h2), if_neg (Ne.symm h1)]
  · intro g hg
    have h := not_truthy_text g hg
    rw [← h]
    cases truthy g <;> simp

/-- An instance of claim C28: a token and a model identifier posted to the
store as it starts are what a following read returns. -/
theorem hf_config_post_rejects_falsy_witness :
    getHfConfig (postHfConfig sampleJson true
        (.obj [("huggingFaceToken", .str "hf_abc"), ("modelID", .str "org/model")])
        { hfConfig := defaultHfConfig (fun _ => none), hfConfigFile := none }).1 =
      { status := 200
        body := some (.obj (definedFields
          [("huggingFaceToken",
              field (.obj [("huggingFaceToken", .str "hf_abc"), ("modelID", .str "org/model")])
                "huggingFaceToken"),
           ("modelID",
              field (.obj [("huggingFaceToken", .str "hf_abc"), ("modelID", .str "org/model")])
                "modelID")])) } :=
  ((hf_config_post_rejects_falsy sampleJson true
    (.obj [("huggingFaceToken", .str "hf_abc"), ("modelID", .str "org/model")])
    { hfConfig := defaultHfConfig (fun _ => none), hfConfigFile := none }
    (fun hn => JVal.noConfusion hn)).2.2.1 ⟨rfl, rfl⟩).2.2.2.1

/-- Claim C28 fails as stated: a body whose token is the number 0, neither
missing nor empty, with a model identifier set, is answered 400 and the store
stays as it was. -/
theorem hf_config_zero_token_rejected :
    missingOrEmpty
        (field (.obj [("huggingFaceToken", .num 0), ("modelID", .str "org/model")])
          "huggingFaceToken") = false ∧
      missingOrEmpty
        (field (.obj [("huggingFaceToken", .num 0), ("modelID", .str "org/model")])
          "modelID") = false ∧
      (postHfConfig sampleJson true
        (.obj [("huggingFaceToken", .num 0), ("modelID", .str "org/model")])
        { hfConfig := defaultHfConfig (fun _ => none), hfConfigFile := none }).2 =
        some { status := 400
               body := some (.obj [("error", .str "Token and Model ID are required")]) } ∧
      (postHfConfig sampleJson true
        (.obj [("huggingFaceToken", .num 0), ("modelID", .str "org/model")])
        { hfConfig := defaultHfConfig (fun _ => none), hfConfigFile := none }).1.hfConfig =
        defaultHfConfig (fun _ => none) :=
  ⟨rfl, rfl, rfl, rfl⟩

end Holomat
